import Mathlib

/-!
# OpenGL teaching framework: geometry, texture and uniform-buffer wrappers

A shallow embedding of `geometry/geometry_base.hpp`, `geometry/geometry.hpp`,
`opengl/texture.hpp`, `opengl/ubo.hpp`, `scene/scene_object.hpp` and
`iapplication.hpp` of `framework/core/include`, of `pv112_application.hpp` of
`framework/pv112/include`, and of the application `pv112_seminars/template`.

Conventions of the embedding.

* `float` values are only stored, copied and (in one accessor) averaged, so every
  definition is generic in the carrier `F` of the float values.
* `int` / `GLsizei` / `GLint` values are `Int`.  Signed arithmetic that leaves the
  32-bit range is undefined behaviour in C++; it is modelled by `none`
  (`checked`).  Conversions of an unsigned value to `int` are modular (`to_int`).
* `size_t` values are `Nat`; `std::vector<float>` is `List F`, and an access
  outside the vector (undefined behaviour) is `none`.
* `GLenum` / `GLuint` values are `Nat`.
* The OpenGL context is an explicit state `GLContext` that records the commands
  issued, in order, and hands out fresh object names.
* Text written to `std::cout` is not modelled.
* A failed `assert` ends the program; it is modelled by `none`.
* Headers that are not among the sources (`color.hpp`, `program.hpp`,
  `model_ubo.hpp`, the library `glm`) enter as parameters, or as definitions marked
  as modelled from the specification.
-/

namespace PV112

/-! ## Machine integers and vectors -/

/-- Smallest value of a 32-bit `int`. -/
def INT_MIN : Int := -2147483648

/-- Largest value of a 32-bit `int`. -/
def INT_MAX : Int := 2147483647

/-- Result of a signed `int` operation whose mathematical value is `v`:
overflow is undefined behaviour, modelled as `none`. -/
def checked (v : Int) : Option Int :=
  if INT_MIN ≤ v ∧ v ≤ INT_MAX then some v else none

/-- Conversion of an integer value to a 32-bit `int` (`static_cast<int>`,
`static_cast<GLsizei>`, implicit narrowing): reduction modulo `2^32` into the
signed range. -/
def to_int (v : Int) : Int := (v + 2147483648) % 4294967296 - 2147483648

/-- Conversion of an `int` to `size_t` (64 bit): reduction modulo `2^64`. -/
def to_size_t (v : Int) : Nat := (v % 18446744073709551616).toNat

/-- Addition of `size_t` values wraps modulo `2^64`. -/
def size_t_add (a b : Nat) : Nat := (a + b) % 18446744073709551616

/-- Multiplication of `size_t` values wraps modulo `2^64`. -/
def size_t_mul (a b : Nat) : Nat := (a * b) % 18446744073709551616

/-- The value of `sizeof(float)`. -/
def sizeof_float : Nat := 4

/-- Reading `v[i]` of a `std::vector`: outside the vector the behaviour is undefined. -/
def vec_read {F : Type} (v : List F) (i : Nat) : Option F := v[i]?

/-- Writing `v[i] = a` of a `std::vector`: outside the vector the behaviour is undefined. -/
def vec_write {F : Type} (v : List F) (i : Nat) (a : F) : Option (List F) :=
  if i < v.length then some (v.set i a) else none

/-- The statement `dst.push_back(src[i])`. -/
def push_back_from {F : Type} (dst src : List F) (i : Nat) : Option (List F) :=
  (vec_read src i).map (fun a => dst ++ [a])

/-- The loop `for (size_t i = 0; i < n; i += 1) body`, threading the state `s`. -/
def for_size_t {σ : Type} (n : Nat) (body : Nat → σ → Option σ) (s : σ) : Option σ :=
  (List.range n).foldlM (fun (s : σ) (i : Nat) => body i s) s

/-- The loop `for (int i = 0; i < n; i++) body`, threading the state `s`. -/
def for_int {σ : Type} (n : Int) (body : Int → σ → Option σ) (s : σ) : Option σ :=
  (List.range n.toNat).foldlM (fun (s : σ) (i : Nat) => body (i : Int) s) s

/-! ## OpenGL constants and context -/

/-- The constant `GL_POINTS` of the OpenGL headers. -/
def GL_POINTS : Nat := 0x0000
/-- The constant `GL_PATCHES` of the OpenGL headers. -/
def GL_PATCHES : Nat := 0x000E
/-- The constant `GL_PATCH_VERTICES` of the OpenGL headers. -/
def GL_PATCH_VERTICES : Nat := 0x8E72
/-- The constant `GL_UNSIGNED_INT` of the OpenGL headers. -/
def GL_UNSIGNED_INT : Nat := 0x1405
/-- The constant `GL_FLOAT` of the OpenGL headers. -/
def GL_FLOAT : Nat := 0x1406
/-- The constant `GL_TEXTURE_2D` of the OpenGL headers. -/
def GL_TEXTURE_2D : Nat := 0x0DE1
/-- The constant `GL_DEPTH_COMPONENT` of the OpenGL headers. -/
def GL_DEPTH_COMPONENT : Nat := 0x1902
/-- The constant `GL_RGBA` of the OpenGL headers. -/
def GL_RGBA : Nat := 0x1908
/-- The constant `GL_RGBA8` of the OpenGL headers. -/
def GL_RGBA8 : Nat := 0x8058

/-- The OpenGL commands issued by the embedded code, with their arguments in the
order of the C call (`nullptr` is `0`).  For the `Create*` and `Delete*` commands the
last argument is the name behind the pointer argument.  For the buffer commands
`data` holds the bytes behind the pointer argument (none for `nullptr`); the pixel
pointer of `TextureSubImage2D` is not recorded. -/
inductive GLCall where
  | BindVertexArray (array : Nat)
  | PatchParameteri (pname : Nat) (value : Int)
  | DrawElements (mode : Nat) (count : Int) (type : Nat) (indices : Nat)
  | DrawArrays (mode : Nat) (first : Int) (count : Int)
  | DrawElementsInstanced (mode : Nat) (count : Int) (type : Nat) (indices : Nat)
      (instancecount : Int)
  | DrawArraysInstanced (mode : Nat) (first : Int) (count : Int) (instancecount : Int)
  | CreateTextures (target : Nat) (n : Int) (name : Nat)
  | TextureStorage2D (texture : Nat) (levels : Int) (internalformat : Nat)
      (width : Int) (height : Int)
  | TextureSubImage2D (texture : Nat) (level xoffset yoffset : Int) (width height : Int)
      (format type : Nat)
  | DeleteTextures (n : Int) (name : Nat)
  | CreateBuffers (n : Int) (name : Nat)
  | NamedBufferStorage (buffer : Nat) (size : Nat) (data : List Nat) (flags : Nat)
  | NamedBufferSubData (buffer : Nat) (offset : Int) (size : Nat) (data : List Nat)
  | DeleteBuffers (n : Int) (name : Nat)
  | BindBufferBase (target index buffer : Nat)
  | BindBufferRange (target index buffer : Nat) (offset : Int) (size : Nat)
  | Viewport (x y : Int) (width height : Int)
  deriving DecidableEq, Repr

/-- Whether a command is one of the four draw commands. -/
def GLCall.is_draw : GLCall → Bool
  | .DrawElements _ _ _ _ => true
  | .DrawArrays _ _ _ => true
  | .DrawElementsInstanced _ _ _ _ _ => true
  | .DrawArraysInstanced _ _ _ _ => true
  | _ => false

/-- The current OpenGL context: the commands issued so far (oldest first) and the
last object name handed out (names are non-zero and never reused). -/
structure GLContext where
  calls : List GLCall
  last_name : Nat
  deriving DecidableEq, Repr

/-- Issue a command. -/
def GLContext.issue (gl : GLContext) (c : GLCall) : GLContext :=
  { gl with calls := gl.calls ++ [c] }

/-- The call `glBindVertexArray(array)`. -/
def glBindVertexArray (array : Nat) (gl : GLContext) : GLContext :=
  gl.issue (.BindVertexArray array)

/-- The call `glPatchParameteri(pname, value)`. -/
def glPatchParameteri (pname : Nat) (value : Int) (gl : GLContext) : GLContext :=
  gl.issue (.PatchParameteri pname value)

/-- The call `glDrawElements(mode, count, type, indices)`. -/
def glDrawElements (mode : Nat) (count : Int) (type indices : Nat) (gl : GLContext) :
    GLContext :=
  gl.issue (.DrawElements mode count type indices)

/-- The call `glDrawArrays(mode, first, count)`. -/
def glDrawArrays (mode : Nat) (first count : Int) (gl : GLContext) : GLContext :=
  gl.issue (.DrawArrays mode first count)

/-- The call `glDrawElementsInstanced(mode, count, type, indices, instancecount)`. -/
def glDrawElementsInstanced (mode : Nat) (count : Int) (type indices : Nat)
    (instancecount : Int) (gl : GLContext) : GLContext :=
  gl.issue (.DrawElementsInstanced mode count type indices instancecount)

/-- The call `glDrawArraysInstanced(mode, first, count, instancecount)`. -/
def glDrawArraysInstanced (mode : Nat) (first count instancecount : Int)
    (gl : GLContext) : GLContext :=
  gl.issue (.DrawArraysInstanced mode first count instancecount)

/-- The call `glCreateTextures(target, 1, &name)`: returns the fresh name. -/
def glCreateTextures (target : Nat) (gl : GLContext) : Nat × GLContext :=
  let name := gl.last_name + 1
  (name, { calls := gl.calls ++ [.CreateTextures target 1 name], last_name := name })

/-- The call `glTextureStorage2D(texture, levels, internalformat, width, height)`. -/
def glTextureStorage2D (texture : Nat) (levels : Int) (internalformat : Nat)
    (width height : Int) (gl : GLContext) : GLContext :=
  gl.issue (.TextureStorage2D texture levels internalformat width height)

/-- The constant `GL_UNIFORM_BUFFER` of the OpenGL headers. -/
def GL_UNIFORM_BUFFER : Nat := 0x8A11
/-- The constant `GL_DYNAMIC_STORAGE_BIT` of the OpenGL headers. -/
def GL_DYNAMIC_STORAGE_BIT : Nat := 0x0100

/-- The call `glTextureSubImage2D(texture, level, xoffset, yoffset, width, height,
format, type, pixels)`. -/
def glTextureSubImage2D (texture : Nat) (level xoffset yoffset width height : Int)
    (format type : Nat) (gl : GLContext) : GLContext :=
  gl.issue (.TextureSubImage2D texture level xoffset yoffset width height format type)

/-- The call `glDeleteTextures(1, &name)`. -/
def glDeleteTextures (name : Nat) (gl : GLContext) : GLContext :=
  gl.issue (.DeleteTextures 1 name)

/-- The call `glCreateBuffers(1, &name)`: returns the fresh name. -/
def glCreateBuffers (gl : GLContext) : Nat × GLContext :=
  let name := gl.last_name + 1
  (name, { calls := gl.calls ++ [.CreateBuffers 1 name], last_name := name })

/-- The call `glNamedBufferStorage(buffer, size, data, flags)`. -/
def glNamedBufferStorage (buffer size : Nat) (data : List Nat) (flags : Nat)
    (gl : GLContext) : GLContext :=
  gl.issue (.NamedBufferStorage buffer size data flags)

/-- The call `glNamedBufferSubData(buffer, offset, size, data)`. -/
def glNamedBufferSubData (buffer : Nat) (offset : Int) (size : Nat) (data : List Nat)
    (gl : GLContext) : GLContext :=
  gl.issue (.NamedBufferSubData buffer offset size data)

/-- The call `glDeleteBuffers(1, &name)`. -/
def glDeleteBuffers (name : Nat) (gl : GLContext) : GLContext :=
  gl.issue (.DeleteBuffers 1 name)

/-- The call `glBindBufferBase(target, index, buffer)`. -/
def glBindBufferBase (target index buffer : Nat) (gl : GLContext) : GLContext :=
  gl.issue (.BindBufferBase target index buffer)

/-- The constant `GL_SHADER_STORAGE_BUFFER` of the OpenGL headers. -/
def GL_SHADER_STORAGE_BUFFER : Nat := 0x90D2

/-- The call `glBindBufferRange(target, index, buffer, offset, size)`. -/
def glBindBufferRange (target index buffer : Nat) (offset : Int) (size : Nat)
    (gl : GLContext) : GLContext :=
  gl.issue (.BindBufferRange target index buffer offset size)

/-- The call `glViewport(x, y, width, height)`. -/
def glViewport (x y width height : Int) (gl : GLContext) : GLContext :=
  gl.issue (.Viewport x y width height)

/-! ## `Geometry_Base` -/

/-- The default location of position vertex attribute. -/
def DEFAULT_POSITION_LOC : Int := 0
/-- The default location of normal vertex attribute. -/
def DEFAULT_NORMAL_LOC : Int := 1
/-- The default location of texture coordinate vertex attribute. -/
def DEFAULT_TEX_COORD_LOC : Int := 2
/-- The default location of tangent vertex attribute. -/
def DEFAULT_TANGENT_LOC : Int := 3
/-- The default location of bitangent vertex attribute. -/
def DEFAULT_BITANGENT_LOC : Int := 4

/-- The fields of `Geometry_Base`, with the default member initialisers. -/
structure Geometry_Base (F : Type) where
  mode : Nat := GL_POINTS
  vertex_buffer_size : Int := 0
  vertex_buffer_stride : Int := 0
  interleaved_vertices : List F := []
  elements_per_vertex : Int := 0
  draw_arrays_count : Int := 0
  draw_elements_count : Int := 0
  patch_vertices : Int := 0
  vao : Nat := 0
  vertex_buffer : Nat := 0
  index_buffer : Nat := 0
  position_loc : Int := DEFAULT_POSITION_LOC
  normal_loc : Int := DEFAULT_NORMAL_LOC
  tex_coord_loc : Int := DEFAULT_TEX_COORD_LOC
  tangent_loc : Int := DEFAULT_TANGENT_LOC
  bitangent_loc : Int := DEFAULT_BITANGENT_LOC
  deriving DecidableEq, Repr

namespace Geometry_Base

variable {F : Type}

/-- Sets the default number of patch vertices if the current mode is GL_PATCHES. -/
def init_patches_count (g : Geometry_Base F) : Geometry_Base F :=
  if g.mode = GL_PATCHES then { g with patch_vertices := 16 } else g

/-- The expression `elements_per_vertex * sizeof(float)` assigned to the `GLsizei`
stride: the `int` is converted to `size_t`, multiplied, and narrowed. -/
def stride_of (elements_per_vertex : Int) : Int :=
  to_int (size_t_mul (to_size_t elements_per_vertex) sizeof_float)

/-- Body of the interleaving loop of the separate-arrays constructor (lines 158-183):
the statements `interleaved_vertices.push_back(...)` for vertex `i`, in order. -/
def interleave_vertex (positions normals tex_coords tangents bitangents : List F)
    (i : Nat) (iv : List F) : Option (List F) := do
  let iv ← push_back_from iv positions (i * 3 + 0)
  let iv ← push_back_from iv positions (i * 3 + 1)
  let iv ← push_back_from iv positions (i * 3 + 2)
  let iv ← (if !normals.isEmpty then do
      let iv ← push_back_from iv normals (i * 3 + 0)
      let iv ← push_back_from iv normals (i * 3 + 1)
      push_back_from iv normals (i * 3 + 2)
    else some iv)
  let iv ← (if !tex_coords.isEmpty then do
      let iv ← push_back_from iv tex_coords (i * 2 + 0)
      push_back_from iv tex_coords (i * 2 + 1)
    else some iv)
  let iv ← (if !tangents.isEmpty then do
      let iv ← push_back_from iv tangents (i * 3 + 0)
      let iv ← push_back_from iv tangents (i * 3 + 1)
      push_back_from iv tangents (i * 3 + 2)
    else some iv)
  (if !bitangents.isEmpty then do
      let iv ← push_back_from iv bitangents (i * 3 + 0)
      let iv ← push_back_from iv bitangents (i * 3 + 1)
      push_back_from iv bitangents (i * 3 + 2)
    else some iv)

/-- The constructor `Geometry_Base(mode, positions, normals, tex_coords, tangents,
bitangents, indices, position_loc, ...)` (lines 141-197); a caller that omits
the five locations passes the `DEFAULT_*_LOC` constants.  `none` stands for
undefined behaviour: a read past the end of an attribute list, or signed overflow
in `vertices_count * vertex_buffer_stride`. -/
def from_arrays (mode : Nat) (positions normals tex_coords tangents bitangents : List F)
    (indices : List Nat)
    (position_loc normal_loc tex_coord_loc tangent_loc bitangent_loc : Int) :
    Option (Geometry_Base F) := do
  let g : Geometry_Base F :=
    { mode := mode, position_loc := position_loc, normal_loc := normal_loc,
      tex_coord_loc := tex_coord_loc, tangent_loc := tangent_loc,
      bitangent_loc := bitangent_loc }
  -- Computes the number of elements per vertex.
  let elements_per_vertex : Int :=
    3 + (if !normals.isEmpty then 3 else 0) + (if !tex_coords.isEmpty then 2 else 0)
      + (if !tangents.isEmpty then 3 else 0) + (if !bitangents.isEmpty then 3 else 0)
  let g := { g with elements_per_vertex := elements_per_vertex }
  -- Computes the number of vertices.
  let vertices_count : Int := to_int ((positions.length / 3 : Nat) : Int)
  -- Builds the interleaved buffer from the input data.
  let iv ← for_size_t (positions.length / 3)
    (interleave_vertex positions normals tex_coords tangents bitangents)
    g.interleaved_vertices
  let g := { g with interleaved_vertices := iv }
  let g := { g with vertex_buffer_stride := stride_of g.elements_per_vertex }
  let size ← checked (vertices_count * g.vertex_buffer_stride)
  let g := { g with vertex_buffer_size := size }
  let g := g.init_patches_count
  let g := if !indices.isEmpty then
      { g with draw_elements_count := to_int (indices.length : Int) }
    else g
  some { g with draw_arrays_count := vertices_count }

/-- Binds the VAO corresponding to this geometry. -/
def bind_vao (g : Geometry_Base F) (gl : GLContext) : GLContext :=
  glBindVertexArray g.vao gl

/-- The method `draw` (lines 269-281). -/
def draw (g : Geometry_Base F) (gl : GLContext) : GLContext :=
  let gl := g.bind_vao gl
  let gl := if g.mode = GL_PATCHES then
      glPatchParameteri GL_PATCH_VERTICES g.patch_vertices gl
    else gl
  if g.draw_elements_count > 0 then
    glDrawElements g.mode g.draw_elements_count GL_UNSIGNED_INT 0 gl
  else
    glDrawArrays g.mode 0 g.draw_arrays_count gl

/-- The method `draw_instanced` (lines 289-301). -/
def draw_instanced (g : Geometry_Base F) (count : Int) (gl : GLContext) : GLContext :=
  let gl := g.bind_vao gl
  let gl := if g.mode = GL_PATCHES then
      glPatchParameteri GL_PATCH_VERTICES g.patch_vertices gl
    else gl
  if g.draw_elements_count > 0 then
    glDrawElementsInstanced g.mode g.draw_elements_count GL_UNSIGNED_INT 0 count gl
  else
    glDrawArraysInstanced g.mode 0 g.draw_arrays_count count gl

/-- The constructor `Geometry_Base()` (line 104): every member keeps its default
member initialiser. -/
def default_construct : Geometry_Base F := {}

/-- The constructor `Geometry_Base(mode, elements_per_vertex, vertices_count,
indices_count, position_loc, ...)` (lines 114-128); a caller that omits the five
locations passes the `DEFAULT_*_LOC` constants.  `none` stands for signed overflow
in `vertices_count * vertex_buffer_stride`. -/
def from_counts (mode : Nat) (elements_per_vertex vertices_count indices_count : Int)
    (position_loc normal_loc tex_coord_loc tangent_loc bitangent_loc : Int) :
    Option (Geometry_Base F) := do
  let g : Geometry_Base F :=
    { mode := mode, elements_per_vertex := elements_per_vertex,
      position_loc := position_loc, normal_loc := normal_loc,
      tex_coord_loc := tex_coord_loc, tangent_loc := tangent_loc,
      bitangent_loc := bitangent_loc }
  let g := { g with vertex_buffer_stride := stride_of g.elements_per_vertex }
  let size ← checked (vertices_count * g.vertex_buffer_stride)
  let g := { g with vertex_buffer_size := size }
  let g := g.init_patches_count
  let g := { g with draw_elements_count := indices_count }
  some { g with draw_arrays_count := vertices_count }

/-- The friend function `swap(first, second)` (lines 224-243): the sixteen members it
exchanges; the result is the pair of the new `first` and the new `second`. -/
def swap (first second : Geometry_Base F) : Geometry_Base F × Geometry_Base F :=
  ({ first with
      vertex_buffer := second.vertex_buffer
      vertex_buffer_size := second.vertex_buffer_size
      index_buffer := second.index_buffer
      vao := second.vao
      mode := second.mode
      draw_arrays_count := second.draw_arrays_count
      draw_elements_count := second.draw_elements_count
      patch_vertices := second.patch_vertices
      position_loc := second.position_loc
      normal_loc := second.normal_loc
      tex_coord_loc := second.tex_coord_loc
      tangent_loc := second.tangent_loc
      bitangent_loc := second.bitangent_loc
      elements_per_vertex := second.elements_per_vertex
      vertex_buffer_stride := second.vertex_buffer_stride
      interleaved_vertices := second.interleaved_vertices },
   { second with
      vertex_buffer := first.vertex_buffer
      vertex_buffer_size := first.vertex_buffer_size
      index_buffer := first.index_buffer
      vao := first.vao
      mode := first.mode
      draw_arrays_count := first.draw_arrays_count
      draw_elements_count := first.draw_elements_count
      patch_vertices := first.patch_vertices
      position_loc := first.position_loc
      normal_loc := first.normal_loc
      tex_coord_loc := first.tex_coord_loc
      tangent_loc := first.tangent_loc
      bitangent_loc := first.bitangent_loc
      elements_per_vertex := first.elements_per_vertex
      vertex_buffer_stride := first.vertex_buffer_stride
      interleaved_vertices := first.interleaved_vertices })

/-- The move constructor `Geometry_Base(Geometry_Base&& other) : Geometry_Base()`
(line 199): the pair of the object constructed and of `other` afterwards. -/
def move_construct (other : Geometry_Base F) : Geometry_Base F × Geometry_Base F :=
  swap default_construct other

/-- The copy constructor `Geometry_Base(const Geometry_Base& other)` (lines 206-212):
the members of its initialiser list; `vao`, `vertex_buffer` and `index_buffer` keep
their default member initialiser 0. -/
def copy_construct (other : Geometry_Base F) : Geometry_Base F :=
  { mode := other.mode, vertex_buffer_size := other.vertex_buffer_size,
    vertex_buffer_stride := other.vertex_buffer_stride,
    interleaved_vertices := other.interleaved_vertices,
    elements_per_vertex := other.elements_per_vertex,
    draw_arrays_count := other.draw_arrays_count,
    draw_elements_count := other.draw_elements_count,
    patch_vertices := other.patch_vertices, position_loc := other.position_loc,
    normal_loc := other.normal_loc, tex_coord_loc := other.tex_coord_loc,
    tangent_loc := other.tangent_loc, bitangent_loc := other.bitangent_loc }

end Geometry_Base

/-! ## `Geometry`

The class `Geometry` of `geometry.hpp` derives from `Geometry_Base` and declares no
data member, so its objects are values of `Geometry_Base`. -/

namespace Geometry

variable {F : Type}

/-- The constructor `Geometry() : Geometry_Base(GL_POINTS, 0, 0, 0)` (line 25). -/
def default_construct : Option (Geometry_Base F) :=
  Geometry_Base.from_counts GL_POINTS 0 0 0 DEFAULT_POSITION_LOC DEFAULT_NORMAL_LOC
    DEFAULT_TEX_COORD_LOC DEFAULT_TANGENT_LOC DEFAULT_BITANGENT_LOC

/-- The move constructor `Geometry(Geometry&& other) : Geometry()` (line 66), whose
`swap(*this, other)` is the friend function of `Geometry_Base`: the pair of the
object constructed and of `other` afterwards. -/
def move_construct (other : Geometry_Base F) :
    Option (Geometry_Base F × Geometry_Base F) := do
  let this ← default_construct
  some (Geometry_Base.swap this other)

end Geometry

/-! ## `Color` and `Texture` -/

/-- The colour type used by `texture.hpp`: four `float` channels `r`, `g`, `b`, `a`. -/
structure Color (F : Type) where
  r : F
  g : F
  b : F
  a : F
  deriving DecidableEq, Repr

/-- What `texture.hpp` takes from `color.hpp`, which is not among the sources at hand:
the constants `Color::WHITE` and `Color::BLACK` and the value of a default-constructed
`Color`.  They are parameters of the embedding. -/
structure ColorConstants (F : Type) where
  WHITE : Color F
  BLACK : Color F
  default_constructed : Color F

/-- Conversion of a `GLint` to `GLenum` (32-bit unsigned): reduction modulo `2^32`. -/
def to_GLenum (v : Int) : Nat := (v % 4294967296).toNat

/-- The fields of `Texture`, including those of its base class `OpenGLObject`. -/
structure Texture (F : Type) where
  opengl_object : Nat
  target : Nat
  width : Int
  height : Int
  internal_format : Nat
  format : Nat
  type : Nat
  nrChannels : Int
  cpu_only : Bool
  texture_data : List F
  deriving DecidableEq, Repr

namespace Texture

variable {F : Type}

/-- Returns the texture width. -/
def get_width (t : Texture F) : Int := t.width

/-- Returns the texture height. -/
def get_height (t : Texture F) : Int := t.height

/-- The method `get_index` (line 230): `(y * width + x) * nrChannels` in `int`
arithmetic. -/
def get_index (t : Texture F) (x y : Int) : Option Int := do
  let yw ← checked (y * t.width)
  let s ← checked (yw + x)
  checked (s * t.nrChannels)

/-- The method `set_pixel_color` (lines 257-277). -/
def set_pixel_color (t : Texture F) (x y : Int) (color : Color F) : Option (Texture F) :=
  if x < 0 ∨ x ≥ t.get_width ∨ y < 0 ∨ y ≥ t.get_height then
    -- logs "... out of bounds - the color was not modified." and returns
    some t
  else do
    let index := to_size_t (← t.get_index x y)
    let d := t.texture_data
    let d ← (if t.nrChannels ≥ 1 then vec_write d index color.r else some d)
    let d ← (if t.nrChannels ≥ 2 then vec_write d (size_t_add index 1) color.g else some d)
    let d ← (if t.nrChannels ≥ 3 then vec_write d (size_t_add index 2) color.b else some d)
    let d ← (if t.nrChannels = 4 then vec_write d (size_t_add index 3) color.a else some d)
    some { t with texture_data := d }

/-- The method `set_pixel_gray_scale` (lines 287-305).  The bounds test only logs:
there is no `return` in its branch, so the writes follow in either case. -/
def set_pixel_gray_scale [One F] (t : Texture F) (x y : Int) (intensity : F) :
    Option (Texture F) := do
  let index := to_size_t (← t.get_index x y)
  let d := t.texture_data
  let d ← (if t.nrChannels ≥ 1 then vec_write d index intensity else some d)
  let d ← (if t.nrChannels ≥ 2 then vec_write d (size_t_add index 1) intensity else some d)
  let d ← (if t.nrChannels ≥ 3 then vec_write d (size_t_add index 2) intensity else some d)
  let d ← (if t.nrChannels = 4 then vec_write d (size_t_add index 3) 1 else some d)
  some { t with texture_data := d }

/-- The method `get_pixel_color_fast` (lines 327-353); `color` holds the values of
the four reference arguments on entry, the result their values on exit. -/
def get_pixel_color_fast [One F] (t : Texture F) (x y : Int) (color : Color F) :
    Option (Color F) := do
  let index := to_size_t (← t.get_index x y)
  if t.nrChannels = 1 then do
    let r ← vec_read t.texture_data index
    let g ← vec_read t.texture_data index
    let b ← vec_read t.texture_data index
    some { r := r, g := g, b := b, a := 1 }
  else if t.nrChannels = 3 then do
    let r ← vec_read t.texture_data index
    let g ← vec_read t.texture_data (size_t_add index 1)
    let b ← vec_read t.texture_data (size_t_add index 2)
    some { r := r, g := g, b := b, a := 1 }
  else if t.nrChannels = 4 then do
    let r ← vec_read t.texture_data index
    let g ← vec_read t.texture_data (size_t_add index 1)
    let b ← vec_read t.texture_data (size_t_add index 2)
    let a ← vec_read t.texture_data (size_t_add index 3)
    some { r := r, g := g, b := b, a := a }
  else
    -- logs "Cannot retrieve the pixel color, ..."
    some color

/-- The method `get_pixel_color` (lines 316-325). -/
def get_pixel_color [One F] (K : ColorConstants F) (t : Texture F) (x y : Int) :
    Option (Color F) :=
  if x < 0 ∨ x ≥ t.get_width ∨ y < 0 ∨ y ≥ t.get_height then
    -- logs "... out of bounds - black will be returned."
    some K.BLACK
  else
    t.get_pixel_color_fast x y K.default_constructed

/-- The method `get_pixel_gray_scale` (lines 364-372). -/
def get_pixel_gray_scale [Zero F] [One F] [Add F] [Div F] [OfNat F 3]
    (K : ColorConstants F) (t : Texture F) (x y : Int) : Option F :=
  if x < 0 ∨ x ≥ t.get_width ∨ y < 0 ∨ y ≥ t.get_height then
    -- logs "... out of bounds - zero will be returned."
    some 0
  else do
    let color ← t.get_pixel_color K x y
    some ((color.r + color.g + color.b) / 3)

/-- The block "Creates the CPU representation of the data" of the constructor (lines
77-83), with the constructor arguments it reads, run on the members as initialised:
the buffer of `width * height * nrChannels` floats and the loops that set every pixel to
`Color::WHITE`.  `none` stands for undefined behaviour (signed overflow, an access
outside the pixel buffer) and for the exception of `std::vector` when the `int`
size is negative, hence converts to a `size_t` above `max_size()`. -/
def create_cpu_representation [Zero F] (K : ColorConstants F) (t : Texture F)
    (width height : Int) : Option (Texture F) := do
  let wh ← checked (width * height)
  let n ← checked (wh * t.nrChannels)
  if n < 0 then none else
  let t := { t with texture_data := List.replicate n.toNat (0 : F) }
  for_int width (fun x t =>
    for_int height (fun y t => t.set_pixel_color x y K.WHITE) t) t

/-- The block "Determine the number or channels used by the texture based on the
specified format" of the constructor (lines 85-95): the `switch (format)`. -/
def determine_channels (t : Texture F) (format : Nat) : Texture F :=
  if format = GL_DEPTH_COMPONENT then { t with nrChannels := 1 }
  else if format = GL_RGBA then { t with nrChannels := 4 }
  else t  -- logs "The texture class currently supports only ..."

/-- The block "Creates the GPU representation of the data" of the constructor (lines
97-101), with the constructor arguments it reads. -/
def create_gpu_representation (t : Texture F) (width height : Int) (internal_format : Int)
    (cpu_only : Bool) (gl : GLContext) : Texture F × GLContext :=
  if width > 0 ∧ height > 0 ∧ !cpu_only then
    let r := glCreateTextures t.target gl
    let t := { t with opengl_object := r.1 }
    (t, glTextureStorage2D t.opengl_object 1 (to_GLenum internal_format) width height r.2)
  else
    (t, gl)

/-- The constructor `Texture(width, height, internal_format, format, cpu_only)`
(lines 74-102): the member initialisers (`nrChannels` has the default member
initialiser 4), then the three blocks of the body, in order. -/
def create [Zero F] (K : ColorConstants F) (width height : Int) (internal_format : Int)
    (format : Nat) (cpu_only : Bool) (gl : GLContext) : Option (Texture F × GLContext) := do
  let t : Texture F :=
    { opengl_object := 0, target := GL_TEXTURE_2D, width := width, height := height,
      internal_format := to_GLenum internal_format, format := format, type := GL_FLOAT,
      nrChannels := 4, cpu_only := cpu_only, texture_data := [] }
  let t ← t.create_cpu_representation K width height
  let t := t.determine_channels format
  some (t.create_gpu_representation width height internal_format cpu_only gl)

/-- The constructor `Texture(width, height, cpu_only)` (line 62). -/
def create_sized [Zero F] (K : ColorConstants F) (width height : Int) (cpu_only : Bool)
    (gl : GLContext) : Option (Texture F × GLContext) :=
  create K width height GL_RGBA8 GL_RGBA cpu_only gl

/-- The constructor `Texture() : Texture(0, 0)` (line 52); the omitted argument
`cpu_only` has the default `false`. -/
def create_default [Zero F] (K : ColorConstants F) (gl : GLContext) :
    Option (Texture F × GLContext) :=
  create_sized K 0 0 false gl

/-- The method `update_opengl_data` (lines 182-188). -/
def update_opengl_data (t : Texture F) (gl : GLContext) : GLContext :=
  if t.opengl_object ≠ 0 then
    glTextureSubImage2D t.opengl_object 0 0 0 t.width t.height t.format t.type gl
  else
    -- fail silently
    gl

/-- The copy constructor `Texture(const Texture& other)` (lines 109-118): the members
of its initialiser list; `opengl_object` and `nrChannels`, which the list does not
name, have their default member initialisers 0 and 4. -/
def copy_construct (other : Texture F) (gl : GLContext) : Texture F × GLContext :=
  let t : Texture F :=
    { opengl_object := 0, target := GL_TEXTURE_2D, width := other.width,
      height := other.height, internal_format := other.internal_format,
      format := other.format, type := GL_FLOAT, nrChannels := 4,
      cpu_only := other.cpu_only, texture_data := other.texture_data }
  if t.width > 0 ∧ t.height > 0 ∧ !t.cpu_only then
    let r := glCreateTextures t.target gl
    let t := { t with opengl_object := r.1 }
    let gl := glTextureStorage2D t.opengl_object 1 t.internal_format t.width t.height r.2
    (t, t.update_opengl_data gl)
  else
    (t, gl)

/-- The friend function `swap(first, second)` (lines 145-157): the nine members it
exchanges (`target` is not among them); the result is the pair of the new `first`
and the new `second`. -/
def swap (first second : Texture F) : Texture F × Texture F :=
  ({ first with
      opengl_object := second.opengl_object
      texture_data := second.texture_data
      width := second.width
      height := second.height
      internal_format := second.internal_format
      format := second.format
      type := second.type
      nrChannels := second.nrChannels
      cpu_only := second.cpu_only },
   { second with
      opengl_object := first.opengl_object
      texture_data := first.texture_data
      width := first.width
      height := first.height
      internal_format := first.internal_format
      format := first.format
      type := first.type
      nrChannels := first.nrChannels
      cpu_only := first.cpu_only })

/-- The move constructor `Texture(Texture&& other) : Texture(0, 0)` (line 138): the
pair of the object constructed and of `other` afterwards, and the context. -/
def move_construct [Zero F] (K : ColorConstants F) (other : Texture F) (gl : GLContext) :
    Option ((Texture F × Texture F) × GLContext) := do
  let r ← create_sized K 0 0 false gl
  some (swap r.1 other, r.2)

/-- The destructor `~Texture()` (lines 162-166). -/
def destroy (t : Texture F) (gl : GLContext) : GLContext :=
  if !t.cpu_only then glDeleteTextures t.opengl_object gl else gl

/-- The assignment `*this = other` through `operator=(Texture other)` (lines 127-130)
from an lvalue: the parameter is copy-constructed from the argument, swapped with
`*this`, and destroyed when the operator returns.  The result is `*this` afterwards. -/
def copy_assign (this other : Texture F) (gl : GLContext) : Texture F × GLContext :=
  let p := copy_construct other gl
  let s := swap this p.1
  (s.1, s.2.destroy p.2)

/-- The representation invariant of the pixel accessors (see the documentation of
`texture_data` and `get_index`): the pixel buffer holds `nrChannels` values for each
of the `width * height` pixels, and its size is an `int`. -/
def well_formed (t : Texture F) : Prop :=
  0 ≤ t.width ∧ 0 ≤ t.height ∧ 1 ≤ t.nrChannels
    ∧ t.width * t.height * t.nrChannels ≤ (t.texture_data.length : Int)
    ∧ (t.texture_data.length : Int) ≤ INT_MAX

instance (t : Texture F) : Decidable t.well_formed := by
  unfold well_formed
  infer_instance

/-- The coordinate `(x, y)` lies in `[0,width) x [0,height)`. -/
def in_bounds (t : Texture F) (x y : Int) : Prop :=
  0 ≤ x ∧ x < t.width ∧ 0 ≤ y ∧ y < t.height

instance (t : Texture F) (x y : Int) : Decidable (t.in_bounds x y) := by
  unfold in_bounds
  infer_instance

/-- Two texture states agree in every field except the contents of the pixel buffer,
whose length is the same. -/
def same_shape (t t' : Texture F) : Prop :=
  t'.opengl_object = t.opengl_object ∧ t'.target = t.target ∧ t'.width = t.width
    ∧ t'.height = t.height ∧ t'.internal_format = t.internal_format
    ∧ t'.format = t.format ∧ t'.type = t.type ∧ t'.nrChannels = t.nrChannels
    ∧ t'.cpu_only = t.cpu_only ∧ t'.texture_data.length = t.texture_data.length

/-- The invariant of the initialisation loops of the constructor: a well-formed
4-channel texture of the shape of the texture the loops started from. -/
def init_inv (t0 t : Texture F) : Prop :=
  t0.same_shape t ∧ t.well_formed ∧ t.nrChannels = 4

/-- Number of the pixel `(x, y)` in row-major order. -/
def pixel_number (t : Texture F) (x y : Int) : Nat := (y * t.width + x).toNat

/-- The four consecutive values of a buffer starting at `i`, as a colour. -/
def read_rgba (d : List F) (i : Nat) : Option (Color F) := do
  let r ← d[i]?
  let g ← d[i + 1]?
  let b ← d[i + 2]?
  let a ← d[i + 3]?
  some { r := r, g := g, b := b, a := a }

/-- The buffer with the four channels of a colour stored from `i` on. -/
def write_rgba (d : List F) (i : Nat) (c : Color F) : List F :=
  (((d.set i c.r).set (i + 1) c.g).set (i + 2) c.b).set (i + 3) c.a

end Texture

/-! ## `UBO` -/

/-- What the embedding needs to know of the element type `T` of a `UBO<T>`: the value
of `sizeof(T)`, the bytes of the object representation of a value, and the
value-initialised `T()` that `std::vector<T>(1)` holds.  They are parameters of the
embedding. -/
structure TypeInfo (T : Type) where
  sizeof : Nat
  bytes : T → List Nat
  value_initialized : T

/-- The fields of `UBO<T>`, including those of its base class `OpenGLObject`. -/
structure UBO (T : Type) where
  opengl_object : Nat
  target : Nat
  data : List T
  flags : Nat
  deriving DecidableEq, Repr

namespace UBO

variable {T : Type}

/-- The default binding for UBOs with the camera data. -/
def DEFAULT_CAMERA_BINDING : Nat := 0
/-- The default binding for UBOs with the model data. -/
def DEFAULT_MODEL_BINDING : Nat := 1
/-- The default binding for UBOs with the lights data. -/
def DEFAULT_LIGHTS_BINDING : Nat := 2
/-- The default binding for UBOs with the material data. -/
def DEFAULT_MATERIAL_BINDING : Nat := 3

/-- The expression `sizeof(T) * data.size()`, in `size_t` arithmetic. -/
def byte_size (L : TypeInfo T) (data : List T) : Nat :=
  size_t_mul L.sizeof data.length

/-- The bytes behind the pointer `data.empty() ? nullptr : data.data()`. -/
def data_bytes (L : TypeInfo T) (data : List T) : List Nat :=
  if data.isEmpty then [] else (data.map L.bytes).flatten

/-- The constructor `UBO(GLbitfield flags = 0)` (lines 42-45); `data(1)` is the vector
of one value-initialised element. -/
def create (L : TypeInfo T) (flags : Nat) (gl : GLContext) : UBO T × GLContext :=
  let u : UBO T :=
    { opengl_object := 0, target := GL_UNIFORM_BUFFER, data := [L.value_initialized],
      flags := flags }
  let r := glCreateBuffers gl
  let u := { u with opengl_object := r.1 }
  (u, glNamedBufferStorage u.opengl_object (byte_size L u.data) (data_bytes L u.data)
    u.flags r.2)

/-- The constructor `UBO(std::span<T> data, GLbitfield flags = 0)` (lines 48-51). -/
def create_from_span (L : TypeInfo T) (data : List T) (flags : Nat) (gl : GLContext) :
    UBO T × GLContext :=
  let u : UBO T :=
    { opengl_object := 0, target := GL_UNIFORM_BUFFER, data := data, flags := flags }
  let r := glCreateBuffers gl
  let u := { u with opengl_object := r.1 }
  (u, glNamedBufferStorage u.opengl_object (byte_size L data) (data_bytes L data)
    u.flags r.2)

/-- The copy constructor `UBO(const UBO& other)` (lines 58-61): `flags(0)`. -/
def copy_construct (L : TypeInfo T) (other : UBO T) (gl : GLContext) : UBO T × GLContext :=
  let u : UBO T :=
    { opengl_object := 0, target := other.target, data := other.data, flags := 0 }
  let r := glCreateBuffers gl
  let u := { u with opengl_object := r.1 }
  (u, glNamedBufferStorage u.opengl_object (byte_size L u.data) (data_bytes L u.data)
    u.flags r.2)

/-- The friend function `swap(first, second)` (lines 82-88): the three members it
exchanges (`flags` is not among them); the result is the pair of the new `first` and
the new `second`. -/
def swap (first second : UBO T) : UBO T × UBO T :=
  ({ first with
      opengl_object := second.opengl_object
      target := second.target
      data := second.data },
   { second with
      opengl_object := first.opengl_object
      target := first.target
      data := first.data })

/-- The move constructor `UBO(UBO&& other) : UBO()` (line 80): the pair of the object
constructed and of `other` afterwards, and the context. -/
def move_construct (L : TypeInfo T) (other : UBO T) (gl : GLContext) :
    (UBO T × UBO T) × GLContext :=
  let r := create L 0 gl
  (swap r.1 other, r.2)

/-- The destructor `~UBO()` (line 94). -/
def destroy (u : UBO T) (gl : GLContext) : GLContext :=
  glDeleteBuffers u.opengl_object gl

/-- The assignment `*this = other` through `operator=(UBO other)` (lines 68-72) from an
lvalue: the parameter is copy-constructed from the argument, swapped with `*this`,
and destroyed when the operator returns.  The result is `*this` afterwards. -/
def copy_assign (L : TypeInfo T) (this other : UBO T) (gl : GLContext) : UBO T × GLContext :=
  let p := copy_construct L other gl
  let s := swap this p.1
  (s.1, s.2.destroy p.2)

/-- The method `bind_buffer_base` (line 105). -/
def bind_buffer_base (u : UBO T) (index : Nat) (gl : GLContext) : GLContext :=
  glBindBufferBase u.target index u.opengl_object gl

/-- The method `update_opengl_data` (lines 108-115); `none` stands for the failure of
the assertion, which ends the program. -/
def update_opengl_data (L : TypeInfo T) (u : UBO T) (gl : GLContext) : Option GLContext :=
  -- Crash if the buffer disallows copying
  if u.flags &&& GL_DYNAMIC_STORAGE_BIT = GL_DYNAMIC_STORAGE_BIT then
    if !u.data.isEmpty then
      some (glNamedBufferSubData u.opengl_object 0 (byte_size L u.data)
        ((u.data.map L.bytes).flatten) gl)
    else some gl
  else none

end UBO

/-! ## Data stores of buffer objects -/

/-- The data store of a buffer object: its size in bytes, its contents and the flags
it was created with. -/
structure BufferStore where
  size : Nat
  contents : List Nat
  flags : Nat
  deriving DecidableEq, Repr

/-- The effect of one command on the data store of the buffer `name`, after the
OpenGL 4.5 specification: `glNamedBufferStorage` creates the store of a buffer that
has none, when the size is positive; `glNamedBufferSubData` replaces the bytes
`[offset, offset + size)` of a store created with `GL_DYNAMIC_STORAGE_BIT`, when the
range lies inside the store; `glDeleteBuffers` deletes the store; a command in error
and every other command leave the store as it is. -/
def buffer_store_step (name : Nat) (s : Option BufferStore) : GLCall → Option BufferStore
  | .NamedBufferStorage buffer size data flags =>
    if buffer = name ∧ s = none ∧ 0 < size then
      some { size := size, contents := data, flags := flags }
    else s
  | .NamedBufferSubData buffer offset size data =>
    match s with
    | some st =>
      if buffer = name ∧ st.flags &&& GL_DYNAMIC_STORAGE_BIT = GL_DYNAMIC_STORAGE_BIT
          ∧ 0 ≤ offset ∧ offset + size ≤ st.size then
        some { st with contents :=
          (st.contents.take offset.toNat ++ data ++ st.contents.drop (offset.toNat + size)) }
      else s
    | none => none
  | .DeleteBuffers _ buffer => if buffer = name then none else s
  | _ => s

/-- The data store of the buffer `name` after the commands `calls`. -/
def buffer_store (calls : List GLCall) (name : Nat) : Option BufferStore :=
  calls.foldl (buffer_store_step name) none

/-! ## `SceneObject` -/

/-- The vector type `glm::vec3`: three `float` components. -/
structure Vec3 (F : Type) where
  x : F
  y : F
  z : F
  deriving DecidableEq, Repr

/-- What `scene_object.hpp` takes from the library `glm`, for a type `M` of the
`glm::mat4` values: the constructor `glm::mat4(s)`, the functions `glm::translate`,
`glm::scale` and `glm::rotate`, and the product of two matrices.  They are parameters
of the embedding. -/
structure Glm (F M : Type) where
  mat4 : F → M
  translate : M → Vec3 F → M
  scale : M → Vec3 F → M
  rotate : M → F → Vec3 F → M
  mul : M → M → M

/-- What `scene_object.hpp` takes from the class `ShaderProgram` of `program.hpp`,
which is not among the sources: the result of `is_valid()` and the effects of `use()`
and of `uniform(name, x, y, z, w)` on the context.  They are parameters of the
embedding. -/
structure ShaderProgram (F : Type) where
  is_valid : Bool
  use : GLContext → GLContext
  uniform : String → F → F → F → F → GLContext → GLContext

/-- The collaborators of `SceneObject` that are parameters of the embedding: the
library `glm`, the element type of the model UBO, and the copy constructor
`Geometry(const Geometry&)` of `geometry.cpp`, which is not among the sources. -/
structure SceneDeps (F M : Type) where
  glm : Glm F M
  matrix_info : TypeInfo M
  copy_geometry : Geometry_Base F → GLContext → Geometry_Base F × GLContext

namespace ModelUBO

variable {M : Type}

/-- Modelled from the spec: `model_ubo.hpp` is not among the sources.  The uniform
block of a scene object is a fixed-size CPU record holding its model transform,
mirrored into a GPU buffer when explicitly synced, and a block that is synced must
have been created with the dynamic-update capability: the constructor `ModelUBO()` is
`UBO(GL_DYNAMIC_STORAGE_BIT)` for a record that is the model matrix. -/
def create (L : TypeInfo M) (gl : GLContext) : UBO M × GLContext :=
  UBO.create L GL_DYNAMIC_STORAGE_BIT gl

/-- Modelled from the spec: `model_ubo.hpp` is not among the sources.  The method
`set_matrix` stores the matrix in the CPU record `data[0]` of the block. -/
def set_matrix (u : UBO M) (matrix : M) : Option (UBO M) :=
  (vec_write u.data 0 matrix).map (fun d => { u with data := d })

end ModelUBO

/-- The fields of `SceneObject`. -/
structure SceneObject (F M : Type) where
  model_ubo : UBO M
  geometry : Geometry_Base F
  color : Color F
  position : Vec3 F
  scale : Vec3 F
  pitch : F
  yaw : F
  roll : F
  deriving DecidableEq, Repr

namespace SceneObject

variable {F M : Type}

/-- The name of the uniform variable that receives the colour. -/
def mat_diffuse : String := "mat_diffuse"

/-- The method `build_matrix` (lines 156-162).  `none` stands for the failure of the
assertion of `update_opengl_data` (and for an access outside `data`). -/
def build_matrix [Zero F] [One F] (D : SceneDeps F M) (so : SceneObject F M)
    (gl : GLContext) : Option (SceneObject F M × GLContext) := do
  let ubo ← ModelUBO.set_matrix so.model_ubo
    (D.glm.mul
      (D.glm.mul
        (D.glm.mul
          (D.glm.mul (D.glm.translate (D.glm.mat4 1) so.position)
            (D.glm.scale (D.glm.mat4 1) so.scale))
          (D.glm.rotate (D.glm.mat4 1) so.pitch { x := 1, y := 0, z := 0 }))
        (D.glm.rotate (D.glm.mat4 1) so.yaw { x := 0, y := 1, z := 0 }))
      (D.glm.rotate (D.glm.mat4 1) so.roll { x := 0, y := 0, z := 1 }))
  let gl ← ubo.update_opengl_data D.matrix_info gl
  some ({ so with model_ubo := ubo }, gl)

/-- The constructor `SceneObject(geometry, color, position, scale, pitch, yaw, roll)`
(lines 80-84): the members are initialised in the order of their declaration
(`model_ubo` by `ModelUBO()`, `geometry` by the copy constructor of `Geometry`), then
the body calls `build_matrix`. -/
def create [Zero F] [One F] (D : SceneDeps F M) (geometry : Geometry_Base F)
    (color : Color F) (position scale : Vec3 F) (pitch yaw roll : F) (gl : GLContext) :
    Option (SceneObject F M × GLContext) :=
  let u := ModelUBO.create D.matrix_info gl
  let g := D.copy_geometry geometry u.2
  let so : SceneObject F M :=
    { model_ubo := u.1, geometry := g.1, color := color, position := position,
      scale := scale, pitch := pitch, yaw := yaw, roll := roll }
  so.build_matrix D g.2

/-- The constructor `SceneObject(geometry, color, position, scale)` (lines 66-67). -/
def create_scaled [Zero F] [One F] (D : SceneDeps F M) (geometry : Geometry_Base F)
    (color : Color F) (position scale : Vec3 F) (gl : GLContext) :
    Option (SceneObject F M × GLContext) :=
  create D geometry color position scale 0 0 0 gl

/-- The constructor `SceneObject(geometry, color, position)` (lines 55-56);
`glm::vec3(1)` has the three components 1. -/
def create_positioned [Zero F] [One F] (D : SceneDeps F M) (geometry : Geometry_Base F)
    (color : Color F) (position : Vec3 F) (gl : GLContext) :
    Option (SceneObject F M × GLContext) :=
  create_scaled D geometry color position { x := 1, y := 1, z := 1 } gl

/-- The constructor `SceneObject(geometry, color)` (line 46); `glm::vec3(0)` has the
three components 0. -/
def create_colored [Zero F] [One F] (D : SceneDeps F M) (geometry : Geometry_Base F)
    (color : Color F) (gl : GLContext) : Option (SceneObject F M × GLContext) :=
  create_positioned D geometry color { x := 0, y := 0, z := 0 } gl

/-- The method `draw` (lines 90-99). -/
def draw (so : SceneObject F M) (program : ShaderProgram F) (gl : GLContext) : GLContext :=
  if program.is_valid then
    let gl := program.use gl
    let gl := program.uniform mat_diffuse so.color.r so.color.g so.color.b so.color.a gl
    let gl := so.model_ubo.bind_buffer_base UBO.DEFAULT_MODEL_BINDING gl
    let gl := so.geometry.bind_vao gl
    so.geometry.draw gl
  else gl

/-- The method `set_position` (lines 109-112). -/
def set_position [Zero F] [One F] (D : SceneDeps F M) (so : SceneObject F M)
    (position : Vec3 F) (gl : GLContext) : Option (SceneObject F M × GLContext) :=
  build_matrix D { so with position := position } gl

/-- The method `set_scale` (lines 119-122). -/
def set_scale [Zero F] [One F] (D : SceneDeps F M) (so : SceneObject F M)
    (scale : Vec3 F) (gl : GLContext) : Option (SceneObject F M × GLContext) :=
  build_matrix D { so with scale := scale } gl

/-- The method `set_pitch_rotation` (lines 129-132). -/
def set_pitch_rotation [Zero F] [One F] (D : SceneDeps F M) (so : SceneObject F M)
    (rotation : F) (gl : GLContext) : Option (SceneObject F M × GLContext) :=
  build_matrix D { so with pitch := rotation } gl

/-- The method `set_yaw_rotation` (lines 139-142). -/
def set_yaw_rotation [Zero F] [One F] (D : SceneDeps F M) (so : SceneObject F M)
    (rotation : F) (gl : GLContext) : Option (SceneObject F M × GLContext) :=
  build_matrix D { so with yaw := rotation } gl

/-- The method `set_roll_rotation` (lines 149-152). -/
def set_roll_rotation [Zero F] [One F] (D : SceneDeps F M) (so : SceneObject F M)
    (rotation : F) (gl : GLContext) : Option (SceneObject F M × GLContext) :=
  build_matrix D { so with roll := rotation } gl

/-- The states a scene object can be in: built by the constructor, then changed by
any sequence of the five setters, each in any context. -/
inductive Reachable [Zero F] [One F] (D : SceneDeps F M) : SceneObject F M → Prop
  | create (geometry : Geometry_Base F) (color : Color F) (position scale : Vec3 F)
      (pitch yaw roll : F) (gl : GLContext) (so : SceneObject F M) (gl' : GLContext) :
      create D geometry color position scale pitch yaw roll gl = some (so, gl') →
      Reachable D so
  | set_position (so : SceneObject F M) (position : Vec3 F) (gl : GLContext)
      (so' : SceneObject F M) (gl' : GLContext) :
      Reachable D so → so.set_position D position gl = some (so', gl') → Reachable D so'
  | set_scale (so : SceneObject F M) (scale : Vec3 F) (gl : GLContext)
      (so' : SceneObject F M) (gl' : GLContext) :
      Reachable D so → so.set_scale D scale gl = some (so', gl') → Reachable D so'
  | set_pitch_rotation (so : SceneObject F M) (rotation : F) (gl : GLContext)
      (so' : SceneObject F M) (gl' : GLContext) :
      Reachable D so → so.set_pitch_rotation D rotation gl = some (so', gl') →
      Reachable D so'
  | set_yaw_rotation (so : SceneObject F M) (rotation : F) (gl : GLContext)
      (so' : SceneObject F M) (gl' : GLContext) :
      Reachable D so → so.set_yaw_rotation D rotation gl = some (so', gl') →
      Reachable D so'
  | set_roll_rotation (so : SceneObject F M) (rotation : F) (gl : GLContext)
      (so' : SceneObject F M) (gl' : GLContext) :
      Reachable D so → so.set_roll_rotation D rotation gl = some (so', gl') →
      Reachable D so'

end SceneObject

/-! ## Reference notions for the model matrix -/

/-- The matrix `translate(position)`: the identity translated by `position`. -/
def translation {F M : Type} [One F] (G : Glm F M) (position : Vec3 F) : M :=
  G.translate (G.mat4 1) position

/-- The matrix `scale(scale)`: the identity scaled by `scale`. -/
def scaling {F M : Type} [One F] (G : Glm F M) (scale : Vec3 F) : M :=
  G.scale (G.mat4 1) scale

/-- The matrix `rotateX(angle)`: the identity rotated about the axis `(1, 0, 0)`. -/
def rotateX {F M : Type} [Zero F] [One F] (G : Glm F M) (angle : F) : M :=
  G.rotate (G.mat4 1) angle { x := 1, y := 0, z := 0 }

/-- The matrix `rotateY(angle)`: the identity rotated about the axis `(0, 1, 0)`. -/
def rotateY {F M : Type} [Zero F] [One F] (G : Glm F M) (angle : F) : M :=
  G.rotate (G.mat4 1) angle { x := 0, y := 1, z := 0 }

/-- The matrix `rotateZ(angle)`: the identity rotated about the axis `(0, 0, 1)`. -/
def rotateZ {F M : Type} [Zero F] [One F] (G : Glm F M) (angle : F) : M :=
  G.rotate (G.mat4 1) angle { x := 0, y := 0, z := 1 }

/-- The model matrix of a scene object, computed from its current field values:
`translate(position) * scale(scale) * rotateX(pitch) * rotateY(yaw) * rotateZ(roll)`,
the product associating to the left. -/
def model_matrix {F M : Type} [Zero F] [One F] (G : Glm F M) (so : SceneObject F M) : M :=
  G.mul (G.mul (G.mul (G.mul (translation G so.position) (scaling G so.scale))
    (rotateX G so.pitch)) (rotateY G so.yaw)) (rotateZ G so.roll)

/-- Modelled from the spec: `color.hpp` is not among the sources, and the spec names
the default colour "opaque white" and the fallback colour "black".  Integers stand
for the float values; the default-constructed colour, which the accessors return
only for an unsupported channel count, is taken as all zero.  Used in the concrete
evaluations only: every general theorem holds for arbitrary constants. -/
def sample_colors : ColorConstants Int :=
  { WHITE := { r := 1, g := 1, b := 1, a := 1 },
    BLACK := { r := 0, g := 0, b := 0, a := 1 },
    default_constructed := { r := 0, g := 0, b := 0, a := 0 } }

/-- A context in which no command was issued and no name handed out. -/
def fresh_context : GLContext := { calls := [], last_name := 0 }

/-- The constant `GL_DEPTH_COMPONENT32F` of the OpenGL headers. -/
def GL_DEPTH_COMPONENT32F : Nat := 0x8CAC

/-- The texture `Texture(2, 2, true)`: CPU only, `GL_RGBA8` / `GL_RGBA`, all white. -/
def sample_texture : Texture Int :=
  { opengl_object := 0, target := GL_TEXTURE_2D, width := 2, height := 2,
    internal_format := GL_RGBA8, format := GL_RGBA, type := GL_FLOAT, nrChannels := 4,
    cpu_only := true, texture_data := [1, 1, 1, 1, 1, 1, 1, 1, 1, 1, 1, 1, 1, 1, 1, 1] }

/-- A triangle geometry (`GL_TRIANGLES`, three positions) with the live handles
`vao = 3`, `vertex_buffer = 1` and `index_buffer = 2`. -/
def sample_geometry : Geometry_Base Int :=
  { mode := 4, vertex_buffer_size := 36, vertex_buffer_stride := 12,
    interleaved_vertices := [0, 0, 0, 1, 0, 0, 0, 1, 0], elements_per_vertex := 3,
    draw_arrays_count := 3, vao := 3, vertex_buffer := 1, index_buffer := 2 }

/-- A patch geometry (`GL_PATCHES`) as the counts constructor builds it for 16
vertices of 3 floats, with the live handle `vao = 5`. -/
def sample_patches : Geometry_Base Int :=
  { mode := GL_PATCHES, vertex_buffer_size := 192, vertex_buffer_stride := 12,
    elements_per_vertex := 3, draw_arrays_count := 16, patch_vertices := 16, vao := 5 }

/-- The texture `Texture(2, 1, GL_DEPTH_COMPONENT32F, GL_DEPTH_COMPONENT, true)` after
`set_pixel_color(1, 0, Color(0, 0, 0, 1))`: one channel, pixel `(0, 0)` holds 1 and
pixel `(1, 0)` holds 0. -/
def sample_depth_texture : Texture Int :=
  { opengl_object := 0, target := GL_TEXTURE_2D, width := 2, height := 1,
    internal_format := GL_DEPTH_COMPONENT32F, format := GL_DEPTH_COMPONENT,
    type := GL_FLOAT, nrChannels := 1, cpu_only := true,
    texture_data := [1, 0, 1, 1, 1, 1, 1, 1] }

/-- An element type of one byte for the evaluations: the integers, with the byte
`v mod 256` as the object representation of `v`. -/
def sample_type_info : TypeInfo Int :=
  { sizeof := 1, bytes := fun v => [(v % 256).toNat], value_initialized := 0 }

/-- Matrices as terms over the functions of `glm`, for the evaluations: each function
builds the term that names its call. -/
inductive MatrixTerm where
  | diagonal (s : Int)
  | translate (m : MatrixTerm) (v : Vec3 Int)
  | scale (m : MatrixTerm) (v : Vec3 Int)
  | rotate (m : MatrixTerm) (angle : Int) (axis : Vec3 Int)
  | product (a b : MatrixTerm)
  deriving DecidableEq, Repr

/-- The collaborators of `SceneObject` for the evaluations: the term matrices, a
record of 64 bytes that are not looked at, and a copy of a geometry that issues no
command. -/
def sample_deps : SceneDeps Int MatrixTerm :=
  { glm := { mat4 := MatrixTerm.diagonal, translate := MatrixTerm.translate,
             scale := MatrixTerm.scale, rotate := MatrixTerm.rotate,
             mul := MatrixTerm.product },
    matrix_info := { sizeof := 64, bytes := fun _ => List.replicate 64 0,
                     value_initialized := MatrixTerm.diagonal 0 },
    copy_geometry := fun g gl => (Geometry_Base.copy_construct g, gl) }

/-- A shader program for the evaluations whose `use()` and `uniform(...)` leave the
context as it is, valid or not as the argument says. -/
def sample_program (valid : Bool) : ShaderProgram Int :=
  { is_valid := valid, use := fun gl => gl, uniform := fun _ _ _ _ _ gl => gl }

/-- The term of the model matrix at position `(1, 2, 3)`, scale `(1, 1, 1)`, yaw 0,
roll 0 and the pitch given. -/
def sample_matrix (pitch : Int) : MatrixTerm :=
  MatrixTerm.product
    (MatrixTerm.product
      (MatrixTerm.product
        (MatrixTerm.product
          (MatrixTerm.translate (MatrixTerm.diagonal 1) { x := 1, y := 2, z := 3 })
          (MatrixTerm.scale (MatrixTerm.diagonal 1) { x := 1, y := 1, z := 1 }))
        (MatrixTerm.rotate (MatrixTerm.diagonal 1) pitch { x := 1, y := 0, z := 0 }))
      (MatrixTerm.rotate (MatrixTerm.diagonal 1) 0 { x := 0, y := 1, z := 0 }))
    (MatrixTerm.rotate (MatrixTerm.diagonal 1) 0 { x := 0, y := 0, z := 1 })

/-- The scene object that `SceneObject(sample_geometry, white, (1, 2, 3), (1, 1, 1),
pitch, 0, 0)` builds in a context whose last name is 8: its model UBO has the handle
9. -/
def sample_scene_object (pitch : Int) : SceneObject Int MatrixTerm :=
  { model_ubo := { opengl_object := 9, target := GL_UNIFORM_BUFFER,
                   data := [sample_matrix pitch], flags := GL_DYNAMIC_STORAGE_BIT },
    geometry := Geometry_Base.copy_construct sample_geometry,
    color := { r := 1, g := 1, b := 1, a := 1 },
    position := { x := 1, y := 2, z := 3 }, scale := { x := 1, y := 1, z := 1 },
    pitch := pitch, yaw := 0, roll := 0 }

/-- Iverson bracket: `1` when the condition holds, `0` otherwise. -/
def iverson (b : Bool) : Int := if b then 1 else 0

/-- The record of vertex `i` as the layout rule words it: the 3 floats of position
`i`, then the 3 floats of normal `i` if normals are given, then the 2 floats of
texture coordinate `i` if given, then the 3 floats of tangent `i` if given, then
the 3 floats of bitangent `i` if given. -/
def vertex_record {F : Type} (positions normals tex_coords tangents bitangents : List F)
    (i : Nat) : List F :=
  (positions.drop (i * 3)).take 3
    ++ (if normals.isEmpty then [] else (normals.drop (i * 3)).take 3)
    ++ (if tex_coords.isEmpty then [] else (tex_coords.drop (i * 2)).take 2)
    ++ (if tangents.isEmpty then [] else (tangents.drop (i * 3)).take 3)
    ++ (if bitangents.isEmpty then [] else (bitangents.drop (i * 3)).take 3)

/-- Number of floats of one record: the sum of the widths of the attributes given. -/
def record_width {F : Type} (normals tex_coords tangents bitangents : List F) : Nat :=
  3 + (if normals.isEmpty then 0 else 3) + (if tex_coords.isEmpty then 0 else 2)
    + (if tangents.isEmpty then 0 else 3) + (if bitangents.isEmpty then 0 else 3)

/-- The attribute list is either absent or holds a record of `k` floats for each of
the `n` vertices. -/
def holds_records {F : Type} (attr : List F) (k n : Nat) : Prop :=
  attr.isEmpty = false → n * k ≤ attr.length

instance {F : Type} (attr : List F) (k n : Nat) : Decidable (holds_records attr k n) := by
  unfold holds_records
  infer_instance

/-! ## `IApplication` and `PV112Application` -/

/-- Division of two `int` values: the quotient truncated towards zero.  A zero divisor
and the overflowing quotient `INT_MIN / -1` are undefined behaviour. -/
def int_div (a b : Int) : Option Int :=
  if b = 0 then none else checked (Int.tdiv a b)

/-- The data members of `IApplication` that the embedded methods read or write: the
current window width and height, of type `GLsizei` (a 32-bit `int`). -/
structure IApplication where
  width : Int
  height : Int
  deriving DecidableEq, Repr

/-- The array `ImGui::GetIO().KeysDown` of the library ImGui, which is not among the
sources at hand: one `bool` for each key index. -/
structure ImGuiIO where
  KeysDown : List Bool
  deriving DecidableEq, Repr

namespace IApplication

/-- The method `activate_viewport` (lines 185-187). -/
def activate_viewport (a : IApplication) (x y width height : Int) (gl : GLContext) :
    GLContext :=
  glViewport x y (if width > 0 then width else a.width)
    (if height > 0 then height else a.height) gl

/-- The method `activate_viewport_grid` (lines 197-203); `static_cast<int>` of the
`GLsizei` members is the identity. -/
def activate_viewport_grid (a : IApplication) (x y grid_size_x grid_size_y : Int)
    (gl : GLContext) : Option GLContext := do
  let viewport_width ← int_div a.width grid_size_x
  let viewport_height ← int_div a.height grid_size_y
  let viewport_x ← checked (x * viewport_width)
  let viewport_y ← checked (y * viewport_height)
  some (a.activate_viewport viewport_x viewport_y viewport_width viewport_height gl)

/-- The method `on_key_pressed` (lines 115-117): `KeysDown[key] = action`, the `int`
converted to `bool`.  An index outside the array is undefined behaviour. -/
def on_key_pressed (io : ImGuiIO) (key _scancode action _mods : Int) : Option ImGuiIO :=
  if key < 0 then none
  else (vec_write io.KeysDown key.toNat (action != 0)).map fun k => { io with KeysDown := k }

end IApplication

/-- The constant `GLFW_PRESS` of the GLFW header. -/
def GLFW_PRESS : Int := 1
/-- The constant `GLFW_KEY_C` of the GLFW header. -/
def GLFW_KEY_C : Int := 67
/-- The constant `GLFW_KEY_E` of the GLFW header. -/
def GLFW_KEY_E : Int := 69
/-- The constant `GLFW_KEY_N` of the GLFW header. -/
def GLFW_KEY_N : Int := 78
/-- The constant `GLFW_KEY_R` of the GLFW header. -/
def GLFW_KEY_R : Int := 82
/-- The constant `GLFW_KEY_T` of the GLFW header. -/
def GLFW_KEY_T : Int := 84
/-- The constant `GLFW_KEY_W` of the GLFW header. -/
def GLFW_KEY_W : Int := 87
/-- The constant `GLFW_KEY_UNKNOWN` of the GLFW header: the key that the key callback
receives for a key that GLFW does not know. -/
def GLFW_KEY_UNKNOWN : Int := -1

/-! The class `PV112Application` derives from `IApplication` and declares no data
member, so its objects are values of `IApplication`. -/

namespace PV112Application

/-- The method `on_resize` (lines 67-72). -/
def on_resize (a : IApplication) (width height : Int) (gl : GLContext) :
    IApplication × GLContext :=
  ({ a with width := max width 1, height := max height 1 }, glViewport 0 0 width height gl)

/-- The method `on_key_pressed` (lines 87-96) on an object whose further members are
`s`; `compile_shaders` is the virtual method as overridden by the class of the
object. -/
def on_key_pressed {σ : Type} (compile_shaders : σ → GLContext → σ × GLContext) (s : σ)
    (io : ImGuiIO) (key scancode action mods : Int) (gl : GLContext) :
    Option (σ × ImGuiIO × GLContext) := do
  let r := if action = GLFW_PRESS then
      (if key = GLFW_KEY_R then compile_shaders s gl else (s, gl))
    else (s, gl)
  let io ← IApplication.on_key_pressed io key scancode action mods
  some (r.1, io, r.2)

/-- A sequence of resize events, each given by the new width and height. -/
def resize_events (a : IApplication) (events : List (Int × Int)) (gl : GLContext) :
    IApplication × GLContext :=
  events.foldl (fun s e => on_resize s.1 e.1 e.2 s.2) (a, gl)

end PV112Application

/-! ## Reference notions for viewports -/

/-- A rectangle of window pixels: lower left corner, width and height. -/
structure Rect where
  x : Int
  y : Int
  width : Int
  height : Int
  deriving DecidableEq, Repr

/-- The pixel `(px, py)` lies in the rectangle. -/
def Rect.contains (r : Rect) (px py : Int) : Prop :=
  r.x ≤ px ∧ px < r.x + r.width ∧ r.y ≤ py ∧ py < r.y + r.height

instance (r : Rect) (px py : Int) : Decidable (r.contains px py) := by
  unfold Rect.contains
  infer_instance

/-- Two rectangles overlap when they share a pixel. -/
def Rect.overlaps (r s : Rect) : Prop :=
  ∃ px py, r.contains px py ∧ s.contains px py

/-- The viewport of the grid cell `(x, y)` of a `gx` by `gy` grid on a `W` by `H`
window: origin `(x * (W div gx), y * (H div gy))`, width `W div gx`, height
`H div gy`. -/
def grid_cell (W H gx gy x y : Int) : Rect :=
  { x := x * (W / gx), y := y * (H / gy), width := W / gx, height := H / gy }

/-- The viewport in force after a sequence of commands: the rectangle of the last
`glViewport`. -/
def current_viewport (calls : List GLCall) : Option Rect :=
  calls.foldl (fun r c =>
    match c with
    | .Viewport x y width height => some { x := x, y := y, width := width, height := height }
    | _ => r) none

namespace Texture

variable {F : Type}

/-- The textures obtained from the constructor `Texture(width, height, internal_format,
format, cpu_only)` with non-negative dimensions (the constructors
`Texture(width, height, cpu_only)` and `Texture()` call it) by in-bounds pixel writes,
copy construction, copy assignment, move construction and `swap`. -/
inductive Reachable [Zero F] [One F] (K : ColorConstants F) : Texture F → Prop
  | create (width height internal_format : Int) (format : Nat) (cpu_only : Bool)
      (gl gl' : GLContext) (t : Texture F) :
      0 ≤ width → 0 ≤ height →
      Texture.create K width height internal_format format cpu_only gl = some (t, gl') →
      Reachable K t
  | set_pixel_color (t t' : Texture F) (x y : Int) (color : Color F) :
      Reachable K t → t.in_bounds x y → t.set_pixel_color x y color = some t' →
      Reachable K t'
  | set_pixel_gray_scale (t t' : Texture F) (x y : Int) (intensity : F) :
      Reachable K t → t.in_bounds x y → t.set_pixel_gray_scale x y intensity = some t' →
      Reachable K t'
  | copy_construct (other : Texture F) (gl : GLContext) :
      Reachable K other → Reachable K (Texture.copy_construct other gl).1
  | copy_assign (this other : Texture F) (gl : GLContext) :
      Reachable K this → Reachable K other →
      Reachable K (Texture.copy_assign this other gl).1
  | move_construct_target (other : Texture F) (gl : GLContext)
      (r : (Texture F × Texture F) × GLContext) :
      Reachable K other → Texture.move_construct K other gl = some r → Reachable K r.1.1
  | move_construct_source (other : Texture F) (gl : GLContext)
      (r : (Texture F × Texture F) × GLContext) :
      Reachable K other → Texture.move_construct K other gl = some r → Reachable K r.1.2
  | swap_first (first second : Texture F) :
      Reachable K first → Reachable K second → Reachable K (Texture.swap first second).1
  | swap_second (first second : Texture F) :
      Reachable K first → Reachable K second → Reachable K (Texture.swap first second).2

/-- The invariant of the reachable textures: one or four channels, and a pixel buffer
with room for four values for each of the `width * height` pixels, whose size is an
`int`. -/
def buffer_inv (t : Texture F) : Prop :=
  0 ≤ t.width ∧ 0 ≤ t.height ∧ (t.nrChannels = 1 ∨ t.nrChannels = 4)
    ∧ t.width * t.height * 4 ≤ (t.texture_data.length : Int)
    ∧ (t.texture_data.length : Int) ≤ INT_MAX

/-- A colour projected onto the channels of a texture: the colour itself on four
channels, and `(r, r, r, 1)` on one channel. -/
def channel_projection [One F] (nrChannels : Int) (c : Color F) : Color F :=
  if nrChannels = 1 then { r := c.r, g := c.r, b := c.r, a := 1 } else c

end Texture

/-- The texture `Texture(2, 1, GL_DEPTH_COMPONENT32F, GL_DEPTH_COMPONENT, true)` as
the constructor leaves it. -/
def sample_created_depth_texture : Texture Int :=
  { opengl_object := 0, target := GL_TEXTURE_2D, width := 2, height := 1,
    internal_format := GL_DEPTH_COMPONENT32F, format := GL_DEPTH_COMPONENT,
    type := GL_FLOAT, nrChannels := 1, cpu_only := true,
    texture_data := [1, 1, 1, 1, 1, 1, 1, 1] }

/-! ## The application of `pv112_seminars/template`

The embedding of `application.hpp` and `application.cpp` holds the members of
`Application` and the statements of its methods that concern the five display flags,
the uniform records and their buffer objects, the viewport and the draw commands.  Of
the OpenGL commands it records those on buffer objects and vertex arrays, `glViewport`
and the draw commands; the commands that set the fixed-function state, textures,
framebuffers, shader programs and uniforms are not recorded, and neither are the
commands issued by the constructors and destructors of the geometries.  What the code
takes from outside the sources is a parameter (`ApplicationDeps`). -/

/-- The constant `GL_TRIANGLES` of the OpenGL headers. -/
def GL_TRIANGLES : Nat := 0x0004

/-- The vector type `glm::vec4`: four `float` components. -/
structure Vec4 (F : Type) where
  x : F
  y : F
  z : F
  w : F
  deriving DecidableEq, Repr

/-- The constructor `glm::vec3(s)`: every component is `s`. -/
def Vec3.splat {F : Type} (s : F) : Vec3 F := { x := s, y := s, z := s }

/-- The constructor `glm::vec4(s)`: every component is `s`. -/
def Vec4.splat {F : Type} (s : F) : Vec4 F := { x := s, y := s, z := s, w := s }

/-- The constructor `glm::vec4(v, w)` from a `glm::vec3` and the fourth component. -/
def Vec4.of_vec3 {F : Type} (v : Vec3 F) (w : F) : Vec4 F :=
  { x := v.x, y := v.y, z := v.z, w := w }

/-- The uniform struct `CameraUBO` (`application.hpp`, lines 13-17). -/
structure CameraUBO (F M : Type) where
  projection : M
  view : M
  position : Vec4 F

/-- The uniform struct `LightUBO` (`application.hpp`, lines 19-24). -/
structure LightUBO (F : Type) where
  position : Vec4 F
  ambient_color : Vec4 F
  diffuse_color : Vec4 F
  specular_color : Vec4 F
  deriving DecidableEq, Repr

/-- The uniform struct `ConeLightUBO` (`application.hpp`, lines 26-33). -/
structure ConeLightUBO (F : Type) where
  position : Vec4 F
  ambient : Vec4 F
  diffuse : Vec4 F
  specular : Vec4 F
  direction : Vec3 F
  cutoff : F

/-- The uniform struct `ObjectUBO` (`application.hpp`, lines 35-42); `specular_color`
contains the shininess in its `w` element. -/
structure ObjectUBO (F M : Type) where
  model_matrix : M
  ambient_color : Vec4 F
  diffuse_color : Vec4 F
  specular_color : Vec4 F

/-- The value of `sizeof(glm::vec3)`: three floats. -/
def sizeof_vec3 : Nat := 3 * sizeof_float
/-- The value of `sizeof(glm::vec4)`: four floats. -/
def sizeof_vec4 : Nat := 4 * sizeof_float
/-- The value of `sizeof(glm::mat4)`: sixteen floats. -/
def sizeof_mat4 : Nat := 16 * sizeof_float

/-- The size of a struct whose members take `n` bytes and whose alignment is `a`: the
next multiple of `a`. -/
def align_up (n a : Nat) : Nat := (n + a - 1) / a * a

/-- The value of `sizeof(CameraUBO)`. -/
def sizeof_CameraUBO : Nat := sizeof_mat4 + sizeof_mat4 + sizeof_vec4
/-- The value of `sizeof(LightUBO)`. -/
def sizeof_LightUBO : Nat := sizeof_vec4 + sizeof_vec4 + sizeof_vec4 + sizeof_vec4
/-- The value of `sizeof(ConeLightUBO)`. -/
def sizeof_ConeLightUBO : Nat :=
  sizeof_vec4 + sizeof_vec4 + sizeof_vec4 + sizeof_vec4 + sizeof_vec3 + sizeof_float
/-- The value of `sizeof(ObjectUBO)`: the struct is declared `alignas(256)`, and its
members take the bytes `[0, 112)`. -/
def sizeof_ObjectUBO : Nat :=
  align_up (sizeof_mat4 + sizeof_vec4 + sizeof_vec4 + sizeof_vec4) 256

/-- The shared pointers to the geometries that the constructor of `Application` loads
(lines 85-173); the members `bunny`, `plush` and `window` are never assigned nor
read.  The objects pointed to are held directly. -/
structure Geometries (F : Type) where
  outside : Geometry_Base F
  mirror : Geometry_Base F
  dresser : Geometry_Base F
  bedside_table : Geometry_Base F
  table_lamp : Geometry_Base F
  rug : Geometry_Base F
  chair : Geometry_Base F
  plant3 : Geometry_Base F
  plant_pot_inside : Geometry_Base F
  plant_pot_outside : Geometry_Base F
  bed_frame : Geometry_Base F
  bed_part1 : Geometry_Base F
  bed_part2 : Geometry_Base F
  bed_wrap : Geometry_Base F
  bed_pillow1 : Geometry_Base F
  bed_pillow2 : Geometry_Base F
  globe_stand : Geometry_Base F
  globe : Geometry_Base F
  door_frame : Geometry_Base F
  door_base : Geometry_Base F
  door_handle : Geometry_Base F
  plant_small_pot : Geometry_Base F
  plant_small_leaf : Geometry_Base F
  lamp1 : Geometry_Base F
  lamp2 : Geometry_Base F
  lamp3 : Geometry_Base F
  room : Geometry_Base F
  ufo : Geometry_Base F
  cow : Geometry_Base F
  cone : Geometry_Base F
  tree : Geometry_Base F

/-- The value of the pointer member `lights_buffer`: the member it points to. -/
inductive LightsBuffer where
  | lights_night_buffer
  | lights_day_buffer
  deriving DecidableEq, Repr

/-- What `application.cpp` takes from outside the sources, as parameters of the
embedding, for a type `M` of the `glm::mat4` values, a type `R` of the states of the
generator behind `rand()` and a type `P` of the values of the eight shader program
members: functions of the library `glm`; `rand()` and `RAND_MAX` of the C library; the
conversions between `int`, `size_t` and the floating-point types; the object
representations of the uniform structs; the geometry that the default constructor of
`Sphere` builds; and the program members as default-constructed and as assigned by
`compile_shaders`. -/
structure ApplicationDeps (F M R P : Type) where
  glm : Glm F M
  radians : F → F
  cos : F → F
  perspective : F → F → F → F → M
  lookAt : Vec3 F → Vec3 F → Vec3 F → M
  rand : R → Int × R
  RAND_MAX : Int
  float_of_int : Int → F
  float_of_size_t : Nat → F
  int_of_double : F → Int
  camera_bytes : CameraUBO F M → List Nat
  light_bytes : LightUBO F → List Nat
  cone_light_bytes : ConeLightUBO F → List Nat
  object_bytes : ObjectUBO F M → List Nat
  sphere : Geometry_Base F
  default_programs : P
  compiled_programs : P → P

/-- The data members of `Application` that the embedded statements read or write,
with the members `width` and `height` of `IApplication` in `base`.  The member
`camera` is represented by its eye position, the only value read from it; an
unassigned `lights_buffer` is `none`. -/
structure Application (F M P : Type) where
  base : IApplication
  width : Nat
  height : Nat
  programs : P
  geometries : Geometries F
  camera : Vec3 F
  camera_buffer : Nat
  camera_ubo : CameraUBO F M
  light_buffer : Nat
  light_ubo : LightUBO F
  objects_buffer : Nat
  objects_ubos : List (ObjectUBO F M)
  lights_buffer : Option LightsBuffer
  lights_day : List (LightUBO F)
  lights_day_buffer : Nat
  lights_night : List (LightUBO F)
  lights_night_buffer : Nat
  cone_light_buffer : Nat
  cone_light_ubo : ConeLightUBO F
  night : Bool
  walls_off : Bool
  toon_shading : Bool
  edge_detection : Bool
  camouflage : Bool
  skyboxVAO : Nat
  time : F
  angle : F

/-- The bytes that a command reads behind the pointer `v.data()` when it is given the
size of `count` elements: undefined behaviour when the vector holds fewer. -/
def read_elements {T : Type} (bytes : T → List Nat) (v : List T) (count : Nat) :
    Option (List Nat) :=
  if count ≤ v.length then some ((v.take count).map bytes).flatten else none

/-- The call `v.push_back(x)` of a `std::vector`. -/
def push_back {T : Type} (v : List T) (x : T) : List T := v ++ [x]

namespace Application

variable {F M R P : Type}

/-- The function `random` (line 13). -/
def random [OfScientific F] [Add F] [Div F] (D : ApplicationDeps F M R P) (rng : R) : F × R :=
  let r := D.rand rng
  (D.float_of_int r.1 / (D.float_of_int D.RAND_MAX + 1.0), r.2)

/-- The function `random_neg` (line 14). -/
def random_neg [OfScientific F] [Add F] [Sub F] [Mul F] [Div F] (D : ApplicationDeps F M R P)
    (rng : R) : F × R :=
  let r := D.rand rng
  (D.float_of_int r.1 / (D.float_of_int D.RAND_MAX + 1.0) * 2.0 - 1.0, r.2)

/-- The statements "Stars lights" of the constructor (lines 254-263): the body of the
loop.  The three random numbers are drawn in the order of the arguments. -/
def push_star [OfScientific F] [Add F] [Sub F] [Mul F] [Div F] (D : ApplicationDeps F M R P)
    (s : List (LightUBO F) × R) : List (LightUBO F) × R :=
  let x := random_neg D s.2
  let y := random D x.2
  let z := random_neg D y.2
  (push_back s.1 {
    position := Vec4.mk (x.1 * 300.0) (10.0 + y.1 * 300.0) (z.1 * 300.0) 1.0,
    ambient_color := Vec4.splat 0.0,
    diffuse_color := Vec4.mk 1.0 1.0 1.0 0.0,
    specular_color := Vec4.splat 0.0 }, z.2)

/-- The statements of the constructor that fill `lights_night` and `lights_day` (lines
254-313). -/
def init_lights [OfScientific F] [Neg F] [Add F] [Sub F] [Mul F] [Div F]
    (D : ApplicationDeps F M R P) (a : Application F M P) (rng : R) :
    Option (Application F M P × R) := do
  -- Stars lights
  let s ← for_size_t 195 (fun _ s => some (push_star D s)) (a.lights_night, rng)
  let lights_night := s.1
  let lights_day := a.lights_day
  -- light 1
  let lights_night := push_back lights_night {
    position := Vec4.mk (-0.45) 1.5 0.0 0.0, ambient_color := Vec4.splat 0.5,
    diffuse_color := Vec4.mk 0.5 0.5 0.5 0.5, specular_color := Vec4.splat 0.5 }
  -- light 2
  let lights_night := push_back lights_night {
    position := Vec4.mk (-0.45) 1.5 3.0 0.0, ambient_color := Vec4.splat 0.5,
    diffuse_color := Vec4.mk 0.5 0.5 0.5 0.5, specular_color := Vec4.splat 0.5 }
  -- light 1
  let lights_day := push_back lights_day {
    position := Vec4.mk (-0.45) 1.5 0.0 0.0, ambient_color := Vec4.splat 0.5,
    diffuse_color := Vec4.mk 0.5 0.5 0.5 0.5, specular_color := Vec4.splat 0.5 }
  -- light 2
  let lights_day := push_back lights_day {
    position := Vec4.mk (-0.45) 1.5 3.0 0.0, ambient_color := Vec4.splat 0.5,
    diffuse_color := Vec4.mk 0.5 0.5 0.5 0.5, specular_color := Vec4.splat 0.5 }
  -- table light
  let lights_night := push_back lights_night {
    position := Vec4.mk (-1.76) 0.7 0.5 0.0, ambient_color := Vec4.splat 0.1,
    diffuse_color := Vec4.mk 0.75 0.75 0.25 0.25, specular_color := Vec4.splat 0.1 }
  -- light next to chair
  let lights_night := push_back lights_night {
    position := Vec4.mk 0.3 0.8 4.8 0.0, ambient_color := Vec4.splat 0.1,
    diffuse_color := Vec4.mk 0.75 0.75 0.25 0.25, specular_color := Vec4.splat 0.1 }
  -- moon / sun
  let lights_night := push_back lights_night {
    position := Vec4.mk 10.0 30.0 10.0 1.0, ambient_color := Vec4.mk 200.0 200.0 500.0 0.0,
    diffuse_color := Vec4.mk 500.0 500.0 2000.0 0.0,
    specular_color := Vec4.mk 10.0 10.0 50.0 0.0 }
  let lights_day := push_back lights_day {
    position := Vec4.mk 10.0 30.0 10.0 1.0, ambient_color := Vec4.splat 300.0,
    diffuse_color := Vec4.mk 1000.0 1000.0 500.0 1.0, specular_color := Vec4.splat 50.0 }
  some ({ a with lights_night := lights_night, lights_day := lights_day }, s.2)

/-- The statements of the constructor that set `camera_ubo` (lines 250-252) and
`cone_light_ubo` (lines 317-322). -/
def init_camera_and_cone_light [OfScientific F] [Neg F] [Div F]
    (D : ApplicationDeps F M R P) (a : Application F M P) : Application F M P :=
  let a := { a with camera_ubo := { a.camera_ubo with position := Vec4.of_vec3 a.camera 1.0 } }
  let a := { a with camera_ubo := { a.camera_ubo with
    projection := D.perspective (D.radians 45.0)
      (D.float_of_size_t a.width / D.float_of_size_t a.height) 0.01 1000.0 } }
  let a := { a with camera_ubo := { a.camera_ubo with
    view := D.lookAt a.camera (Vec3.mk 0.0 0.0 0.0) (Vec3.mk 0.0 1.0 0.0) } }
  -- cone light
  { a with cone_light_ubo := {
      position := Vec4.mk 15.0 15.0 0.0 0.0, ambient := Vec4.splat 5.0,
      diffuse := Vec4.splat 8.0, specular := Vec4.splat 3.0,
      direction := Vec3.mk 0.0 (-1.0) 0.0, cutoff := D.cos (D.radians 15.0) } }

/-- The statements "tree" of the constructor (lines 701-709): the body of the loop.
The random numbers are drawn in the order of the arguments. -/
def push_tree [OfScientific F] [Add F] [Sub F] [Mul F] [Div F] (D : ApplicationDeps F M R P)
    (s : List (ObjectUBO F M) × R) : List (ObjectUBO F M) × R :=
  let transform := D.glm.mat4 1.0
  let r := random_neg D s.2
  let transform := D.glm.scale transform (Vec3.splat (8.0 + r.1 * 2.0))
  let x := random_neg D r.2
  let z := random_neg D x.2
  (push_back s.1 {
    model_matrix := D.glm.translate transform (Vec3.mk (4.0 + x.1 * 2.0) 0.0 (1.0 * z.1 * 3.0)),
    ambient_color := Vec4.splat 0.0, diffuse_color := Vec4.mk 1.0 1.0 1.0 1.0,
    specular_color := Vec4.splat 0.0 }, z.2)

/-- The statements "objects" of the constructor that fill `objects_ubos` (lines
324-714), in order; the loop `for (int i = 0; i <= 30; i++)` runs for `i < 31`. -/
def init_objects [OfScientific F] [Neg F] [Add F] [Sub F] [Mul F] [Div F]
    (D : ApplicationDeps F M R P) (a : Application F M P) (rng : R) :
    Option (Application F M P × R) := do
  let objects_ubos := a.objects_ubos
  let transform := D.glm.mat4 1.0
  let transform := D.glm.scale transform (Vec3.splat 700.0)
  let objects_ubos := push_back objects_ubos {
    model_matrix := D.glm.translate transform (Vec3.mk 0.3 0.0554 0.32),
    ambient_color := (Vec4.splat 0.0), diffuse_color := (Vec4.splat 1.0),
    specular_color := (Vec4.splat 0.0) }
  let transform := D.glm.mat4 1.0
  let transform := D.glm.rotate transform (D.radians 180.0) (Vec3.mk 0.0 1.0 0.0)
  let transform := D.glm.scale transform (Vec3.splat 2.3)
  let transform := D.glm.translate transform (Vec3.mk 0.2 0.33 (-2.2))
  let transform := D.glm.rotate transform (D.radians 180.0) (Vec3.mk 0.0 0.0 1.0)
  let objects_ubos := push_back objects_ubos {
    model_matrix := transform,
    ambient_color := (Vec4.splat 0.0), diffuse_color := (Vec4.splat 1.0),
    specular_color := (Vec4.splat 0.0) }
  let transform := D.glm.mat4 1.0
  let transform := D.glm.rotate transform (D.radians 90.0) (Vec3.mk 0.0 1.0 0.0)
  let transform := D.glm.scale transform (Vec3.splat 2.0)
  let objects_ubos := push_back objects_ubos {
    model_matrix := D.glm.translate transform (Vec3.mk (-1.3) 0.0 (-0.9)),
    ambient_color := (Vec4.splat 0.0), diffuse_color := (Vec4.splat 1.0),
    specular_color := (Vec4.splat 0.0) }
  let transform := D.glm.mat4 1.0
  let transform := D.glm.rotate transform (D.radians 90.0) (Vec3.mk 0.0 1.0 0.0)
  let transform := D.glm.scale transform (Vec3.splat 0.8)
  let objects_ubos := push_back objects_ubos {
    model_matrix := D.glm.translate transform (Vec3.mk (-0.8) (-0.22) (-2.48)),
    ambient_color := (Vec4.splat 0.0), diffuse_color := (Vec4.splat 1.0),
    specular_color := (Vec4.splat 0.0) }
  let transform := D.glm.mat4 1.0
  let transform := D.glm.scale transform (Vec3.splat 0.7)
  let objects_ubos := push_back objects_ubos {
    model_matrix := D.glm.translate transform (Vec3.mk (-2.8) 0.8 0.9),
    ambient_color := (Vec4.splat 0.0), diffuse_color := (Vec4.splat 1.0),
    specular_color := (Vec4.splat 0.0) }
  let transform := D.glm.mat4 1.0
  let transform := D.glm.scale transform (Vec3.splat 2.5)
  let objects_ubos := push_back objects_ubos {
    model_matrix := D.glm.translate transform (Vec3.mk 0.0 (-0.2) 0.7),
    ambient_color := (Vec4.splat 0.0), diffuse_color := (Vec4.splat 1.0),
    specular_color := (Vec4.splat 0.0) }
  let transform := D.glm.mat4 1.0
  let transform := D.glm.rotate transform (D.radians (-135.0)) (Vec3.mk 0.0 1.0 0.0)
  let transform := D.glm.scale transform (Vec3.splat 1.0)
  let objects_ubos := push_back objects_ubos {
    model_matrix := D.glm.translate transform (Vec3.mk 2.2 (-0.1) (-3.7)),
    ambient_color := (Vec4.splat 0.0), diffuse_color := (Vec4.splat 1.0),
    specular_color := (Vec4.splat 0.0) }
  let transform := D.glm.mat4 1.0
  let transform := D.glm.scale transform (Vec3.splat 2.5)
  let objects_ubos := push_back objects_ubos {
    model_matrix := D.glm.translate transform (Vec3.mk 0.38 0.3 (-0.1)),
    ambient_color := (Vec4.splat 0.0), diffuse_color := (Vec4.splat 1.0),
    specular_color := (Vec4.splat 0.0) }
  let transform := D.glm.mat4 1.0
  let transform := D.glm.scale transform (Vec3.splat 0.25)
  let objects_ubos := push_back objects_ubos {
    model_matrix := D.glm.translate transform (Vec3.mk 3.8 (-1.4) (-0.89)),
    ambient_color := (Vec4.splat 0.0), diffuse_color := (Vec4.splat 1.0),
    specular_color := (Vec4.splat 0.0) }
  let transform := D.glm.mat4 1.0
  let transform := D.glm.scale transform (Vec3.splat 0.36)
  let objects_ubos := push_back objects_ubos {
    model_matrix := D.glm.translate transform (Vec3.mk 2.6 (-1.1) (-0.6)),
    ambient_color := (Vec4.splat 0.0), diffuse_color := (Vec4.splat 1.0),
    specular_color := (Vec4.splat 0.0) }
  let transform := D.glm.mat4 1.0
  let transform := D.glm.rotate transform (D.radians 90.0) (Vec3.mk 0.0 1.0 0.0)
  let transform := D.glm.scale transform (Vec3.splat 2.5)
  let objects_ubos := push_back objects_ubos {
    model_matrix := D.glm.translate transform (Vec3.mk 0.2 0.0 (-0.4)),
    ambient_color := (Vec4.splat 0.0), diffuse_color := (Vec4.splat 1.0),
    specular_color := (Vec4.splat 0.0) }
  let transform := D.glm.mat4 1.0
  let transform := D.glm.rotate transform (D.radians 90.0) (Vec3.mk 0.0 1.0 0.0)
  let transform := D.glm.scale transform (Vec3.splat 2.5)
  let objects_ubos := push_back objects_ubos {
    model_matrix := D.glm.translate transform (Vec3.mk 0.2 0.0 (-0.4)),
    ambient_color := (Vec4.splat 0.0), diffuse_color := (Vec4.splat 1.0),
    specular_color := (Vec4.splat 0.0) }
  let transform := D.glm.mat4 1.0
  let transform := D.glm.rotate transform (D.radians 90.0) (Vec3.mk 0.0 1.0 0.0)
  let transform := D.glm.scale transform (Vec3.splat 2.2)
  let objects_ubos := push_back objects_ubos {
    model_matrix := D.glm.translate transform (Vec3.mk 0.23 0.01 (-0.4)),
    ambient_color := (Vec4.splat 0.0), diffuse_color := (Vec4.splat 1.0),
    specular_color := (Vec4.splat 0.0) }
  let transform := D.glm.mat4 1.0
  let transform := D.glm.rotate transform (D.radians 90.0) (Vec3.mk 0.0 1.0 0.0)
  let transform := D.glm.scale transform (Vec3.splat 1.0)
  let objects_ubos := push_back objects_ubos {
    model_matrix := D.glm.translate transform (Vec3.mk 0.2 0.075 (-0.5)),
    ambient_color := (Vec4.splat 0.0), diffuse_color := (Vec4.splat 1.0),
    specular_color := (Vec4.splat 0.0) }
  let transform := D.glm.mat4 1.0
  let transform := D.glm.rotate transform (D.radians 90.0) (Vec3.mk 0.0 1.0 0.0)
  let transform := D.glm.scale transform (Vec3.splat 0.9)
  let objects_ubos := push_back objects_ubos {
    model_matrix := D.glm.translate transform (Vec3.mk 0.5 0.3 (-2.1)),
    ambient_color := (Vec4.splat 0.0), diffuse_color := (Vec4.splat 1.0),
    specular_color := (Vec4.splat 0.0) }
  let transform := D.glm.mat4 1.0
  let transform := D.glm.rotate transform (D.radians 90.0) (Vec3.mk 0.0 1.0 0.0)
  let transform := D.glm.scale transform (Vec3.splat 0.6)
  let objects_ubos := push_back objects_ubos {
    model_matrix := D.glm.translate transform (Vec3.mk 1.1 0.5 (-2.9)),
    ambient_color := (Vec4.splat 0.0), diffuse_color := (Vec4.splat 1.0),
    specular_color := (Vec4.splat 0.0) }
  let transform := D.glm.mat4 1.0
  let transform := D.glm.scale transform (Vec3.splat 0.7)
  let transform := D.glm.translate transform (Vec3.mk (-2.6) 1.3 2.9)
  let objects_ubos := push_back objects_ubos {
    model_matrix := transform,
    ambient_color := (Vec4.splat 0.0), diffuse_color := (Vec4.splat 1.0),
    specular_color := (Vec4.splat 0.0) }
  let transform := D.glm.mat4 1.0
  let transform := D.glm.scale transform (Vec3.splat 0.4)
  let transform := D.glm.translate transform (Vec3.mk (-4.55) 2.5 5.05)
  let objects_ubos := push_back objects_ubos {
    model_matrix := transform,
    ambient_color := (Vec4.splat 0.0), diffuse_color := (Vec4.splat 1.0),
    specular_color := (Vec4.splat 0.0) }
  let transform := D.glm.mat4 1.0
  let transform := D.glm.scale transform (Vec3.mk 3.0 2.5 2.5)
  let objects_ubos := push_back objects_ubos {
    model_matrix := D.glm.translate transform (Vec3.mk (-0.767) 0.26 1.8),
    ambient_color := (Vec4.splat 0.0), diffuse_color := (Vec4.splat 1.0),
    specular_color := (Vec4.splat 0.0) }
  let transform := D.glm.mat4 1.0
  let transform := D.glm.scale transform (Vec3.mk 30.0 2.5 2.5)
  let objects_ubos := push_back objects_ubos {
    model_matrix := D.glm.translate transform (Vec3.mk (-0.077) 0.26 1.8),
    ambient_color := (Vec4.splat 0.0), diffuse_color := (Vec4.splat 1.0),
    specular_color := (Vec4.splat 0.0) }
  let transform := D.glm.mat4 1.0
  let transform := D.glm.scale transform (Vec3.mk 0.5 0.4 0.4)
  let objects_ubos := push_back objects_ubos {
    model_matrix := D.glm.translate transform (Vec3.mk (-4.6) 1.25 11.6),
    ambient_color := (Vec4.splat 0.0), diffuse_color := (Vec4.splat 1.0),
    specular_color := (Vec4.splat 0.0) }
  let transform := D.glm.mat4 1.0
  let transform := D.glm.scale transform (Vec3.splat 0.3)
  let objects_ubos := push_back objects_ubos {
    model_matrix := D.glm.translate transform (Vec3.mk (-5.8) 2.4 11.0),
    ambient_color := (Vec4.splat 0.0), diffuse_color := (Vec4.splat 1.0),
    specular_color := (Vec4.splat 0.0) }
  let transform := D.glm.mat4 1.0
  let transform := D.glm.scale transform (Vec3.splat 1.0)
  let objects_ubos := push_back objects_ubos {
    model_matrix := D.glm.translate transform (Vec3.mk (-1.73) 1.0 3.35),
    ambient_color := (Vec4.splat 0.0), diffuse_color := (Vec4.splat 1.0),
    specular_color := (Vec4.splat 0.0) }
  let transform := D.glm.mat4 1.0
  let transform := D.glm.scale transform (Vec3.splat 1.2)
  let objects_ubos := push_back objects_ubos {
    model_matrix := D.glm.translate transform (Vec3.mk (-0.3) 1.7 2.3),
    ambient_color := (Vec4.splat 0.25), diffuse_color := (Vec4.splat 0.4),
    specular_color := (Vec4.splat 0.774597) }
  let transform := D.glm.mat4 1.0
  let transform := D.glm.scale transform (Vec3.splat 1.2)
  let objects_ubos := push_back objects_ubos {
    model_matrix := D.glm.translate transform (Vec3.mk (-0.3) 1.7 0.0),
    ambient_color := (Vec4.splat 0.25), diffuse_color := (Vec4.splat 0.4),
    specular_color := (Vec4.splat 0.774597) }
  let transform := D.glm.mat4 1.0
  let transform := D.glm.scale transform (Vec3.splat 1.5)
  let objects_ubos := push_back objects_ubos {
    model_matrix := D.glm.translate transform (Vec3.mk 0.2 0.1 3.2),
    ambient_color := (Vec4.splat 0.0), diffuse_color := (Vec4.splat 1.0),
    specular_color := (Vec4.splat 0.0) }
  let transform := D.glm.mat4 1.0
  let transform := D.glm.translate transform (Vec3.mk (-0.3) (-0.9) 1.9)
  let transform := D.glm.scale transform (Vec3.mk 2.05 0.3 3.25)
  let objects_ubos := push_back objects_ubos {
    model_matrix := transform,
    ambient_color := (Vec4.splat 0.0), diffuse_color := (Vec4.splat 1.0),
    specular_color := (Vec4.splat 0.0) }
  let transform := D.glm.mat4 1.0
  let transform := D.glm.translate transform (Vec3.mk (-0.25) 2.7 2.1)
  let transform := D.glm.scale transform (Vec3.mk 2.3 0.05 3.50)
  let objects_ubos := push_back objects_ubos {
    model_matrix := transform,
    ambient_color := (Vec4.splat 0.0), diffuse_color := (Vec4.splat 1.0),
    specular_color := (Vec4.splat 0.0) }
  let transform := D.glm.mat4 1.0
  let transform := D.glm.translate transform (Vec3.mk (-2.3) 1.05 1.9)
  let transform := D.glm.scale transform (Vec3.mk 0.05 1.7 3.25)
  let transform := D.glm.rotate transform (D.radians 180.0) (Vec3.mk 0.0 0.0 1.0)
  let objects_ubos := push_back objects_ubos {
    model_matrix := transform,
    ambient_color := (Vec4.splat 0.0), diffuse_color := (Vec4.splat 1.0),
    specular_color := (Vec4.splat 0.0) }
  let transform := D.glm.mat4 1.0
  let transform := D.glm.translate transform (Vec3.mk (-0.3) 1.05 5.1)
  let transform := D.glm.scale transform (Vec3.mk 2.0 1.7 0.05)
  let transform := D.glm.rotate transform (D.radians 180.0) (Vec3.mk 0.0 1.0 0.0)
  let objects_ubos := push_back objects_ubos {
    model_matrix := transform,
    ambient_color := (Vec4.splat 0.0), diffuse_color := (Vec4.splat 1.0),
    specular_color := (Vec4.splat 0.0) }
  let transform := D.glm.mat4 1.0
  let transform := D.glm.translate transform (Vec3.mk (-0.3) 1.05 (-1.3))
  let transform := D.glm.scale transform (Vec3.mk 2.0 1.7 0.05)
  let transform := D.glm.rotate transform (D.radians 180.0) (Vec3.mk 0.0 0.0 1.0)
  let objects_ubos := push_back objects_ubos {
    model_matrix := transform,
    ambient_color := (Vec4.splat 0.0), diffuse_color := (Vec4.splat 1.0),
    specular_color := (Vec4.splat 0.0) }
  let transform := D.glm.mat4 1.0
  let transform := D.glm.translate transform (Vec3.mk 1.7 1.05 (-0.2))
  let transform := D.glm.scale transform (Vec3.mk 0.05 1.7 1.15)
  let objects_ubos := push_back objects_ubos {
    model_matrix := transform,
    ambient_color := (Vec4.splat 0.0), diffuse_color := (Vec4.splat 1.0),
    specular_color := (Vec4.splat 0.0) }
  let transform := D.glm.mat4 1.0
  let transform := D.glm.translate transform (Vec3.mk 1.7 1.05 4.15)
  let transform := D.glm.scale transform (Vec3.mk 0.05 1.7 1.0)
  let objects_ubos := push_back objects_ubos {
    model_matrix := transform,
    ambient_color := (Vec4.splat 0.0), diffuse_color := (Vec4.splat 1.0),
    specular_color := (Vec4.splat 0.0) }
  let transform := D.glm.mat4 1.0
  let transform := D.glm.translate transform (Vec3.mk 1.7 1.05 2.15)
  let transform := D.glm.scale transform (Vec3.mk 0.04 1.7 2.0)
  let objects_ubos := push_back objects_ubos {
    model_matrix := transform,
    ambient_color := (Vec4.splat 0.0), diffuse_color := (Vec4.mk 0.5 0.5 1.0 0.5),
    specular_color := (Vec4.splat 0.0) }
  let transform := D.glm.mat4 1.0
  let transform := D.glm.translate transform (Vec3.mk 15.0 15.0 0.0)
  let transform := D.glm.scale transform (Vec3.splat 5.0)
  let objects_ubos := push_back objects_ubos {
    model_matrix := transform,
    ambient_color := (Vec4.splat 0.0), diffuse_color := (Vec4.splat 1.0),
    specular_color := (Vec4.splat 0.0) }
  let transform := D.glm.mat4 1.0
  let transform := D.glm.translate transform (Vec3.mk 15.0 1.0 0.0)
  let transform := D.glm.scale transform (Vec3.splat 3.0)
  let objects_ubos := push_back objects_ubos {
    model_matrix := transform,
    ambient_color := (Vec4.splat 0.0), diffuse_color := (Vec4.splat 1.0),
    specular_color := (Vec4.splat 0.0) }
  let transform := D.glm.mat4 1.0
  let transform := D.glm.scale transform (Vec3.mk 1.7 3.3 6.4)
  let objects_ubos := push_back objects_ubos {
    model_matrix := D.glm.translate transform (Vec3.mk 0.99 0.3 0.32),
    ambient_color := (Vec4.splat 0.0), diffuse_color := (Vec4.splat 1.0),
    specular_color := (Vec4.splat 0.0) }
  let transform := D.glm.mat4 1.0
  let transform := D.glm.scale transform (Vec3.mk 15.0 30.0 15.0)
  let objects_ubos := push_back objects_ubos {
    model_matrix := D.glm.translate transform (Vec3.mk 1.0 0.0 0.0),
    ambient_color := (Vec4.splat 0.0), diffuse_color := (Vec4.mk 1.0 1.0 1.0 0.3),
    specular_color := (Vec4.splat 0.0) }
  -- tree
  let s ← for_int 31 (fun _ s => some (push_tree D s)) (objects_ubos, rng)
  some ({ a with objects_ubos := s.1 }, s.2)

/-- The statements "Create Buffers" of the constructor (lines 731-746).  `none`
stands for a read past the end of `lights_night` or `lights_day`. -/
def create_buffers (D : ApplicationDeps F M R P) (a : Application F M P) (gl : GLContext) :
    Option (Application F M P × GLContext) := do
  let r := glCreateBuffers gl
  let a := { a with camera_buffer := r.1 }
  let gl := glNamedBufferStorage a.camera_buffer sizeof_CameraUBO
    (D.camera_bytes a.camera_ubo) GL_DYNAMIC_STORAGE_BIT r.2
  let r := glCreateBuffers gl
  let a := { a with light_buffer := r.1 }
  let gl := glNamedBufferStorage a.light_buffer sizeof_LightUBO
    (D.light_bytes a.light_ubo) GL_DYNAMIC_STORAGE_BIT r.2
  let r := glCreateBuffers gl
  let a := { a with objects_buffer := r.1 }
  let data ← read_elements D.object_bytes a.objects_ubos a.objects_ubos.length
  let gl := glNamedBufferStorage a.objects_buffer
    (size_t_mul sizeof_ObjectUBO a.objects_ubos.length) data GL_DYNAMIC_STORAGE_BIT r.2
  let r := glCreateBuffers gl
  let a := { a with lights_night_buffer := r.1 }
  let r := glCreateBuffers r.2
  let a := { a with lights_day_buffer := r.1 }
  let data ← read_elements D.light_bytes a.lights_night 200
  let gl := glNamedBufferStorage a.lights_night_buffer (200 * sizeof_LightUBO) data
    GL_DYNAMIC_STORAGE_BIT r.2
  let data ← read_elements D.light_bytes a.lights_day 3
  let gl := glNamedBufferStorage a.lights_day_buffer (3 * sizeof_LightUBO) data
    GL_DYNAMIC_STORAGE_BIT gl
  let r := glCreateBuffers gl
  let a := { a with cone_light_buffer := r.1 }
  let gl := glNamedBufferStorage a.cone_light_buffer sizeof_ConeLightUBO
    (D.cone_light_bytes a.cone_light_ubo) GL_DYNAMIC_STORAGE_BIT r.2
  some (a, gl)

/-- The method `compile_shaders` (lines 780-791): it assigns the eight program
members. -/
def compile_shaders (D : ApplicationDeps F M R P) (a : Application F M P) (gl : GLContext) :
    Application F M P × GLContext :=
  ({ a with programs := D.compiled_programs a.programs }, gl)

/-- The constructor `Application(initial_width, initial_height, arguments)` (lines
74-759).  Its arguments here are, besides the two sizes: the geometries loaded from
files (lines 85-173), the eye position of the default-constructed camera, the
indeterminate values of the members `camera_ubo`, `light_ubo`, `cone_light_ubo`,
`time` and `angle`, which have no initialiser, the name of the vertex array of the sky
box (lines 718-724), the state `rng` of `rand()` and the context.  The textures
(lines 177-245) and the framebuffer (lines 748-756) are not modelled.  The members
with a default member initialiser start from it, and the vectors start empty. -/
def construct [OfScientific F] [Neg F] [Add F] [Sub F] [Mul F] [Div F]
    (D : ApplicationDeps F M R P) (initial_width initial_height : Int)
    (geometries : Geometries F) (camera : Vec3 F) (camera_ubo : CameraUBO F M)
    (light_ubo : LightUBO F) (cone_light_ubo : ConeLightUBO F) (skyboxVAO : Nat)
    (time angle : F) (rng : R) (gl : GLContext) :
    Option (Application F M P × R × GLContext) := do
  let a : Application F M P :=
    { base := { width := initial_width, height := initial_height },
      width := 0, height := 0, programs := D.default_programs, geometries := geometries,
      camera := camera, camera_buffer := 0, camera_ubo := camera_ubo,
      light_buffer := 0, light_ubo := light_ubo, objects_buffer := 0, objects_ubos := [],
      lights_buffer := none, lights_day := [], lights_day_buffer := 0, lights_night := [],
      lights_night_buffer := 0, cone_light_buffer := 0, cone_light_ubo := cone_light_ubo,
      night := false, walls_off := false, toon_shading := false, edge_detection := false,
      camouflage := false, skyboxVAO := skyboxVAO, time := time, angle := angle }
  let a := { a with width := to_size_t initial_width }
  let a := { a with height := to_size_t initial_height }
  let a := init_camera_and_cone_light D a
  let r ← init_lights D a rng
  let r ← init_objects D r.1 r.2
  let c ← create_buffers D r.1 gl
  let s := compile_shaders D c.1 c.2
  some (s.1, r.2, s.2)

/-- The value `*lights_buffer`: the member that the pointer points to; reading through
the unassigned pointer is undefined behaviour. -/
def deref_lights_buffer (a : Application F M P) : Option Nat :=
  a.lights_buffer.map fun p =>
    match p with
    | .lights_night_buffer => a.lights_night_buffer
    | .lights_day_buffer => a.lights_day_buffer

/-- The statements of `render` before the objects (lines 793-888): the camera update,
the viewport, the sky box and the stars. -/
def render_sky (D : ApplicationDeps F M R P) [OfScientific F] (a : Application F M P)
    (gl : GLContext) : Application F M P × GLContext :=
  -- Camera
  let a := { a with camera_ubo := { a.camera_ubo with position := Vec4.of_vec3 a.camera 1.0 } }
  let a := { a with camera_ubo := { a.camera_ubo with
    view := D.lookAt a.camera (Vec3.mk 0.0 0.0 0.0) (Vec3.mk 0.0 1.0 0.0) } }
  let gl := glNamedBufferSubData a.camera_buffer 0 sizeof_CameraUBO
    (D.camera_bytes a.camera_ubo) gl
  -- Draw scene
  let gl := glViewport 0 0 (to_int a.width) (to_int a.height) gl
  -- skybox
  let gl := glBindVertexArray a.skyboxVAO gl
  let gl := glDrawArrays GL_TRIANGLES 0 36 gl
  let gl := glBindVertexArray 0 gl
  -- stars
  if a.night then
    let a := { a with lights_buffer := some LightsBuffer.lights_night_buffer }
    let sphere := D.sphere
    let gl := glBindBufferBase GL_SHADER_STORAGE_BUFFER 1 a.lights_night_buffer gl
    let gl := sphere.bind_vao gl
    let gl := glDrawElementsInstanced sphere.mode sphere.draw_elements_count
      GL_UNSIGNED_INT 0 195 gl
    (a, gl)
  else
    ({ a with lights_buffer := some LightsBuffer.lights_day_buffer }, gl)

/-- The statements of `render` for the outside and for the objects drawn with the main
program up to the globe stand (lines 892-1012); `lights` is the value of
`*lights_buffer`. -/
def render_furniture (a : Application F M P) (lights : Nat) (gl : GLContext) : GLContext :=
  -- outside
  let gl := glBindBufferBase GL_UNIFORM_BUFFER 0 a.camera_buffer gl
  let gl := glBindBufferBase GL_SHADER_STORAGE_BUFFER 1 lights gl
  let gl := glBindBufferRange GL_UNIFORM_BUFFER 2 a.objects_buffer (0 * 256) sizeof_ObjectUBO gl
  let gl := glBindBufferBase GL_UNIFORM_BUFFER 3 a.cone_light_buffer gl
  let gl := a.geometries.outside.draw gl
  let gl := glBindBufferBase GL_UNIFORM_BUFFER 0 a.camera_buffer gl
  let gl := glBindBufferBase GL_SHADER_STORAGE_BUFFER 1 lights gl
  let gl := glBindBufferBase GL_UNIFORM_BUFFER 3 a.cone_light_buffer gl
  -- dresser
  let gl := glBindBufferRange GL_UNIFORM_BUFFER 2 a.objects_buffer (2 * 256) sizeof_ObjectUBO gl
  let gl := a.geometries.dresser.draw gl
  -- bedside table
  let gl := glBindBufferRange GL_UNIFORM_BUFFER 2 a.objects_buffer (3 * 256) sizeof_ObjectUBO gl
  let gl := a.geometries.bedside_table.draw gl
  -- rug1
  let gl := glBindBufferRange GL_UNIFORM_BUFFER 2 a.objects_buffer (5 * 256) sizeof_ObjectUBO gl
  let gl := a.geometries.rug.draw gl
  -- plant3
  let gl := glBindBufferRange GL_UNIFORM_BUFFER 2 a.objects_buffer (7 * 256) sizeof_ObjectUBO gl
  let gl := a.geometries.plant3.draw gl
  -- plant pot inside
  let gl := glBindBufferRange GL_UNIFORM_BUFFER 2 a.objects_buffer (8 * 256) sizeof_ObjectUBO gl
  let gl := a.geometries.plant_pot_inside.draw gl
  -- plant pot outside
  let gl := glBindBufferRange GL_UNIFORM_BUFFER 2 a.objects_buffer (9 * 256) sizeof_ObjectUBO gl
  let gl := a.geometries.plant_pot_outside.draw gl
  -- bed frame
  let gl := glBindBufferRange GL_UNIFORM_BUFFER 2 a.objects_buffer (10 * 256) sizeof_ObjectUBO gl
  let gl := a.geometries.bed_frame.draw gl
  -- bed part 1
  let gl := glBindBufferRange GL_UNIFORM_BUFFER 2 a.objects_buffer (11 * 256) sizeof_ObjectUBO gl
  let gl := a.geometries.bed_part1.draw gl
  -- bed part 2
  let gl := glBindBufferRange GL_UNIFORM_BUFFER 2 a.objects_buffer (12 * 256) sizeof_ObjectUBO gl
  let gl := a.geometries.bed_part2.draw gl
  -- bed wrap
  let gl := glBindBufferRange GL_UNIFORM_BUFFER 2 a.objects_buffer (13 * 256) sizeof_ObjectUBO gl
  let gl := a.geometries.bed_wrap.draw gl
  -- bed pillow1
  let gl := glBindBufferRange GL_UNIFORM_BUFFER 2 a.objects_buffer (14 * 256) sizeof_ObjectUBO gl
  let gl := a.geometries.bed_pillow1.draw gl
  -- bed pillow2
  let gl := glBindBufferRange GL_UNIFORM_BUFFER 2 a.objects_buffer (15 * 256) sizeof_ObjectUBO gl
  let gl := a.geometries.bed_pillow2.draw gl
  -- globe
  let gl := glBindBufferRange GL_UNIFORM_BUFFER 2 a.objects_buffer (16 * 256) sizeof_ObjectUBO gl
  a.geometries.globe_stand.draw gl

/-- The statements of `render` for the sphere of the globe (lines 1015-1045); `now` is
the value that `glfwGetTime()` returns, and `%` is the remainder of the `int`
division. -/
def render_globe (D : ApplicationDeps F M R P) [OfScientific F] [Neg F] (a : Application F M P)
    (lights : Nat) (now : F) (gl : GLContext) : Application F M P × GLContext :=
  let gl := glBindBufferBase GL_UNIFORM_BUFFER 0 a.camera_buffer gl
  let gl := glBindBufferBase GL_SHADER_STORAGE_BUFFER 1 lights gl
  let a := { a with time := now }
  let a := { a with angle := D.float_of_int (Int.tmod (D.int_of_double a.time) 360 * 2) }
  let transform := D.glm.mat4 1.0
  let transform := D.glm.scale transform (Vec3.splat 0.4)
  let transform := D.glm.translate transform (Vec3.mk (-4.55) 2.5 5.05)
  let transform := D.glm.rotate transform (D.radians a.angle) (Vec3.mk 0.0 1.0 0.0)
  let globe_obj : ObjectUBO F M :=
    { model_matrix := transform, ambient_color := Vec4.splat 0.0,
      diffuse_color := Vec4.splat 1.0, specular_color := Vec4.splat 0.0 }
  let r := glCreateBuffers gl
  let globe_buffer := r.1
  let gl := glNamedBufferStorage globe_buffer sizeof_ObjectUBO (D.object_bytes globe_obj)
    GL_DYNAMIC_STORAGE_BIT r.2
  let gl := glBindBufferBase GL_UNIFORM_BUFFER 2 globe_buffer gl
  (a, a.geometries.globe.draw gl)

/-- The statements of `render` for the door, the lamps, the mirror frame and the room
(lines 1049-1135). -/
def render_room (a : Application F M P) (gl : GLContext) : GLContext :=
  -- door
  let gl := glBindBufferRange GL_UNIFORM_BUFFER 2 a.objects_buffer (18 * 256) sizeof_ObjectUBO gl
  let gl := a.geometries.door_frame.draw gl
  let gl := glBindBufferRange GL_UNIFORM_BUFFER 2 a.objects_buffer (19 * 256) sizeof_ObjectUBO gl
  let gl := a.geometries.door_base.draw gl
  let gl := glBindBufferRange GL_UNIFORM_BUFFER 2 a.objects_buffer (20 * 256) sizeof_ObjectUBO gl
  let gl := a.geometries.door_handle.draw gl
  -- lamp1
  let gl := glBindBufferRange GL_UNIFORM_BUFFER 2 a.objects_buffer (23 * 256) sizeof_ObjectUBO gl
  let gl := a.geometries.lamp1.draw gl
  -- lamp2
  let gl := glBindBufferRange GL_UNIFORM_BUFFER 2 a.objects_buffer (24 * 256) sizeof_ObjectUBO gl
  let gl := a.geometries.lamp2.draw gl
  -- mirror frame
  let gl := glBindBufferRange GL_UNIFORM_BUFFER 2 a.objects_buffer (1 * 256) sizeof_ObjectUBO gl
  let gl := a.geometries.mirror.draw gl
  -- room
  let gl := glBindBufferRange GL_UNIFORM_BUFFER 2 a.objects_buffer (26 * 256) sizeof_ObjectUBO gl
  let gl := a.geometries.room.draw gl
  let gl := glBindBufferRange GL_UNIFORM_BUFFER 2 a.objects_buffer (28 * 256) sizeof_ObjectUBO gl
  let gl := a.geometries.room.draw gl
  let gl :=
    if !a.walls_off then
      let gl := glBindBufferRange GL_UNIFORM_BUFFER 2 a.objects_buffer (27 * 256)
        sizeof_ObjectUBO gl
      let gl := a.geometries.room.draw gl
      let gl := glBindBufferRange GL_UNIFORM_BUFFER 2 a.objects_buffer (29 * 256)
        sizeof_ObjectUBO gl
      let gl := a.geometries.room.draw gl
      let gl := glBindBufferRange GL_UNIFORM_BUFFER 2 a.objects_buffer (31 * 256)
        sizeof_ObjectUBO gl
      let gl := a.geometries.room.draw gl
      let gl := glBindBufferRange GL_UNIFORM_BUFFER 2 a.objects_buffer (32 * 256)
        sizeof_ObjectUBO gl
      let gl := a.geometries.room.draw gl
      -- window frame
      let gl := glBindBufferRange GL_UNIFORM_BUFFER 2 a.objects_buffer (36 * 256)
        sizeof_ObjectUBO gl
      a.geometries.door_frame.draw gl
    else gl
  let gl := glBindBufferRange GL_UNIFORM_BUFFER 2 a.objects_buffer (30 * 256) sizeof_ObjectUBO gl
  a.geometries.room.draw gl

/-- The body of the loop over the trees of `render` (lines 1138-1144). -/
def render_tree (a : Application F M P) (i : Int) (gl : GLContext) : Option GLContext := do
  let k ← checked (38 + i)
  let offset ← checked (k * 256)
  let gl := glBindBufferRange GL_UNIFORM_BUFFER 2 a.objects_buffer offset sizeof_ObjectUBO gl
  some (a.geometries.tree.draw gl)

/-- The statements of `render` for the objects drawn with the textured program up to
the chair (lines 1147-1211); `lights` is the value of `*lights_buffer`. -/
def render_textured (a : Application F M P) (lights : Nat) (gl : GLContext) : GLContext :=
  let gl := glBindBufferBase GL_UNIFORM_BUFFER 0 a.camera_buffer gl
  let gl := glBindBufferBase GL_SHADER_STORAGE_BUFFER 1 lights gl
  let gl := glBindBufferBase GL_UNIFORM_BUFFER 3 a.cone_light_buffer gl
  -- lamp
  let gl := glBindBufferRange GL_UNIFORM_BUFFER 2 a.objects_buffer (4 * 256) sizeof_ObjectUBO gl
  let gl := a.geometries.table_lamp.draw gl
  -- lamp3
  let gl := glBindBufferRange GL_UNIFORM_BUFFER 2 a.objects_buffer (25 * 256) sizeof_ObjectUBO gl
  let gl := a.geometries.lamp3.draw gl
  -- plant small
  let gl := glBindBufferRange GL_UNIFORM_BUFFER 2 a.objects_buffer (21 * 256) sizeof_ObjectUBO gl
  let gl := a.geometries.plant_small_pot.draw gl
  let gl := glBindBufferRange GL_UNIFORM_BUFFER 2 a.objects_buffer (22 * 256) sizeof_ObjectUBO gl
  let gl := a.geometries.plant_small_leaf.draw gl
  -- chair
  let gl := glBindBufferRange GL_UNIFORM_BUFFER 2 a.objects_buffer (6 * 256) sizeof_ObjectUBO gl
  a.geometries.chair.draw gl

/-- The statements of `render` in the branch `if (night || !night)` (lines 1213-1283):
the UFO and the cow; `now` is the value that `glfwGetTime()` returns. -/
def render_ufo_and_cow (D : ApplicationDeps F M R P) [OfScientific F] [Add F] [Mul F] [Div F]
    (a : Application F M P) (lights : Nat) (now : F) (gl : GLContext) :
    Application F M P × GLContext :=
  if a.night ∨ !a.night then
    let gl := glBindBufferBase GL_UNIFORM_BUFFER 0 a.camera_buffer gl
    let gl := glBindBufferBase GL_SHADER_STORAGE_BUFFER 1 lights gl
    -- UFO
    let gl :=
      if a.camouflage then
        let gl := glBindBufferBase GL_UNIFORM_BUFFER 0 a.camera_buffer gl
        let gl := glBindBufferRange GL_UNIFORM_BUFFER 2 a.objects_buffer (34 * 256)
          sizeof_ObjectUBO gl
        let gl := a.geometries.ufo.draw gl
        let gl := glBindBufferBase GL_UNIFORM_BUFFER 0 a.camera_buffer gl
        glBindBufferBase GL_SHADER_STORAGE_BUFFER 1 lights gl
      else
        let gl := glBindBufferRange GL_UNIFORM_BUFFER 2 a.objects_buffer (34 * 256)
          sizeof_ObjectUBO gl
        a.geometries.ufo.draw gl
    -- cow
    let gl := glBindBufferBase GL_UNIFORM_BUFFER 0 a.camera_buffer gl
    let gl := glBindBufferBase GL_SHADER_STORAGE_BUFFER 1 lights gl
    let a := { a with time := now }
    let move := D.float_of_int (Int.tmod (D.int_of_double a.time) 100)
    let a := { a with angle := D.float_of_int (Int.tmod (D.int_of_double a.time) 360 * 4) }
    let transform := D.glm.mat4 1.0
    let transform := D.glm.translate transform (Vec3.mk 15.0 (1.0 + move / 10.0) 0.0)
    let transform := D.glm.scale transform (Vec3.splat 3.0)
    let transform := D.glm.rotate transform (D.radians a.angle) (Vec3.mk 1.0 0.0 0.0)
    let transform := D.glm.rotate transform (D.radians (a.angle * 0.5)) (Vec3.mk 0.0 1.0 0.0)
    let cow_obj : ObjectUBO F M :=
      { model_matrix := transform, ambient_color := Vec4.splat 0.0,
        diffuse_color := Vec4.splat 1.0, specular_color := Vec4.splat 0.0 }
    let r := glCreateBuffers gl
    let cow_buffer := r.1
    let gl := glNamedBufferStorage cow_buffer sizeof_ObjectUBO (D.object_bytes cow_obj)
      GL_DYNAMIC_STORAGE_BIT r.2
    let gl := glBindBufferBase GL_UNIFORM_BUFFER 2 cow_buffer gl
    (a, a.geometries.cow.draw gl)
  else (a, gl)

/-- The last statements of `render` (lines 1286-1319): the glass window, the cone and
the post-processing pass; `lights` is the value of `*lights_buffer`. -/
def render_glass_and_cone (a : Application F M P) (lights : Nat) (gl : GLContext) :
    GLContext :=
  -- glass window
  let gl :=
    if !a.walls_off then
      let gl := glBindBufferBase GL_UNIFORM_BUFFER 0 a.camera_buffer gl
      let gl := glBindBufferBase GL_SHADER_STORAGE_BUFFER 1 lights gl
      let gl := glBindBufferBase GL_UNIFORM_BUFFER 3 a.cone_light_buffer gl
      let gl := glBindBufferRange GL_UNIFORM_BUFFER 2 a.objects_buffer (33 * 256)
        sizeof_ObjectUBO gl
      a.geometries.room.draw gl
    else gl
  -- cone
  let gl := glBindBufferBase GL_UNIFORM_BUFFER 0 a.camera_buffer gl
  let gl := glBindBufferBase GL_SHADER_STORAGE_BUFFER 1 lights gl
  let gl := glBindBufferBase GL_UNIFORM_BUFFER 3 a.cone_light_buffer gl
  let gl := glBindBufferRange GL_UNIFORM_BUFFER 2 a.objects_buffer (37 * 256) sizeof_ObjectUBO gl
  let gl := a.geometries.cone.draw gl
  if a.toon_shading ∧ a.edge_detection then glDrawArrays GL_TRIANGLES 0 3 gl else gl

/-- The method `render` (lines 793-1335); `now_globe` and `now_cow` are the values
that the two calls of `glfwGetTime()` return.  After the statements of the stars the
pointer `lights_buffer` is not assigned again and the two members it may point to keep
their values, so every `*lights_buffer` of the frame reads the value read here once.
The loop `for (int i = 0; i <= 29; i++)` runs for `i < 30`. -/
def render (D : ApplicationDeps F M R P) [OfScientific F] [Neg F] [Add F] [Mul F] [Div F]
    (a : Application F M P) (now_globe now_cow : F) (gl : GLContext) :
    Option (Application F M P × GLContext) := do
  let r := render_sky D a gl
  let a := r.1
  let lights ← a.deref_lights_buffer
  let gl := render_furniture a lights r.2
  let r := render_globe D a lights now_globe gl
  let a := r.1
  let gl := render_room a r.2
  let gl ← for_int 30 (render_tree a) gl
  let gl := render_textured a lights gl
  let r := render_ufo_and_cow D a lights now_cow gl
  let a := r.1
  some (a, render_glass_and_cone a lights r.2)

/-- The method `on_resize` (lines 1339-1342): the `int` arguments are converted to the
`size_t` members `width` and `height` of `Application`, which hide those of
`IApplication`. -/
def on_resize (a : Application F M P) (width height : Int) : Application F M P :=
  let a := { a with width := to_size_t width }
  { a with height := to_size_t height }

/-- The method `on_key_pressed` (lines 1346-1370). -/
def on_key_pressed (D : ApplicationDeps F M R P) (a : Application F M P) (io : ImGuiIO)
    (key scancode action mods : Int) (gl : GLContext) :
    Option (Application F M P × ImGuiIO × GLContext) := do
  -- Calls default implementation that invokes compile_shaders when 'R key is hit.
  let r ← PV112Application.on_key_pressed (compile_shaders D) a io key scancode action mods gl
  let a := r.1
  let a := if key = GLFW_KEY_N ∧ action = GLFW_PRESS then { a with night := !a.night } else a
  let a := if key = GLFW_KEY_W ∧ action = GLFW_PRESS then
      { a with walls_off := !a.walls_off } else a
  let a := if key = GLFW_KEY_T ∧ action = GLFW_PRESS then
      { a with toon_shading := !a.toon_shading } else a
  let a := if key = GLFW_KEY_E ∧ action = GLFW_PRESS then
      { a with edge_detection := !a.edge_detection } else a
  let a := if key = GLFW_KEY_C ∧ action = GLFW_PRESS then
      { a with camouflage := !a.camouflage } else a
  some (a, r.2.1, r.2.2)

/-- The five display flags of the application, in the order `night`, `walls_off`,
`toon_shading`, `edge_detection`, `camouflage`. -/
def flags (a : Application F M P) : Bool × Bool × Bool × Bool × Bool :=
  (a.night, a.walls_off, a.toon_shading, a.edge_detection, a.camouflage)

/-- The application with its five display flags set to the given values and every
other member unchanged: the states that the key handler can reach from `a`. -/
def set_flags (a : Application F M P)
    (night walls_off toon_shading edge_detection camouflage : Bool) : Application F M P :=
  { a with night := night, walls_off := walls_off, toon_shading := toon_shading,
           edge_detection := edge_detection, camouflage := camouflage }

end Application

/-! ## Reference notions for the commands of a frame -/

/-- The context `gl` continues the context `gl0` by commands that all satisfy `P`. -/
def continues_with (P : GLCall → Prop) (gl0 gl : GLContext) : Prop :=
  ∃ new, gl.calls = gl0.calls ++ new ∧ ∀ c ∈ new, P c

/-- A command that binds a range of a buffer binds the bytes
`[k * record_size, k * record_size + record_size)` of the buffer `buffer`, for a
`k < count`: one whole record of a buffer of `count` records, inside the buffer. -/
def binds_whole_record (buffer count record_size : Nat) : GLCall → Prop
  | .BindBufferRange _ _ buf offset size =>
    buf = buffer ∧ ∃ k : Int, 0 ≤ k ∧ k < count ∧ offset = k * record_size
      ∧ size = record_size
  | _ => True

/-! ## Concrete values for the evaluations of the application -/

/-- Collaborators of the application for the evaluations: the term matrices, a
generator that counts its calls, and records whose bytes are not looked at. -/
def sample_application_deps : ApplicationDeps Int MatrixTerm Nat Unit :=
  { glm := sample_deps.glm, radians := id, cos := id,
    perspective := fun _ _ _ _ => MatrixTerm.diagonal 1,
    lookAt := fun _ _ _ => MatrixTerm.diagonal 1,
    rand := fun r => (r, r + 1), RAND_MAX := 32767, float_of_int := id,
    float_of_size_t := fun n => n, int_of_double := id,
    camera_bytes := fun _ => List.replicate 144 0,
    light_bytes := fun _ => List.replicate 64 0,
    cone_light_bytes := fun _ => List.replicate 80 0,
    object_bytes := fun _ => List.replicate 256 0,
    sphere := sample_geometry, default_programs := (), compiled_programs := id }

/-- Thirty-one times the same geometry. -/
def sample_geometries : Geometries Int :=
  { outside := sample_geometry, mirror := sample_geometry, dresser := sample_geometry,
    bedside_table := sample_geometry, table_lamp := sample_geometry, rug := sample_geometry,
    chair := sample_geometry, plant3 := sample_geometry, plant_pot_inside := sample_geometry,
    plant_pot_outside := sample_geometry, bed_frame := sample_geometry,
    bed_part1 := sample_geometry, bed_part2 := sample_geometry, bed_wrap := sample_geometry,
    bed_pillow1 := sample_geometry, bed_pillow2 := sample_geometry,
    globe_stand := sample_geometry, globe := sample_geometry, door_frame := sample_geometry,
    door_base := sample_geometry, door_handle := sample_geometry,
    plant_small_pot := sample_geometry, plant_small_leaf := sample_geometry,
    lamp1 := sample_geometry, lamp2 := sample_geometry, lamp3 := sample_geometry,
    room := sample_geometry, ufo := sample_geometry, cow := sample_geometry,
    cone := sample_geometry, tree := sample_geometry }

/-- An application state for the evaluations: a window of 800 by 600 pixels, empty
vectors, all flags cleared. -/
def sample_application : Application Int MatrixTerm Unit :=
  { base := { width := 800, height := 600 }, width := 800, height := 600, programs := (),
    geometries := sample_geometries, camera := { x := 0, y := 0, z := 5 },
    camera_buffer := 1,
    camera_ubo := { projection := MatrixTerm.diagonal 1, view := MatrixTerm.diagonal 1,
                    position := Vec4.splat 0 },
    light_buffer := 2,
    light_ubo := { position := Vec4.splat 0, ambient_color := Vec4.splat 0,
                   diffuse_color := Vec4.splat 0, specular_color := Vec4.splat 0 },
    objects_buffer := 3, objects_ubos := [], lights_buffer := none, lights_day := [],
    lights_day_buffer := 5, lights_night := [], lights_night_buffer := 4,
    cone_light_buffer := 6,
    cone_light_ubo := { position := Vec4.splat 0, ambient := Vec4.splat 0,
                        diffuse := Vec4.splat 0, specular := Vec4.splat 0,
                        direction := Vec3.splat 0, cutoff := 0 },
    night := false, walls_off := false, toon_shading := false, edge_detection := false,
    camouflage := false, skyboxVAO := 7, time := 0, angle := 0 }

/-- The key array of ImGui for the evaluations: 512 keys, none down. -/
def sample_io : ImGuiIO := { KeysDown := List.replicate 512 false }

/-- The command is not an instanced draw. -/
def not_instanced : GLCall → Prop
  | .DrawElementsInstanced _ _ _ _ _ => False
  | .DrawArraysInstanced _ _ _ _ => False
  | _ => True

/-- The commands that `render` issues after the stars: a command that binds a range
of a buffer binds one whole record of the 69 records of 256 bytes of the buffer
`buffer`, and no command is an instanced draw. -/
def scene_command (buffer : Nat) (c : GLCall) : Prop :=
  binds_whole_record buffer 69 256 c ∧ not_instanced c

/-! ## Lemmas on vectors and loops -/

theorem take_drop_three {F : Type} (src : List F) (k : Nat) (a b c : F)
    (ha : src[k]? = some a) (hb : src[k + 1]? = some b) (hc : src[k + 2]? = some c) :
    (src.drop k).take 3 = [a, b, c] := by
  apply List.ext_getElem?
  intro n
  rcases n with _ | _ | _ | n
  · simp [List.getElem?_take, ha]
  · simp [List.getElem?_take, hb]
  · simp [List.getElem?_take, hc]
  · simp [List.getElem?_take]

theorem take_drop_two {F : Type} (src : List F) (k : Nat) (a b : F)
    (ha : src[k]? = some a) (hb : src[k + 1]? = some b) :
    (src.drop k).take 2 = [a, b] := by
  apply List.ext_getElem?
  intro n
  rcases n with _ | _ | n
  · simp [List.getElem?_take, ha]
  · simp [List.getElem?_take, hb]
  · simp [List.getElem?_take]

theorem push_back_from_eq_some {F : Type} (dst src : List F) (k : Nat) (r : List F) :
    push_back_from dst src k = some r ↔ ∃ a, src[k]? = some a ∧ r = dst ++ [a] := by
  unfold push_back_from vec_read
  cases h : src[k]? with
  | none => simp
  | some a => simp [eq_comm]

/-- Three consecutive `push_back` statements reading `src[k]`, `src[k+1]`, `src[k+2]`. -/
theorem push_three_eq_some {F : Type} (dst src : List F) (k : Nat) (r : List F) :
    ((push_back_from dst src (k + 0)).bind fun iv =>
      (push_back_from iv src (k + 1)).bind fun iv => push_back_from iv src (k + 2)) = some r ↔
      k + 2 < src.length ∧ r = dst ++ (src.drop k).take 3 := by
  simp only [Option.bind_eq_some, push_back_from_eq_some, Nat.add_zero]
  constructor
  · rintro ⟨_, ⟨a, ha, rfl⟩, _, ⟨b, hb, rfl⟩, c, hc, rfl⟩
    refine ⟨(List.getElem?_eq_some_iff.mp hc).1, ?_⟩
    rw [take_drop_three src k a b c ha hb hc]
    simp
  · rintro ⟨hk, rfl⟩
    have h0 : src[k]? = some src[k] := List.getElem?_eq_getElem (by omega)
    have h1 : src[k + 1]? = some src[k + 1] := List.getElem?_eq_getElem (by omega)
    have h2 : src[k + 2]? = some src[k + 2] := List.getElem?_eq_getElem (by omega)
    refine ⟨_, ⟨_, h0, rfl⟩, _, ⟨_, h1, rfl⟩, _, h2, ?_⟩
    rw [take_drop_three src k _ _ _ h0 h1 h2]
    simp

/-- Two consecutive `push_back` statements reading `src[k]`, `src[k+1]`. -/
theorem push_two_eq_some {F : Type} (dst src : List F) (k : Nat) (r : List F) :
    ((push_back_from dst src (k + 0)).bind fun iv => push_back_from iv src (k + 1)) = some r ↔
      k + 1 < src.length ∧ r = dst ++ (src.drop k).take 2 := by
  simp only [Option.bind_eq_some, push_back_from_eq_some, Nat.add_zero]
  constructor
  · rintro ⟨_, ⟨a, ha, rfl⟩, b, hb, rfl⟩
    refine ⟨(List.getElem?_eq_some_iff.mp hb).1, ?_⟩
    rw [take_drop_two src k a b ha hb]
    simp
  · rintro ⟨hk, rfl⟩
    have h0 : src[k]? = some src[k] := List.getElem?_eq_getElem (by omega)
    have h1 : src[k + 1]? = some src[k + 1] := List.getElem?_eq_getElem (by omega)
    refine ⟨_, ⟨_, h0, rfl⟩, _, h1, ?_⟩
    rw [take_drop_two src k _ _ h0 h1]
    simp

namespace Geometry_Base
variable {F : Type}

/-! ## The separate-arrays constructor and the draw methods -/

/-- An optional attribute of three floats: the guarded `push_back` statements. -/
theorem push_three_guarded (dst src : List F) (k : Nat) (r : List F) :
    (if (!src.isEmpty) = true then
        (push_back_from dst src (k + 0)).bind fun iv =>
          (push_back_from iv src (k + 1)).bind fun iv => push_back_from iv src (k + 2)
      else some dst) = some r ↔
      (src.isEmpty = false → k + 2 < src.length)
        ∧ r = dst ++ (if src.isEmpty then [] else (src.drop k).take 3) := by
  cases h : src.isEmpty
  · simpa [h] using push_three_eq_some dst src k r
  · simp [eq_comm]

/-- An optional attribute of two floats: the guarded `push_back` statements. -/
theorem push_two_guarded (dst src : List F) (k : Nat) (r : List F) :
    (if (!src.isEmpty) = true then
        (push_back_from dst src (k + 0)).bind fun iv => push_back_from iv src (k + 1)
      else some dst) = some r ↔
      (src.isEmpty = false → k + 1 < src.length)
        ∧ r = dst ++ (if src.isEmpty then [] else (src.drop k).take 2) := by
  cases h : src.isEmpty
  · simpa [h] using push_two_eq_some dst src k r
  · simp [eq_comm]

theorem interleave_vertex_eq_some (positions normals tex_coords tangents bitangents : List F)
    (i : Nat) (iv r : List F) :
    interleave_vertex positions normals tex_coords tangents bitangents i iv = some r ↔
      (i * 3 + 2 < positions.length
        ∧ (normals.isEmpty = false → i * 3 + 2 < normals.length)
        ∧ (tex_coords.isEmpty = false → i * 2 + 1 < tex_coords.length)
        ∧ (tangents.isEmpty = false → i * 3 + 2 < tangents.length)
        ∧ (bitangents.isEmpty = false → i * 3 + 2 < bitangents.length))
      ∧ r = iv ++ vertex_record positions normals tex_coords tangents bitangents i := by
  unfold interleave_vertex vertex_record
  simp only [Option.bind_eq_bind]
  constructor
  · intro h
    simp only [Option.bind_eq_some] at h
    obtain ⟨a1, h1, a2, h2, a3, h3, a4, h4, a5, h5, a6, h6, h7⟩ := h
    have hp := (push_three_eq_some iv positions (i * 3) a3).mp
      (by simp only [Option.bind_eq_some]; exact ⟨a1, h1, a2, h2, h3⟩)
    have hn := (push_three_guarded a3 normals (i * 3) a4).mp h4
    have ht := (push_two_guarded a4 tex_coords (i * 2) a5).mp h5
    have hta := (push_three_guarded a5 tangents (i * 3) a6).mp h6
    have hb := (push_three_guarded a6 bitangents (i * 3) r).mp h7
    refine ⟨⟨hp.1, hn.1, ht.1, hta.1, hb.1⟩, ?_⟩
    rw [hb.2, hta.2, ht.2, hn.2, hp.2]
    simp only [List.append_assoc]
  · rintro ⟨⟨hp, hn, ht, hta, hb⟩, rfl⟩
    have kp := (push_three_eq_some iv positions (i * 3) _).mpr ⟨hp, rfl⟩
    simp only [Option.bind_eq_some] at kp
    obtain ⟨a1, h1, a2, h2, h3⟩ := kp
    simp only [Option.bind_eq_some]
    refine ⟨a1, h1, a2, h2, _, h3, _, (push_three_guarded _ normals (i * 3) _).mpr ⟨hn, rfl⟩,
      _, (push_two_guarded _ tex_coords (i * 2) _).mpr ⟨ht, rfl⟩,
      _, (push_three_guarded _ tangents (i * 3) _).mpr ⟨hta, rfl⟩,
      (push_three_guarded _ bitangents (i * 3) _).mpr ⟨hb, ?_⟩⟩
    simp only [List.append_assoc]

theorem vertex_record_length (positions normals tex_coords tangents bitangents : List F)
    (i : Nat) (hp : i * 3 + 2 < positions.length)
    (hn : normals.isEmpty = false → i * 3 + 2 < normals.length)
    (ht : tex_coords.isEmpty = false → i * 2 + 1 < tex_coords.length)
    (hta : tangents.isEmpty = false → i * 3 + 2 < tangents.length)
    (hb : bitangents.isEmpty = false → i * 3 + 2 < bitangents.length) :
    (vertex_record positions normals tex_coords tangents bitangents i).length
      = record_width normals tex_coords tangents bitangents := by
  unfold vertex_record record_width
  simp only [List.length_append, List.length_take, List.length_drop]
  have e0 : min 3 (positions.length - i * 3) = 3 := by omega
  rw [e0]
  congr 1
  · congr 1
    · congr 1
      · cases h : normals.isEmpty
        · have := hn h; simp; omega
        · simp
      · cases h : tex_coords.isEmpty
        · have := ht h; simp; omega
        · simp
    · cases h : tangents.isEmpty
      · have := hta h; simp; omega
      · simp
  · cases h : bitangents.isEmpty
    · have := hb h; simp; omega
    · simp

end Geometry_Base

/-- A loop whose body appends `block i` when `P i` holds and has no result otherwise
appends the blocks in order, and has a result exactly when `P` holds throughout. -/
theorem foldlM_append_eq_some {α F : Type} (l : List α)
    (body : α → List F → Option (List F)) (P : α → Prop) (block : α → List F)
    (hbody : ∀ i s r, body i s = some r ↔ P i ∧ r = s ++ block i) (s r : List F) :
    l.foldlM (fun s i => body i s) s = some r ↔
      (∀ i ∈ l, P i) ∧ r = s ++ (l.map block).flatten := by
  induction l generalizing s with
  | nil => simp [eq_comm]
  | cons a l ih =>
    simp only [List.foldlM_cons, Option.bind_eq_bind, Option.bind_eq_some, hbody, ih,
      List.mem_cons, List.map_cons, List.flatten_cons]
    constructor
    · rintro ⟨_, ⟨ha, rfl⟩, hl, rfl⟩
      refine ⟨?_, by simp⟩
      rintro i (rfl | hi)
      · exact ha
      · exact hl i hi
    · rintro ⟨h, rfl⟩
      exact ⟨_, ⟨h a (Or.inl rfl), rfl⟩, fun i hi => h i (Or.inr hi), by simp⟩

/-- Length of a concatenation of blocks of equal length. -/
theorem length_flatten_blocks {F : Type} (L : List (List F)) (k : Nat)
    (hL : ∀ x ∈ L, x.length = k) : L.flatten.length = L.length * k := by
  induction L with
  | nil => simp
  | cons x L ih =>
    simp only [List.flatten_cons, List.length_append, List.length_cons]
    rw [ih (fun y hy => hL y (List.mem_cons_of_mem _ hy)), hL x (List.mem_cons_self _ _)]
    ring

/-- The `i`-th block of a concatenation of blocks of equal length. -/
theorem take_drop_flatten_blocks {F : Type} (L : List (List F)) (k : Nat)
    (hL : ∀ x ∈ L, x.length = k) (i : Nat) (x : List F) (hi : L[i]? = some x) :
    (L.flatten.drop (i * k)).take k = x := by
  induction L generalizing i with
  | nil => simp at hi
  | cons y L ih =>
    have hy : y.length = k := hL y (List.mem_cons_self _ _)
    cases i with
    | zero =>
      simp only [List.getElem?_cons_zero, Option.some.injEq] at hi
      subst hi
      simp only [Nat.zero_mul, List.drop_zero, List.flatten_cons]
      exact List.take_left' hy
    | succ i =>
      simp only [List.getElem?_cons_succ] at hi
      have e : (i + 1) * k = y.length + i * k := by rw [hy]; ring
      rw [List.flatten_cons, e, ← List.drop_drop, List.drop_left]
      exact ih (fun z hz => hL z (List.mem_cons_of_mem _ hz)) i hi

namespace Geometry_Base
variable {F : Type}

/-- The interleaving loop: it has a result exactly when every read is inside its
list, and the result is the concatenation of the records, in vertex order. -/
theorem interleave_loop_eq_some (positions normals tex_coords tangents bitangents : List F)
    (n : Nat) (iv0 r : List F) :
    for_size_t n (interleave_vertex positions normals tex_coords tangents bitangents) iv0
        = some r ↔
      (∀ i ∈ List.range n,
        (i * 3 + 2 < positions.length
          ∧ (normals.isEmpty = false → i * 3 + 2 < normals.length)
          ∧ (tex_coords.isEmpty = false → i * 2 + 1 < tex_coords.length)
          ∧ (tangents.isEmpty = false → i * 3 + 2 < tangents.length)
          ∧ (bitangents.isEmpty = false → i * 3 + 2 < bitangents.length)))
      ∧ r = iv0 ++ ((List.range n).map
          (vertex_record positions normals tex_coords tangents bitangents)).flatten :=
  foldlM_append_eq_some (List.range n) _ _ _
    (interleave_vertex_eq_some positions normals tex_coords tangents bitangents) iv0 r

/-- What a successful run of the separate-arrays constructor stores. -/
theorem from_arrays_eq_some (mode : Nat)
    (positions normals tex_coords tangents bitangents : List F) (indices : List Nat)
    (pl nl tl tal bl : Int) (g : Geometry_Base F)
    (h : from_arrays mode positions normals tex_coords tangents bitangents indices
      pl nl tl tal bl = some g) :
    g.elements_per_vertex =
        3 + (if !normals.isEmpty then 3 else 0) + (if !tex_coords.isEmpty then 2 else 0)
          + (if !tangents.isEmpty then 3 else 0) + (if !bitangents.isEmpty then 3 else 0)
      ∧ for_size_t (positions.length / 3)
          (interleave_vertex positions normals tex_coords tangents bitangents) []
          = some g.interleaved_vertices := by
  unfold from_arrays at h
  simp only [Option.bind_eq_bind, Option.bind_eq_some] at h
  obtain ⟨iv, hiv, size, -, hg⟩ := h
  simp only [Option.some.injEq] at hg
  subst hg
  refine ⟨?_, ?_⟩
  · unfold init_patches_count
    split_ifs <;> rfl
  · rw [hiv]
    unfold init_patches_count
    split_ifs <;> rfl

theorem record_width_eq (normals tex_coords tangents bitangents : List F) :
    ((record_width normals tex_coords tangents bitangents : Nat) : Int) =
      3 + 3 * iverson (!normals.isEmpty) + 2 * iverson (!tex_coords.isEmpty)
        + 3 * iverson (!tangents.isEmpty) + 3 * iverson (!bitangents.isEmpty) := by
  unfold record_width iverson
  cases normals.isEmpty <;> cases tex_coords.isEmpty <;> cases tangents.isEmpty <;>
    cases bitangents.isEmpty <;> rfl

theorem elements_per_vertex_eq (normals tex_coords tangents bitangents : List F) :
    (3 + (if !normals.isEmpty then 3 else 0) + (if !tex_coords.isEmpty then 2 else 0)
        + (if !tangents.isEmpty then 3 else 0) + (if !bitangents.isEmpty then 3 else 0) : Int)
      = 3 + 3 * iverson (!normals.isEmpty) + 2 * iverson (!tex_coords.isEmpty)
        + 3 * iverson (!tangents.isEmpty) + 3 * iverson (!bitangents.isEmpty) := by
  unfold iverson
  cases normals.isEmpty <;> cases tex_coords.isEmpty <;> cases tangents.isEmpty <;>
    cases bitangents.isEmpty <;> rfl

/-- The reads of the loop are inside the lists when every attribute list given
holds a record for each vertex. -/
theorem reads_in_range (positions normals tex_coords tangents bitangents : List F)
    (hn : holds_records normals 3 (positions.length / 3))
    (ht : holds_records tex_coords 2 (positions.length / 3))
    (hta : holds_records tangents 3 (positions.length / 3))
    (hb : holds_records bitangents 3 (positions.length / 3)) :
    ∀ i ∈ List.range (positions.length / 3),
        (i * 3 + 2 < positions.length
          ∧ (normals.isEmpty = false → i * 3 + 2 < normals.length)
          ∧ (tex_coords.isEmpty = false → i * 2 + 1 < tex_coords.length)
          ∧ (tangents.isEmpty = false → i * 3 + 2 < tangents.length)
          ∧ (bitangents.isEmpty = false → i * 3 + 2 < bitangents.length)) := by
  intro i hi
  rw [List.mem_range] at hi
  unfold holds_records at hn ht hta hb
  refine ⟨by omega, fun h => ?_, fun h => ?_, fun h => ?_, fun h => ?_⟩
  · have := hn h; omega
  · have := ht h; omega
  · have := hta h; omega
  · have := hb h; omega

/-- The stride of a record of 3 to 14 floats is four times its width. -/
theorem stride_of_small (e : Int) (h0 : 0 ≤ e) (h1 : e ≤ 14) : stride_of e = 4 * e := by
  unfold stride_of to_int size_t_mul to_size_t sizeof_float
  omega

/-- The separate-arrays constructor yields a geometry when every attribute list given
holds a record for each vertex and the byte size of the buffer fits an `int`. -/
theorem from_arrays_isSome (mode : Nat)
    (positions normals tex_coords tangents bitangents : List F) (indices : List Nat)
    (pl nl tl tal bl : Int)
    (hn : holds_records normals 3 (positions.length / 3))
    (ht : holds_records tex_coords 2 (positions.length / 3))
    (hta : holds_records tangents 3 (positions.length / 3))
    (hb : holds_records bitangents 3 (positions.length / 3))
    (hfit : ((positions.length / 3 : Nat) : Int)
      * (4 * (record_width normals tex_coords tangents bitangents : Nat)) ≤ INT_MAX) :
    (from_arrays mode positions normals tex_coords tangents bitangents indices
      pl nl tl tal bl).isSome = true := by
  obtain ⟨iv, hiv⟩ : ∃ iv, for_size_t (positions.length / 3)
      (interleave_vertex positions normals tex_coords tangents bitangents) [] = some iv :=
    ⟨_, (interleave_loop_eq_some positions normals tex_coords tangents bitangents _ [] _).mpr
      ⟨reads_in_range positions normals tex_coords tangents bitangents hn ht hta hb, rfl⟩⟩
  have hw : (3 + (if !normals.isEmpty then 3 else 0) + (if !tex_coords.isEmpty then 2 else 0)
      + (if !tangents.isEmpty then 3 else 0) + (if !bitangents.isEmpty then 3 else 0) : Int)
      = (record_width normals tex_coords tangents bitangents : Nat) := by
    rw [elements_per_vertex_eq, record_width_eq]
  have hle : record_width normals tex_coords tangents bitangents ≤ 14 := by
    unfold record_width; split_ifs <;> omega
  have hge : 3 ≤ record_width normals tex_coords tangents bitangents := by
    unfold record_width; omega
  obtain ⟨sz, hsz⟩ : ∃ sz, checked (to_int ((positions.length / 3 : Nat) : Int)
      * stride_of (record_width normals tex_coords tangents bitangents : Nat)) = some sz := by
    rw [stride_of_small _ (by omega) (by omega)]
    have hn0 : (0 : Int) ≤ ((positions.length / 3 : Nat) : Int) := Int.natCast_nonneg _
    have hlt : ((positions.length / 3 : Nat) : Int) ≤ INT_MAX :=
      le_trans (le_mul_of_one_le_right hn0 (by omega)) hfit
    have e : to_int ((positions.length / 3 : Nat) : Int) = ((positions.length / 3 : Nat) : Int) := by
      unfold to_int; unfold INT_MAX at hlt; omega
    rw [e]
    have hnn : (0 : Int) ≤ ((positions.length / 3 : Nat) : Int)
        * (4 * (record_width normals tex_coords tangents bitangents : Nat)) :=
      Int.mul_nonneg hn0 (by omega)
    refine ⟨((positions.length / 3 : Nat) : Int)
        * (4 * (record_width normals tex_coords tangents bitangents : Nat)), ?_⟩
    unfold checked
    rw [if_pos]
    exact ⟨le_trans (by decide) hnn, hfit⟩
  unfold from_arrays
  simp only [Option.bind_eq_bind, hw, hiv, hsz, Option.some_bind, Option.isSome_some]

/-- Claim C1. Every geometry built by the separate-arrays constructor from
`n = positions.size()/3` vertices has
`elements_per_vertex = 3 + 3*[normals non-empty] + 2*[tex_coords non-empty]
+ 3*[tangents non-empty] + 3*[bitangents non-empty]` and an interleaved buffer of
`n * elements_per_vertex` floats; and the constructor does build a geometry when
every non-empty attribute list holds at least `n` records (and the byte size of the
buffer is representable as an `int`). -/
theorem from_arrays_elements_per_vertex (mode : Nat)
    (positions normals tex_coords tangents bitangents : List F) (indices : List Nat)
    (pl nl tl tal bl : Int) :
    (∀ g, from_arrays mode positions normals tex_coords tangents bitangents indices
          pl nl tl tal bl = some g →
        g.elements_per_vertex =
            3 + 3 * iverson (!normals.isEmpty) + 2 * iverson (!tex_coords.isEmpty)
              + 3 * iverson (!tangents.isEmpty) + 3 * iverson (!bitangents.isEmpty)
          ∧ (g.interleaved_vertices.length : Int)
              = ((positions.length / 3 : Nat) : Int) * g.elements_per_vertex)
      ∧ (holds_records normals 3 (positions.length / 3) →
          holds_records tex_coords 2 (positions.length / 3) →
          holds_records tangents 3 (positions.length / 3) →
          holds_records bitangents 3 (positions.length / 3) →
          ((positions.length / 3 : Nat) : Int)
            * (4 * (record_width normals tex_coords tangents bitangents : Nat)) ≤ INT_MAX →
          (from_arrays mode positions normals tex_coords tangents bitangents indices
            pl nl tl tal bl).isSome = true) := by
  refine ⟨fun g h => ?_, from_arrays_isSome mode positions normals tex_coords tangents
    bitangents indices pl nl tl tal bl⟩
  obtain ⟨he, hloop⟩ := from_arrays_eq_some mode positions normals tex_coords tangents
    bitangents indices pl nl tl tal bl g h
  obtain ⟨hreads, hiv⟩ := (interleave_loop_eq_some positions normals tex_coords tangents
    bitangents _ [] _).mp hloop
  rw [he, elements_per_vertex_eq]
  refine ⟨rfl, ?_⟩
  rw [hiv, List.nil_append, length_flatten_blocks _
    (record_width normals tex_coords tangents bitangents), ← record_width_eq]
  · simp
  · intro x hx
    rw [List.mem_map] at hx
    obtain ⟨i, hi, rfl⟩ := hx
    obtain ⟨h1, h2, h3, h4, h5⟩ := hreads i hi
    exact vertex_record_length positions normals tex_coords tangents bitangents i h1 h2 h3 h4 h5

/-- Concrete instance of C1: two vertices with texture coordinates and bitangents. -/
theorem from_arrays_elements_per_vertex_witness :
    (from_arrays 4 ([1, 2, 3, 4, 5, 6] : List Int) [] [7, 8, 9, 10] []
        [11, 12, 13, 14, 15, 16] [0, 1] 0 1 2 3 4).isSome = true
      ∧ (8 : Int) = 3 + 3 * 0 + 2 * 1 + 3 * 0 + 3 * 1
      ∧ ((16 : Nat) : Int) = ((2 : Nat) : Int) * 8 :=
  ⟨(from_arrays_elements_per_vertex 4 ([1, 2, 3, 4, 5, 6] : List Int) [] [7, 8, 9, 10] []
        [11, 12, 13, 14, 15, 16] [0, 1] 0 1 2 3 4).2
        (by decide) (by decide) (by decide) (by decide) (by decide),
    (from_arrays_elements_per_vertex 4 ([1, 2, 3, 4, 5, 6] : List Int) [] [7, 8, 9, 10] []
      [11, 12, 13, 14, 15, 16] [0, 1] 0 1 2 3 4).1
      { mode := 4, vertex_buffer_size := 64, vertex_buffer_stride := 32,
        interleaved_vertices := [1, 2, 3, 7, 8, 11, 12, 13, 4, 5, 6, 9, 10, 14, 15, 16],
        elements_per_vertex := 8, draw_arrays_count := 2, draw_elements_count := 2 }
      (by decide)⟩

/-- Claim C2. In every geometry built by the separate-arrays constructor, for every
vertex `i < n = positions.size()/3`, the `elements_per_vertex` floats of
`interleaved_vertices` starting at `i * elements_per_vertex` are, in this order, the
3 floats of position `i`, the 3 floats of normal `i` if normals is non-empty, the 2
floats of texture coordinate `i` if tex_coords is non-empty, the 3 floats of tangent
`i` if tangents is non-empty and the 3 floats of bitangent `i` if bitangents is
non-empty, and nothing else; and the constructor does build a geometry when every
non-empty attribute list holds at least `n` records (and the byte size of the buffer
is representable as an `int`). -/
theorem from_arrays_record_layout (mode : Nat)
    (positions normals tex_coords tangents bitangents : List F) (indices : List Nat)
    (pl nl tl tal bl : Int) :
    (∀ g, from_arrays mode positions normals tex_coords tangents bitangents indices
          pl nl tl tal bl = some g →
        ∀ i, i < positions.length / 3 →
          (g.interleaved_vertices.drop (i * g.elements_per_vertex.toNat)).take
              g.elements_per_vertex.toNat
            = vertex_record positions normals tex_coords tangents bitangents i)
      ∧ (holds_records normals 3 (positions.length / 3) →
          holds_records tex_coords 2 (positions.length / 3) →
          holds_records tangents 3 (positions.length / 3) →
          holds_records bitangents 3 (positions.length / 3) →
          ((positions.length / 3 : Nat) : Int)
            * (4 * (record_width normals tex_coords tangents bitangents : Nat)) ≤ INT_MAX →
          (from_arrays mode positions normals tex_coords tangents bitangents indices
            pl nl tl tal bl).isSome = true) := by
  refine ⟨fun g h i hi => ?_, from_arrays_isSome mode positions normals tex_coords tangents
    bitangents indices pl nl tl tal bl⟩
  obtain ⟨he, hloop⟩ := from_arrays_eq_some mode positions normals tex_coords tangents
    bitangents indices pl nl tl tal bl g h
  obtain ⟨hreads, hiv⟩ := (interleave_loop_eq_some positions normals tex_coords tangents
    bitangents _ [] _).mp hloop
  have hw : g.elements_per_vertex.toNat = record_width normals tex_coords tangents bitangents := by
    rw [he, elements_per_vertex_eq, ← record_width_eq, Int.toNat_ofNat]
  rw [hw, hiv, List.nil_append]
  apply take_drop_flatten_blocks
  · intro x hx
    rw [List.mem_map] at hx
    obtain ⟨j, hj, rfl⟩ := hx
    obtain ⟨h1, h2, h3, h4, h5⟩ := hreads j hj
    exact vertex_record_length positions normals tex_coords tangents bitangents j h1 h2 h3 h4 h5
  · rw [List.getElem?_map, List.getElem?_range hi]
    rfl

/-- Concrete instance of C2: the second record of a two-vertex geometry with
texture coordinates and bitangents. -/
theorem from_arrays_record_layout_witness :
    (from_arrays 4 ([1, 2, 3, 4, 5, 6] : List Int) [] [7, 8, 9, 10] []
        [11, 12, 13, 14, 15, 16] [0, 1] 0 1 2 3 4).isSome = true
      ∧ List.take 8 (List.drop (1 * 8)
          [1, 2, 3, 7, 8, 11, 12, 13, 4, 5, 6, 9, 10, 14, 15, (16 : Int)])
        = [4, 5, 6] ++ [] ++ [9, 10] ++ [] ++ [14, 15, 16] :=
  ⟨(from_arrays_record_layout 4 ([1, 2, 3, 4, 5, 6] : List Int) [] [7, 8, 9, 10] []
        [11, 12, 13, 14, 15, 16] [0, 1] 0 1 2 3 4).2
        (by decide) (by decide) (by decide) (by decide) (by decide),
    (from_arrays_record_layout 4 ([1, 2, 3, 4, 5, 6] : List Int) [] [7, 8, 9, 10] []
      [11, 12, 13, 14, 15, 16] [0, 1] 0 1 2 3 4).1
      { mode := 4, vertex_buffer_size := 64, vertex_buffer_stride := 32,
        interleaved_vertices := [1, 2, 3, 7, 8, 11, 12, 13, 4, 5, 6, 9, 10, 14, 15, 16],
        elements_per_vertex := 8, draw_arrays_count := 2, draw_elements_count := 2 }
      (by decide) 1 (by decide)⟩

/-- Claim C3. `draw` issues exactly one draw command, as the last command after the
vertex-array binding (and the patch parameter): `glDrawElements` of
`draw_elements_count` indices when `draw_elements_count > 0`, and otherwise
`glDrawArrays` of `draw_arrays_count` vertices starting at 0.  `draw_instanced(count)`
makes the same choice between `glDrawElementsInstanced` and `glDrawArraysInstanced`
and passes `count` as the instance count. -/
theorem draw_dispatch (g : Geometry_Base F) (count : Int) (gl : GLContext) :
    (∃ pre, (∀ c ∈ pre, c.is_draw = false)
        ∧ (g.draw gl).calls = gl.calls ++ pre ++
            [if g.draw_elements_count > 0 then
              GLCall.DrawElements g.mode g.draw_elements_count GL_UNSIGNED_INT 0
            else GLCall.DrawArrays g.mode 0 g.draw_arrays_count])
      ∧ (∃ pre, (∀ c ∈ pre, c.is_draw = false)
        ∧ (g.draw_instanced count gl).calls = gl.calls ++ pre ++
            [if g.draw_elements_count > 0 then
              GLCall.DrawElementsInstanced g.mode g.draw_elements_count GL_UNSIGNED_INT 0 count
            else GLCall.DrawArraysInstanced g.mode 0 g.draw_arrays_count count]) := by
  constructor
  · refine ⟨[GLCall.BindVertexArray g.vao] ++
      (if g.mode = GL_PATCHES then [GLCall.PatchParameteri GL_PATCH_VERTICES g.patch_vertices]
        else []), ?_, ?_⟩
    · intro c hc
      split_ifs at hc <;> simp at hc <;> rcases hc with rfl | rfl <;> rfl
    · unfold draw bind_vao glBindVertexArray glPatchParameteri glDrawElements glDrawArrays
        GLContext.issue
      split_ifs <;> simp
  · refine ⟨[GLCall.BindVertexArray g.vao] ++
      (if g.mode = GL_PATCHES then [GLCall.PatchParameteri GL_PATCH_VERTICES g.patch_vertices]
        else []), ?_, ?_⟩
    · intro c hc
      split_ifs at hc <;> simp at hc <;> rcases hc with rfl | rfl <;> rfl
    · unfold draw_instanced bind_vao glBindVertexArray glPatchParameteri
        glDrawElementsInstanced glDrawArraysInstanced GLContext.issue
      split_ifs <;> simp

end Geometry_Base

/-! ## The pixel accessors and the constructor of `Texture` -/

theorem checked_of_range (v : Int) (h0 : INT_MIN ≤ v) (h1 : v ≤ INT_MAX) :
    checked v = some v := by
  unfold checked
  rw [if_pos ⟨h0, h1⟩]

theorem checked_eq_some (v r : Int) (h : checked v = some r) :
    r = v ∧ INT_MIN ≤ v ∧ v ≤ INT_MAX := by
  unfold checked at h
  split_ifs at h with hc
  exact ⟨(Option.some.inj h).symm, hc.1, hc.2⟩

theorem vec_write_of_lt {F : Type} (d : List F) (i : Nat) (a : F) (h : i < d.length) :
    vec_write d i a = some (d.set i a) := by
  unfold vec_write
  rw [if_pos h]

namespace Texture
variable {F : Type}

/-- The number of an in-bounds pixel is below `width * height`. -/
theorem pixel_number_lt (t : Texture F) (x y : Int) (hb : t.in_bounds x y) :
    ((t.pixel_number x y : Nat) : Int) = y * t.width + x
      ∧ ((t.pixel_number x y : Nat) : Int) + 1 ≤ t.width * t.height := by
  obtain ⟨hx0, hx1, hy0, hy1⟩ := hb
  have hw : 0 ≤ t.width := by omega
  have h1 : 0 ≤ y * t.width := Int.mul_nonneg hy0 hw
  have h2 : (y + 1) * t.width ≤ t.height * t.width :=
    Int.mul_le_mul_of_nonneg_right (by omega) hw
  have e : ((t.pixel_number x y : Nat) : Int) = y * t.width + x := by
    unfold pixel_number
    rw [Int.toNat_of_nonneg (by omega)]
  refine ⟨e, ?_⟩
  rw [e]
  have h3 : (y + 1) * t.width = y * t.width + t.width := by ring
  have h4 : t.height * t.width = t.width * t.height := by ring
  omega

/-- For an in-bounds pixel of a well-formed texture, `get_index` does not overflow
and the `nrChannels` values from it on lie inside the pixel buffer. -/
theorem get_index_in_bounds (t : Texture F) (x y : Int) (hw : t.well_formed)
    (hb : t.in_bounds x y) :
    t.get_index x y = some (((t.pixel_number x y : Nat) : Int) * t.nrChannels)
      ∧ (((t.pixel_number x y : Nat) : Int) + 1) * t.nrChannels
          ≤ (t.texture_data.length : Int) := by
  obtain ⟨hp, hlt⟩ := t.pixel_number_lt x y hb
  obtain ⟨hw0, hh0, hc, hlen, hmax⟩ := hw
  obtain ⟨hx0, hx1, hy0, hy1⟩ := hb
  have hc0 : 0 ≤ t.nrChannels := by omega
  have h1 : 0 ≤ y * t.width := Int.mul_nonneg hy0 hw0
  have hbound : (((t.pixel_number x y : Nat) : Int) + 1) * t.nrChannels
      ≤ t.width * t.height * t.nrChannels := Int.mul_le_mul_of_nonneg_right hlt hc0
  have hexp : (((t.pixel_number x y : Nat) : Int) + 1) * t.nrChannels
      = ((t.pixel_number x y : Nat) : Int) * t.nrChannels + t.nrChannels := by ring
  have hpn : 0 ≤ ((t.pixel_number x y : Nat) : Int) * t.nrChannels :=
    Int.mul_nonneg (Int.natCast_nonneg _) hc0
  have hpc : ((t.pixel_number x y : Nat) : Int) ≤ ((t.pixel_number x y : Nat) : Int) * t.nrChannels :=
    le_mul_of_one_le_right (Int.natCast_nonneg _) hc
  refine ⟨?_, le_trans hbound hlen⟩
  unfold get_index
  unfold INT_MAX at hmax
  have hyw : y * t.width ≤ ((t.pixel_number x y : Nat) : Int) := by omega
  rw [checked_of_range (y * t.width) (by unfold INT_MIN; omega) (by unfold INT_MAX; omega)]
  simp only [Option.bind_eq_bind, Option.some_bind]
  rw [checked_of_range (y * t.width + x) (by unfold INT_MIN; omega) (by unfold INT_MAX; omega)]
  simp only [Option.some_bind]
  rw [← hp]
  exact checked_of_range _ (by unfold INT_MIN; omega) (by unfold INT_MAX; omega)

/-- The block of an in-bounds pixel of a well-formed 4-channel texture. -/
theorem rgba_block (t : Texture F) (x y : Int) (hw : t.well_formed) (hc : t.nrChannels = 4)
    (hb : t.in_bounds x y) :
    t.get_index x y = some ((4 * t.pixel_number x y : Nat) : Int)
      ∧ 4 * t.pixel_number x y + 3 < t.texture_data.length
      ∧ to_size_t ((4 * t.pixel_number x y : Nat) : Int) = 4 * t.pixel_number x y
      ∧ size_t_add (4 * t.pixel_number x y) 1 = 4 * t.pixel_number x y + 1
      ∧ size_t_add (4 * t.pixel_number x y) 2 = 4 * t.pixel_number x y + 2
      ∧ size_t_add (4 * t.pixel_number x y) 3 = 4 * t.pixel_number x y + 3 := by
  obtain ⟨hi, hl⟩ := t.get_index_in_bounds x y hw hb
  have hmax := hw.2.2.2.2
  unfold INT_MAX at hmax
  rw [hc] at hi hl
  have e : ((t.pixel_number x y : Nat) : Int) * 4 = ((4 * t.pixel_number x y : Nat) : Int) := by
    push_cast; ring
  rw [e] at hi
  have hlt : 4 * t.pixel_number x y + 3 < t.texture_data.length := by omega
  refine ⟨hi, hlt, ?_, ?_, ?_, ?_⟩
  · unfold to_size_t; omega
  · unfold size_t_add; omega
  · unfold size_t_add; omega
  · unfold size_t_add; omega

/-- On a well-formed 4-channel texture `set_pixel_color` stores the four channels in
the block of the pixel. -/
theorem set_pixel_color_rgba (t : Texture F) (x y : Int) (c : Color F) (hw : t.well_formed)
    (hc : t.nrChannels = 4) (hb : t.in_bounds x y) :
    t.set_pixel_color x y c
      = some { t with texture_data := write_rgba t.texture_data (4 * t.pixel_number x y) c } := by
  obtain ⟨hi, hl, e0, e1, e2, e3⟩ := t.rgba_block x y hw hc hb
  obtain ⟨hx0, hx1, hy0, hy1⟩ := hb
  unfold set_pixel_color get_width get_height
  rw [if_neg (by omega), hi]
  simp only [Option.bind_eq_bind, Option.some_bind, e0, e1, e2, e3, hc]
  rw [if_pos (by decide), vec_write_of_lt _ _ _ (by omega)]
  simp only [Option.some_bind]
  rw [if_pos (by decide), vec_write_of_lt _ _ _ (by rw [List.length_set]; omega)]
  simp only [Option.some_bind]
  rw [if_pos (by decide), vec_write_of_lt _ _ _ (by rw [List.length_set, List.length_set]; omega)]
  simp only [Option.some_bind]
  rw [if_pos trivial, vec_write_of_lt _ _ _
    (by rw [List.length_set, List.length_set, List.length_set]; omega)]
  simp only [Option.some_bind, write_rgba]

/-- On a well-formed 4-channel texture `set_pixel_gray_scale` stores the intensity in
the three colour channels and 1 in the alpha channel of the block of the pixel. -/
theorem set_pixel_gray_scale_rgba [One F] (t : Texture F) (x y : Int) (v : F)
    (hw : t.well_formed) (hc : t.nrChannels = 4) (hb : t.in_bounds x y) :
    t.set_pixel_gray_scale x y v
      = some { t with texture_data := (write_rgba t.texture_data (4 * t.pixel_number x y)
          (Color.mk v v v 1)) } := by
  obtain ⟨hi, hl, e0, e1, e2, e3⟩ := t.rgba_block x y hw hc hb
  unfold set_pixel_gray_scale
  rw [hi]
  simp only [Option.bind_eq_bind, Option.some_bind, e0, e1, e2, e3, hc]
  rw [if_pos (by decide), vec_write_of_lt _ _ _ (by omega)]
  simp only [Option.some_bind]
  rw [if_pos (by decide), vec_write_of_lt _ _ _ (by rw [List.length_set]; omega)]
  simp only [Option.some_bind]
  rw [if_pos (by decide), vec_write_of_lt _ _ _ (by rw [List.length_set, List.length_set]; omega)]
  simp only [Option.some_bind]
  rw [if_pos trivial, vec_write_of_lt _ _ _
    (by rw [List.length_set, List.length_set, List.length_set]; omega)]
  simp only [Option.some_bind, write_rgba]

/-- On a well-formed 4-channel texture `get_pixel_color` reads the block of the pixel. -/
theorem get_pixel_color_rgba [One F] (K : ColorConstants F) (t : Texture F) (x y : Int)
    (hw : t.well_formed) (hc : t.nrChannels = 4) (hb : t.in_bounds x y) :
    t.get_pixel_color K x y = read_rgba t.texture_data (4 * t.pixel_number x y) := by
  obtain ⟨hi, hl, e0, e1, e2, e3⟩ := t.rgba_block x y hw hc hb
  obtain ⟨hx0, hx1, hy0, hy1⟩ := hb
  unfold get_pixel_color get_width get_height
  rw [if_neg (by omega)]
  unfold get_pixel_color_fast
  rw [hi]
  simp only [Option.bind_eq_bind, Option.some_bind, e0, e1, e2, e3, hc]
  rw [if_neg (by decide), if_neg (by decide), if_pos trivial]
  rfl

theorem length_write_rgba (d : List F) (i : Nat) (c : Color F) :
    (write_rgba d i c).length = d.length := by
  unfold write_rgba
  simp only [List.length_set]

/-- Reading back the block just written. -/
theorem read_write_rgba_same (d : List F) (i : Nat) (c : Color F) (h : i + 3 < d.length) :
    read_rgba (write_rgba d i c) i = some c := by
  unfold read_rgba write_rgba
  have h0 : ((((d.set i c.r).set (i + 1) c.g).set (i + 2) c.b).set (i + 3) c.a)[i]? = some c.r := by
    rw [List.getElem?_set_ne (by omega), List.getElem?_set_ne (by omega),
      List.getElem?_set_ne (by omega), List.getElem?_set_self (by omega)]
  have h1 : ((((d.set i c.r).set (i + 1) c.g).set (i + 2) c.b).set (i + 3) c.a)[i + 1]?
      = some c.g := by
    rw [List.getElem?_set_ne (by omega), List.getElem?_set_ne (by omega),
      List.getElem?_set_self (by rw [List.length_set]; omega)]
  have h2 : ((((d.set i c.r).set (i + 1) c.g).set (i + 2) c.b).set (i + 3) c.a)[i + 2]?
      = some c.b := by
    rw [List.getElem?_set_ne (by omega),
      List.getElem?_set_self (by rw [List.length_set, List.length_set]; omega)]
  have h3 : ((((d.set i c.r).set (i + 1) c.g).set (i + 2) c.b).set (i + 3) c.a)[i + 3]?
      = some c.a := by
    rw [List.getElem?_set_self
      (by rw [List.length_set, List.length_set, List.length_set]; omega)]
  rw [h0, h1, h2, h3]
  rfl

/-- Writing one aligned block leaves every other aligned block as it was. -/
theorem read_write_rgba_other (d : List F) (m n : Nat) (c : Color F) (h : m ≠ n) :
    read_rgba (write_rgba d (4 * m) c) (4 * n) = read_rgba d (4 * n) := by
  unfold read_rgba write_rgba
  rw [List.getElem?_set_ne (by omega), List.getElem?_set_ne (by omega),
    List.getElem?_set_ne (by omega), List.getElem?_set_ne (by omega)]
  rw [List.getElem?_set_ne (by omega), List.getElem?_set_ne (by omega),
    List.getElem?_set_ne (by omega), List.getElem?_set_ne (by omega)]
  rw [List.getElem?_set_ne (by omega), List.getElem?_set_ne (by omega),
    List.getElem?_set_ne (by omega), List.getElem?_set_ne (by omega)]
  rw [List.getElem?_set_ne (by omega), List.getElem?_set_ne (by omega),
    List.getElem?_set_ne (by omega), List.getElem?_set_ne (by omega)]

/-- The value of an in-bounds pixel of a well-formed 1-channel texture. -/
theorem depth_block (t : Texture F) (x y : Int) (hw : t.well_formed) (hc : t.nrChannels = 1)
    (hb : t.in_bounds x y) :
    t.get_index x y = some ((t.pixel_number x y : Nat) : Int)
      ∧ t.pixel_number x y < t.texture_data.length
      ∧ to_size_t ((t.pixel_number x y : Nat) : Int) = t.pixel_number x y := by
  obtain ⟨hi, hl⟩ := t.get_index_in_bounds x y hw hb
  have hmax := hw.2.2.2.2
  unfold INT_MAX at hmax
  rw [hc, mul_one] at hi hl
  refine ⟨hi, by omega, ?_⟩
  unfold to_size_t; omega

/-- On a well-formed 1-channel texture `set_pixel_color` stores the red channel only. -/
theorem set_pixel_color_depth (t : Texture F) (x y : Int) (c : Color F) (hw : t.well_formed)
    (hc : t.nrChannels = 1) (hb : t.in_bounds x y) :
    t.set_pixel_color x y c
      = some { t with texture_data := t.texture_data.set (t.pixel_number x y) c.r } := by
  obtain ⟨hi, hl, e0⟩ := t.depth_block x y hw hc hb
  obtain ⟨hx0, hx1, hy0, hy1⟩ := hb
  unfold set_pixel_color get_width get_height
  rw [if_neg (by omega), hi]
  simp only [Option.bind_eq_bind, Option.some_bind, e0]
  rw [if_pos (by omega), vec_write_of_lt _ _ _ hl]
  simp only [Option.some_bind]
  rw [if_neg (by omega)]
  simp only [Option.some_bind]
  rw [if_neg (by omega)]
  simp only [Option.some_bind]
  rw [if_neg (by omega)]
  simp only [Option.some_bind]

/-- On a well-formed 1-channel texture `get_pixel_color` replicates the stored value
in the colour channels and returns alpha 1. -/
theorem get_pixel_color_depth [One F] (K : ColorConstants F) (t : Texture F) (x y : Int)
    (hw : t.well_formed) (hc : t.nrChannels = 1) (hb : t.in_bounds x y) :
    t.get_pixel_color K x y
      = (t.texture_data[t.pixel_number x y]?).map (fun v => Color.mk v v v 1) := by
  obtain ⟨hi, hl, e0⟩ := t.depth_block x y hw hc hb
  obtain ⟨hx0, hx1, hy0, hy1⟩ := hb
  unfold get_pixel_color get_width get_height
  rw [if_neg (by omega)]
  unfold get_pixel_color_fast vec_read
  rw [hi]
  simp only [Option.bind_eq_bind, Option.some_bind, e0]
  rw [if_pos hc]
  cases t.texture_data[t.pixel_number x y]? <;> rfl

/-- Writes through `set_pixel_color` keep every field but the contents of the pixel
buffer, whose length stays the same. -/
theorem set_pixel_color_frame (t t' : Texture F) (x y : Int) (c : Color F)
    (h : t.set_pixel_color x y c = some t') : t.same_shape t' := by
  unfold same_shape
  unfold set_pixel_color at h
  by_cases hb : x < 0 ∨ x ≥ t.get_width ∨ y < 0 ∨ y ≥ t.get_height
  · rw [if_pos hb, Option.some.injEq] at h
    subst h
    simp
  · rw [if_neg hb] at h
    simp only [Option.bind_eq_bind, Option.bind_eq_some] at h
    obtain ⟨i, -, d1, h1, d2, h2, d3, h3, d4, h4, ht⟩ := h
    simp only [Option.some.injEq] at ht
    subst ht
    have len : ∀ (c : Prop) [Decidable c] (d d' : List F) (i : Nat) (a : F),
        (if c then vec_write d i a else some d) = some d' → d'.length = d.length := by
      intro c _ d d' i a hh
      unfold vec_write at hh
      split_ifs at hh <;> simp only [Option.some.injEq] at hh <;> subst hh <;> simp
    refine ⟨rfl, rfl, rfl, rfl, rfl, rfl, rfl, rfl, rfl, ?_⟩
    simp only
    rw [len _ _ _ _ _ h4, len _ _ _ _ _ h3, len _ _ _ _ _ h2, len _ _ _ _ _ h1]

/-- Writes through `set_pixel_color` keep the representation invariant. -/
theorem set_pixel_color_well_formed (t t' : Texture F) (x y : Int) (c : Color F)
    (hw : t.well_formed) (h : t.set_pixel_color x y c = some t') : t'.well_formed := by
  obtain ⟨-, -, e1, e2, -, -, -, e3, -, e4⟩ := set_pixel_color_frame t t' x y c h
  unfold well_formed at hw ⊢
  rw [e1, e2, e3, e4]
  exact hw

end Texture

/-- A loop keeps an invariant that each of its steps keeps. -/
theorem foldlM_invariant {σ α : Type} (l : List α) (f : σ → α → Option σ) (Inv : σ → Prop)
    (hstep : ∀ s i s', i ∈ l → Inv s → f s i = some s' → Inv s')
    (s r : σ) (hs : Inv s) (h : l.foldlM f s = some r) : Inv r := by
  induction l generalizing s with
  | nil =>
    simp only [List.foldlM_nil, Option.pure_def, Option.some.injEq] at h
    exact h ▸ hs
  | cons a l ih =>
    simp only [List.foldlM_cons, Option.bind_eq_bind, Option.bind_eq_some] at h
    obtain ⟨s1, h1, h2⟩ := h
    exact ih (fun s i s' hi => hstep s i s' (List.mem_cons_of_mem _ hi)) s1
      (hstep s a s1 (List.mem_cons_self _ _) hs h1) h2

/-- A loop has a result when each of its steps has one on the states of an invariant. -/
theorem foldlM_total {σ α : Type} (l : List α) (f : σ → α → Option σ) (Inv : σ → Prop)
    (hstep : ∀ s i, i ∈ l → Inv s → ∃ s', f s i = some s' ∧ Inv s')
    (s : σ) (hs : Inv s) : ∃ r, l.foldlM f s = some r := by
  induction l generalizing s with
  | nil => exact ⟨s, rfl⟩
  | cons a l ih =>
    obtain ⟨s1, h1, hi1⟩ := hstep s a (List.mem_cons_self _ _) hs
    obtain ⟨r, hr⟩ := ih (fun s i hi => hstep s i (List.mem_cons_of_mem _ hi)) s1 hi1
    refine ⟨r, ?_⟩
    simp only [List.foldlM_cons, Option.bind_eq_bind, h1, Option.some_bind, hr]

/-- After a loop, the property each step establishes for its own index, and no step
destroys, holds for every index. -/
theorem foldlM_visits {σ α : Type} (l : List α) (f : σ → α → Option σ) (Inv : σ → Prop)
    (Q : α → σ → Prop)
    (hinv : ∀ s i s', i ∈ l → Inv s → f s i = some s' → Inv s')
    (hest : ∀ s i s', i ∈ l → Inv s → f s i = some s' → Q i s')
    (hpres : ∀ s i s' j, i ∈ l → Inv s → f s i = some s' → Q j s → Q j s')
    (s r : σ) (hs : Inv s) (h : l.foldlM f s = some r) : ∀ j ∈ l, Q j r := by
  induction l generalizing s with
  | nil => intro j hj; simp at hj
  | cons a l ih =>
    simp only [List.foldlM_cons, Option.bind_eq_bind, Option.bind_eq_some] at h
    obtain ⟨s1, h1, h2⟩ := h
    have hi1 : Inv s1 := hinv s a s1 (List.mem_cons_self _ _) hs h1
    intro j hj
    rcases List.mem_cons.mp hj with rfl | hj
    · have hq : Q j s1 := hest s j s1 (List.mem_cons_self _ _) hs h1
      exact foldlM_invariant l f (fun s => Inv s ∧ Q j s)
        (fun s i s' hi hs hf => ⟨hinv s i s' (List.mem_cons_of_mem _ hi) hs.1 hf,
          hpres s i s' j (List.mem_cons_of_mem _ hi) hs.1 hf hs.2⟩) s1 r ⟨hi1, hq⟩ h2 |>.2
    · exact ih (fun s i s' hi => hinv s i s' (List.mem_cons_of_mem _ hi))
        (fun s i s' hi => hest s i s' (List.mem_cons_of_mem _ hi))
        (fun s i s' j hi => hpres s i s' j (List.mem_cons_of_mem _ hi)) s1 hi1 h2 j hj

namespace Texture
variable {F : Type}

theorem same_shape_refl (t : Texture F) : t.same_shape t :=
  ⟨rfl, rfl, rfl, rfl, rfl, rfl, rfl, rfl, rfl, rfl⟩

theorem same_shape_trans (t t' t'' : Texture F) (h : t.same_shape t') (h' : t'.same_shape t'') :
    t.same_shape t'' := by
  obtain ⟨a1, a2, a3, a4, a5, a6, a7, a8, a9, a10⟩ := h
  obtain ⟨b1, b2, b3, b4, b5, b6, b7, b8, b9, b10⟩ := h'
  exact ⟨b1.trans a1, b2.trans a2, b3.trans a3, b4.trans a4, b5.trans a5, b6.trans a6,
    b7.trans a7, b8.trans a8, b9.trans a9, b10.trans a10⟩

theorem same_shape_well_formed (t t' : Texture F) (h : t.same_shape t') (hw : t.well_formed) :
    t'.well_formed := by
  obtain ⟨-, -, e1, e2, -, -, -, e3, -, e4⟩ := h
  unfold well_formed at hw ⊢
  rw [e1, e2, e3, e4]
  exact hw

theorem same_shape_pixel_number (t t' : Texture F) (h : t.same_shape t') (x y : Int) :
    t'.pixel_number x y = t.pixel_number x y := by
  unfold pixel_number
  rw [h.2.2.1]

/-- One step of the initialisation: the pixel written is white afterwards, and every
aligned block that was white still is. -/
theorem init_step (W : Color F) (t0 t t' : Texture F) (x y : Int) (hi : init_inv t0 t)
    (hb : t.in_bounds x y) (h : t.set_pixel_color x y W = some t') :
    init_inv t0 t' ∧ read_rgba t'.texture_data (4 * t.pixel_number x y) = some W
      ∧ ∀ m, read_rgba t.texture_data (4 * m) = some W →
          read_rgba t'.texture_data (4 * m) = some W := by
  obtain ⟨hs, hw, hc⟩ := hi
  have hsh := set_pixel_color_frame t t' x y W h
  have hl := (t.rgba_block x y hw hc hb).2.1
  rw [set_pixel_color_rgba t x y W hw hc hb, Option.some.injEq] at h
  subst h
  refine ⟨⟨same_shape_trans _ _ _ hs hsh, same_shape_well_formed _ _ hsh hw, hc⟩, ?_, ?_⟩
  · exact read_write_rgba_same _ _ _ hl
  · intro m hm
    by_cases e : t.pixel_number x y = m
    · rw [← e]; exact read_write_rgba_same _ _ _ hl
    · show read_rgba (write_rgba t.texture_data (4 * t.pixel_number x y) W) (4 * m) = some W
      rw [read_write_rgba_other _ _ _ _ e]; exact hm

theorem init_inv_in_bounds (t0 t : Texture F) (hi : init_inv t0 t) (x y : Int)
    (hx0 : 0 ≤ x) (hx1 : x < t0.width) (hy0 : 0 ≤ y) (hy1 : y < t0.height) :
    t.in_bounds x y := by
  obtain ⟨hs, -, -⟩ := hi
  unfold in_bounds
  rw [hs.2.2.1, hs.2.2.2.1]
  exact ⟨hx0, hx1, hy0, hy1⟩

theorem init_inv_pixel_number (t0 t : Texture F) (hi : init_inv t0 t) (x y : Int) :
    t.pixel_number x y = (y * t0.width + x).toNat := by
  rw [same_shape_pixel_number t0 t hi.1]
  rfl

/-- The inner initialisation loop (over `y`, for a column `x`). -/
theorem init_column (W : Color F) (t0 t t' : Texture F) (x : Int) (hx0 : 0 ≤ x)
    (hx1 : x < t0.width) (hi : init_inv t0 t)
    (h : for_int t0.height (fun y t => t.set_pixel_color x y W) t = some t') :
    init_inv t0 t'
      ∧ (∀ y : Int, 0 ≤ y → y < t0.height →
          read_rgba t'.texture_data (4 * (y * t0.width + x).toNat) = some W)
      ∧ ∀ m, read_rgba t.texture_data (4 * m) = some W →
          read_rgba t'.texture_data (4 * m) = some W := by
  unfold for_int at h
  have hb : ∀ (s : Texture F) (j : Nat), j ∈ List.range t0.height.toNat → init_inv t0 s →
      s.in_bounds x (j : Int) := by
    intro s j hj hs
    rw [List.mem_range] at hj
    exact init_inv_in_bounds t0 s hs x j hx0 hx1 (by omega) (by omega)
  have hinv : ∀ (s : Texture F) (j : Nat) (s' : Texture F), j ∈ List.range t0.height.toNat →
      init_inv t0 s → s.set_pixel_color x (j : Int) W = some s' → init_inv t0 s' :=
    fun s j s' hj hs hf => (init_step W t0 s s' x j hs (hb s j hj hs) hf).1
  refine ⟨foldlM_invariant _ _ (init_inv t0) hinv t t' hi h, ?_, ?_⟩
  · intro y hy0 hy1
    have hv := foldlM_visits (List.range t0.height.toNat)
      (fun (s : Texture F) (j : Nat) => s.set_pixel_color x (j : Int) W) (init_inv t0)
      (fun j s => read_rgba s.texture_data (4 * ((j : Int) * t0.width + x).toNat) = some W)
      hinv
      (fun s j s' hj hs hf => by
        have := (init_step W t0 s s' x j hs (hb s j hj hs) hf).2.1
        rwa [init_inv_pixel_number t0 s hs] at this)
      (fun s j s' k hj hs hf hq =>
        (init_step W t0 s s' x j hs (hb s j hj hs) hf).2.2 _ hq)
      t t' hi h y.toNat (by rw [List.mem_range]; omega)
    beta_reduce at hv
    rwa [Int.toNat_of_nonneg hy0] at hv
  · intro m hm
    exact (foldlM_invariant (List.range t0.height.toNat)
      (fun (s : Texture F) (j : Nat) => s.set_pixel_color x (j : Int) W)
      (fun s => init_inv t0 s ∧ read_rgba s.texture_data (4 * m) = some W)
      (fun s j s' hj hs hf => ⟨hinv s j s' hj hs.1 hf,
        (init_step W t0 s s' x j hs.1 (hb s j hj hs.1) hf).2.2 m hs.2⟩) t t' ⟨hi, hm⟩ h).2

/-- The inner initialisation loop has a result. -/
theorem init_column_total (W : Color F) (t0 t : Texture F) (x : Int) (hx0 : 0 ≤ x)
    (hx1 : x < t0.width) (hi : init_inv t0 t) :
    ∃ t', for_int t0.height (fun y t => t.set_pixel_color x y W) t = some t' := by
  unfold for_int
  apply foldlM_total _ _ (init_inv t0) _ t hi
  intro s j hj hs
  rw [List.mem_range] at hj
  have hb : s.in_bounds x (j : Int) :=
    init_inv_in_bounds t0 s hs x j hx0 hx1 (by omega) (by omega)
  have hset := set_pixel_color_rgba s x j W hs.2.1 hs.2.2 hb
  exact ⟨_, hset, (init_step W t0 s _ x j hs hb hset).1⟩

/-- The initialisation loops of the constructor: afterwards every in-bounds pixel
holds the colour written. -/
theorem init_loops (W : Color F) (t0 t' : Texture F) (hi : init_inv t0 t0)
    (h : for_int t0.width (fun x t =>
      for_int t0.height (fun y t => t.set_pixel_color x y W) t) t0 = some t') :
    init_inv t0 t'
      ∧ ∀ x y : Int, 0 ≤ x → x < t0.width → 0 ≤ y → y < t0.height →
          read_rgba t'.texture_data (4 * (y * t0.width + x).toNat) = some W := by
  unfold for_int at h
  have hinv : ∀ (s : Texture F) (i : Nat) (s' : Texture F), i ∈ List.range t0.width.toNat →
      init_inv t0 s →
      (List.range t0.height.toNat).foldlM
        (fun (s : Texture F) (j : Nat) => s.set_pixel_color (i : Int) (j : Int) W) s = some s' →
      init_inv t0 s' := by
    intro s i s' hi' hs hf
    rw [List.mem_range] at hi'
    exact (init_column W t0 s s' i (by omega) (by omega) hs hf).1
  refine ⟨foldlM_invariant _ _ (init_inv t0) hinv t0 t' hi h, ?_⟩
  intro x y hx0 hx1 hy0 hy1
  have hv := foldlM_visits (List.range t0.width.toNat)
    (fun (s : Texture F) (i : Nat) => (List.range t0.height.toNat).foldlM
        (fun (s : Texture F) (j : Nat) => s.set_pixel_color (i : Int) (j : Int) W) s)
    (init_inv t0)
    (fun i s => ∀ y : Int, 0 ≤ y → y < t0.height →
      read_rgba s.texture_data (4 * (y * t0.width + (i : Int)).toNat) = some W)
    hinv
    (fun s i s' hi' hs hf => by
      rw [List.mem_range] at hi'
      exact (init_column W t0 s s' i (by omega) (by omega) hs hf).2.1)
    (fun s i s' k hi' hs hf hq y hy0 hy1 => by
      rw [List.mem_range] at hi'
      exact (init_column W t0 s s' i (by omega) (by omega) hs hf).2.2 _ (hq y hy0 hy1))
    t0 t' hi h x.toNat (by rw [List.mem_range]; omega) y hy0 hy1
  beta_reduce at hv
  rwa [Int.toNat_of_nonneg hx0] at hv

/-- The initialisation loops of the constructor have a result. -/
theorem init_loops_total (W : Color F) (t0 : Texture F) (hi : init_inv t0 t0) :
    ∃ t', for_int t0.width (fun x t =>
      for_int t0.height (fun y t => t.set_pixel_color x y W) t) t0 = some t' := by
  unfold for_int
  apply foldlM_total _ _ (init_inv t0) _ t0 hi
  intro s i hi' hs
  rw [List.mem_range] at hi'
  obtain ⟨s', hs'⟩ := init_column_total W t0 s i (by omega) (by omega) hs
  exact ⟨s', hs', (init_column W t0 s s' i (by omega) (by omega) hs hs').1⟩

theorem for_int_nonpos {σ : Type} (n : Int) (hn : n ≤ 0) (body : Int → σ → Option σ) (s : σ) :
    for_int n body s = some s := by
  unfold for_int
  rw [Int.toNat_eq_zero.mpr hn]
  rfl

/-- What the CPU block of the constructor yields on a 4-channel texture. -/
theorem create_cpu_representation_spec [Zero F] (K : ColorConstants F) (t0 t : Texture F)
    (hc0 : t0.nrChannels = 4)
    (h : t0.create_cpu_representation K t0.width t0.height = some t) :
    0 ≤ t0.width * t0.height * 4 ∧ t0.width * t0.height * 4 ≤ INT_MAX
      ∧ t.texture_data.length = (t0.width * t0.height * 4).toNat
      ∧ t.opengl_object = t0.opengl_object ∧ t.target = t0.target ∧ t.width = t0.width
      ∧ t.height = t0.height ∧ t.internal_format = t0.internal_format
      ∧ t.format = t0.format ∧ t.type = t0.type ∧ t.nrChannels = 4
      ∧ t.cpu_only = t0.cpu_only
      ∧ ∀ x y : Int, 0 ≤ x → x < t0.width → 0 ≤ y → y < t0.height →
          read_rgba t.texture_data (4 * (y * t0.width + x).toNat) = some K.WHITE := by
  unfold create_cpu_representation at h
  simp only [Option.bind_eq_bind, Option.bind_eq_some] at h
  obtain ⟨wh, hwh, n, hn, hrest⟩ := h
  obtain ⟨rfl, -, -⟩ := checked_eq_some _ _ hwh
  obtain ⟨rfl, -, hmax⟩ := checked_eq_some _ _ hn
  have e4 : t0.width * t0.height * t0.nrChannels = t0.width * t0.height * 4 := by rw [hc0]
  rw [e4] at hrest hmax
  by_cases hneg : t0.width * t0.height * 4 < 0
  · rw [if_pos hneg] at hrest
    exact absurd hrest (by simp)
  rw [if_neg hneg] at hrest
  have hn0 : 0 ≤ t0.width * t0.height * 4 := by omega
  -- the texture the loops start from
  obtain ⟨t1, ht1⟩ : ∃ t1 : Texture F, t1 = { t0 with
      texture_data := (List.replicate (t0.width * t0.height * 4).toNat (0 : F)) } := ⟨_, rfl⟩
  rw [← ht1] at hrest
  have hw1 : t1.width = t0.width := by rw [ht1]
  have hh1 : t1.height = t0.height := by rw [ht1]
  have hlen1 : t1.texture_data.length = (t0.width * t0.height * 4).toNat := by
    rw [ht1]; simp
  have hsh : t1.same_shape t ∧ (∀ x y : Int, 0 ≤ x → x < t0.width → 0 ≤ y → y < t0.height →
      read_rgba t.texture_data (4 * (y * t0.width + x).toNat) = some K.WHITE) := by
    by_cases hpos : 0 ≤ t0.width ∧ 0 ≤ t0.height
    · have hinv : init_inv t1 t1 := by
        refine ⟨same_shape_refl t1, ⟨?_, ?_, ?_, ?_, ?_⟩, ?_⟩
        · rw [hw1]; exact hpos.1
        · rw [hh1]; exact hpos.2
        · rw [ht1]; simp only; omega
        · have e : t1.nrChannels = 4 := by rw [ht1]; exact hc0
          rw [hlen1, hw1, hh1, e, Int.toNat_of_nonneg hn0]
        · rw [hlen1, Int.toNat_of_nonneg hn0]; exact hmax
        · rw [ht1]; exact hc0
      rw [← hw1, ← hh1] at hrest
      have hl := init_loops K.WHITE t1 t hinv hrest
      rw [hw1, hh1] at hl
      exact ⟨hl.1.1, hl.2⟩
    · have hw : t0.width ≤ 0 := by
        by_contra hcon
        have hwpos : 0 < t0.width := by omega
        have hhneg : t0.height < 0 := by omega
        have := Int.mul_neg_of_pos_of_neg hwpos hhneg
        omega
      rw [for_int_nonpos _ hw, Option.some.injEq] at hrest
      subst hrest
      exact ⟨same_shape_refl _, fun x y hx0 hx1 => by omega⟩
  obtain ⟨⟨e1, e2, e3, e4, e5, e6, e7, e8, e9, e10⟩, hwhite⟩ := hsh
  refine ⟨hn0, hmax, by rw [e10, hlen1], ?_, ?_, ?_, ?_, ?_, ?_, ?_, ?_, ?_, hwhite⟩
  · rw [e1, ht1]
  · rw [e2, ht1]
  · rw [e3, ht1]
  · rw [e4, ht1]
  · rw [e5, ht1]
  · rw [e6, ht1]
  · rw [e7, ht1]
  · rw [e8, ht1]; exact hc0
  · rw [e9, ht1]

/-- The CPU block of the constructor has a result on a 4-channel texture of
non-negative dimensions whose buffer size fits an `int`. -/
theorem create_cpu_representation_total [Zero F] (K : ColorConstants F) (t0 : Texture F)
    (hc0 : t0.nrChannels = 4) (hw : 0 ≤ t0.width) (hh : 0 ≤ t0.height)
    (hfit : t0.width * t0.height * 4 ≤ INT_MAX) :
    ∃ t, t0.create_cpu_representation K t0.width t0.height = some t := by
  have hwh0 : 0 ≤ t0.width * t0.height := Int.mul_nonneg hw hh
  unfold create_cpu_representation
  rw [checked_of_range (t0.width * t0.height) (by unfold INT_MIN; omega)
    (by unfold INT_MAX at hfit ⊢; omega)]
  simp only [Option.bind_eq_bind, Option.some_bind]
  have e4 : t0.width * t0.height * t0.nrChannels = t0.width * t0.height * 4 := by rw [hc0]
  rw [e4, checked_of_range (t0.width * t0.height * 4) (by unfold INT_MIN; omega) hfit]
  simp only [Option.some_bind]
  rw [if_neg (by omega)]
  obtain ⟨t1, ht1⟩ : ∃ t1 : Texture F, t1 = { t0 with
      texture_data := (List.replicate (t0.width * t0.height * 4).toNat (0 : F)) } := ⟨_, rfl⟩
  rw [← ht1]
  have hw1 : t1.width = t0.width := by rw [ht1]
  have hh1 : t1.height = t0.height := by rw [ht1]
  have hinv : init_inv t1 t1 := by
    refine ⟨same_shape_refl t1, ⟨?_, ?_, ?_, ?_, ?_⟩, ?_⟩
    · rw [hw1]; exact hw
    · rw [hh1]; exact hh
    · rw [ht1]; simp only; omega
    · have e : t1.nrChannels = 4 := by rw [ht1]; exact hc0
      have hlen1 : t1.texture_data.length = (t0.width * t0.height * 4).toNat := by
        rw [ht1]; simp
      rw [hlen1, hw1, hh1, e, Int.toNat_of_nonneg (by omega)]
    · have hlen1 : t1.texture_data.length = (t0.width * t0.height * 4).toNat := by
        rw [ht1]; simp
      rw [hlen1, Int.toNat_of_nonneg (by omega)]; exact hfit
    · rw [ht1]; exact hc0
  have := init_loops_total K.WHITE t1 hinv
  rw [hw1, hh1] at this
  exact this

theorem determine_channels_fields (t : Texture F) (fmt : Nat) :
    (t.determine_channels fmt).opengl_object = t.opengl_object
      ∧ (t.determine_channels fmt).target = t.target
      ∧ (t.determine_channels fmt).width = t.width
      ∧ (t.determine_channels fmt).height = t.height
      ∧ (t.determine_channels fmt).internal_format = t.internal_format
      ∧ (t.determine_channels fmt).format = t.format
      ∧ (t.determine_channels fmt).type = t.type
      ∧ (t.determine_channels fmt).nrChannels
          = (if fmt = GL_DEPTH_COMPONENT then 1 else if fmt = GL_RGBA then 4 else t.nrChannels)
      ∧ (t.determine_channels fmt).cpu_only = t.cpu_only
      ∧ (t.determine_channels fmt).texture_data = t.texture_data := by
  unfold determine_channels
  split_ifs <;> exact ⟨rfl, rfl, rfl, rfl, rfl, rfl, rfl, rfl, rfl, rfl⟩

theorem create_gpu_representation_fields (t : Texture F) (w h ifmt : Int) (cpu : Bool)
    (gl : GLContext) :
    (t.create_gpu_representation w h ifmt cpu gl).1.opengl_object
        = (if w > 0 ∧ h > 0 ∧ !cpu then gl.last_name + 1 else t.opengl_object)
      ∧ (t.create_gpu_representation w h ifmt cpu gl).1.target = t.target
      ∧ (t.create_gpu_representation w h ifmt cpu gl).1.width = t.width
      ∧ (t.create_gpu_representation w h ifmt cpu gl).1.height = t.height
      ∧ (t.create_gpu_representation w h ifmt cpu gl).1.internal_format = t.internal_format
      ∧ (t.create_gpu_representation w h ifmt cpu gl).1.format = t.format
      ∧ (t.create_gpu_representation w h ifmt cpu gl).1.type = t.type
      ∧ (t.create_gpu_representation w h ifmt cpu gl).1.nrChannels = t.nrChannels
      ∧ (t.create_gpu_representation w h ifmt cpu gl).1.cpu_only = t.cpu_only
      ∧ (t.create_gpu_representation w h ifmt cpu gl).1.texture_data = t.texture_data := by
  unfold create_gpu_representation
  split_ifs <;> exact ⟨rfl, rfl, rfl, rfl, rfl, rfl, rfl, rfl, rfl, rfl⟩

/-- What the constructor yields. -/
theorem create_spec [Zero F] (K : ColorConstants F) (w h ifmt : Int) (fmt : Nat) (cpu : Bool)
    (gl : GLContext) (t : Texture F) (gl' : GLContext)
    (hc : create K w h ifmt fmt cpu gl = some (t, gl')) :
    0 ≤ w * h * 4 ∧ w * h * 4 ≤ INT_MAX
      ∧ t.texture_data.length = (w * h * 4).toNat
      ∧ t.opengl_object = (if w > 0 ∧ h > 0 ∧ !cpu then gl.last_name + 1 else 0)
      ∧ t.target = GL_TEXTURE_2D ∧ t.width = w ∧ t.height = h
      ∧ t.internal_format = to_GLenum ifmt ∧ t.format = fmt ∧ t.type = GL_FLOAT
      ∧ t.nrChannels = (if fmt = GL_DEPTH_COMPONENT then 1 else 4)
      ∧ t.cpu_only = cpu
      ∧ ∀ x y : Int, 0 ≤ x → x < w → 0 ≤ y → y < h →
          read_rgba t.texture_data (4 * (y * w + x).toNat) = some K.WHITE := by
  unfold create at hc
  simp only [Option.bind_eq_bind, Option.bind_eq_some, Option.some.injEq] at hc
  obtain ⟨t1, ht1, hc⟩ := hc
  obtain ⟨a1, a2, a3, a4, a5, a6, a7, a8, a9, a10, a11, a12, a13⟩ :=
    create_cpu_representation_spec K _ t1 rfl ht1
  simp only at a1 a2 a3 a4 a5 a6 a7 a8 a9 a10 a11 a12 a13
  obtain ⟨b1, b2, b3, b4, b5, b6, b7, b8, b9, b10⟩ := determine_channels_fields t1 fmt
  obtain ⟨c1, c2, c3, c4, c5, c6, c7, c8, c9, c10⟩ :=
    create_gpu_representation_fields (t1.determine_channels fmt) w h ifmt cpu gl
  have ht : t = ((t1.determine_channels fmt).create_gpu_representation w h ifmt cpu gl).1 := by
    rw [hc]
  rw [ht]
  refine ⟨a1, a2, ?_, ?_, ?_, ?_, ?_, ?_, ?_, ?_, ?_, ?_, ?_⟩
  · rw [c10, b10, a3]
  · rw [c1, b1, a4]
  · rw [c2, b2, a5]
  · rw [c3, b3, a6]
  · rw [c4, b4, a7]
  · rw [c5, b5, a8]
  · rw [c6, b6, a9]
  · rw [c7, b7, a10]
  · rw [c8, b8, a11]; split_ifs <;> rfl
  · rw [c9, b9, a12]
  · rw [c10, b10]; exact a13

/-- The constructor yields a texture for non-negative dimensions whose buffer size
fits an `int`. -/
theorem create_total [Zero F] (K : ColorConstants F) (w h ifmt : Int) (fmt : Nat) (cpu : Bool)
    (gl : GLContext) (hw : 0 ≤ w) (hh : 0 ≤ h) (hfit : w * h * 4 ≤ INT_MAX) :
    (create K w h ifmt fmt cpu gl).isSome = true := by
  obtain ⟨t1, ht1⟩ := create_cpu_representation_total K
    ({ opengl_object := 0, target := GL_TEXTURE_2D, width := w, height := h,
       internal_format := to_GLenum ifmt, format := fmt, type := GL_FLOAT,
       nrChannels := 4, cpu_only := cpu, texture_data := [] } : Texture F) rfl hw hh hfit
  unfold create
  simp only at ht1
  simp only [Option.bind_eq_bind, ht1, Option.some_bind, Option.isSome_some]

/-- A texture built by the constructor with non-negative dimensions is well-formed. -/
theorem create_well_formed [Zero F] (K : ColorConstants F) (w h ifmt : Int) (fmt : Nat)
    (cpu : Bool) (gl : GLContext) (t : Texture F) (gl' : GLContext)
    (hc : create K w h ifmt fmt cpu gl = some (t, gl')) (hw : 0 ≤ w) (hh : 0 ≤ h) :
    t.well_formed := by
  obtain ⟨a1, a2, a3, -, -, a6, a7, -, -, -, a11, -, -⟩ := create_spec K w h ifmt fmt cpu gl t gl' hc
  unfold well_formed
  rw [a6, a7, a3, a11, Int.toNat_of_nonneg a1]
  have hwh : 0 ≤ w * h := Int.mul_nonneg hw hh
  refine ⟨hw, hh, ?_, ?_, a2⟩
  · split_ifs <;> decide
  · split_ifs <;> omega

theorem in_bounds_nonneg (t : Texture F) (x y : Int) (hb : t.in_bounds x y) :
    0 ≤ t.width ∧ 0 ≤ t.height := by
  obtain ⟨h1, h2, h3, h4⟩ := hb
  exact ⟨by omega, by omega⟩

/-- Writing a colour and reading it back on a well-formed 4-channel texture. -/
theorem set_get_rgba [One F] (K : ColorConstants F) (t : Texture F) (x y : Int) (c : Color F)
    (hw : t.well_formed) (hc : t.nrChannels = 4) (hb : t.in_bounds x y) :
    ∃ t', t.set_pixel_color x y c = some t' ∧ t'.get_pixel_color K x y = some c := by
  have hset := set_pixel_color_rgba t x y c hw hc hb
  refine ⟨_, hset, ?_⟩
  have hsh := set_pixel_color_frame _ _ x y c hset
  rw [get_pixel_color_rgba K _ x y (same_shape_well_formed _ _ hsh hw) hc
    (by unfold in_bounds at hb ⊢; exact hb)]
  exact read_write_rgba_same _ _ _ (t.rgba_block x y hw hc hb).2.1

/-- Writing a colour and reading it back on a well-formed 1-channel texture. -/
theorem set_get_depth [One F] (K : ColorConstants F) (t : Texture F) (x y : Int) (c : Color F)
    (hw : t.well_formed) (hc : t.nrChannels = 1) (hb : t.in_bounds x y) :
    ∃ t', t.set_pixel_color x y c = some t'
      ∧ t'.get_pixel_color K x y = some { r := c.r, g := c.r, b := c.r, a := 1 } := by
  have hset := set_pixel_color_depth t x y c hw hc hb
  refine ⟨_, hset, ?_⟩
  have hsh := set_pixel_color_frame _ _ x y c hset
  rw [get_pixel_color_depth K _ x y (same_shape_well_formed _ _ hsh hw) hc
    (by unfold in_bounds at hb ⊢; exact hb)]
  show ((t.texture_data.set (t.pixel_number x y) c.r)[t.pixel_number x y]?).map _ = _
  rw [List.getElem?_set_self (t.depth_block x y hw hc hb).2.1]
  rfl

/-- Writes through `set_pixel_gray_scale` keep every field but the contents of the
pixel buffer, whose length stays the same. -/
theorem set_pixel_gray_scale_frame [One F] (t t' : Texture F) (x y : Int) (v : F)
    (h : t.set_pixel_gray_scale x y v = some t') : t.same_shape t' := by
  unfold same_shape
  unfold set_pixel_gray_scale at h
  simp only [Option.bind_eq_bind, Option.bind_eq_some] at h
  obtain ⟨i, -, d1, h1, d2, h2, d3, h3, d4, h4, ht⟩ := h
  simp only [Option.some.injEq] at ht
  subst ht
  have len : ∀ (c : Prop) [Decidable c] (d d' : List F) (i : Nat) (a : F),
      (if c then vec_write d i a else some d) = some d' → d'.length = d.length := by
    intro c _ d d' i a hh
    unfold vec_write at hh
    split_ifs at hh <;> simp only [Option.some.injEq] at hh <;> subst hh <;> simp
  refine ⟨rfl, rfl, rfl, rfl, rfl, rfl, rfl, rfl, rfl, ?_⟩
  simp only
  rw [len _ _ _ _ _ h4, len _ _ _ _ _ h3, len _ _ _ _ _ h2, len _ _ _ _ _ h1]

/-- Writing an intensity and reading the colour back on a well-formed 4-channel
texture. -/
theorem set_gray_get_rgba [One F] (K : ColorConstants F) (t : Texture F) (x y : Int) (v : F)
    (hw : t.well_formed) (hc : t.nrChannels = 4) (hb : t.in_bounds x y) :
    ∃ t', t.set_pixel_gray_scale x y v = some t'
      ∧ t'.get_pixel_color K x y = some { r := v, g := v, b := v, a := 1 } := by
  have hset := set_pixel_gray_scale_rgba t x y v hw hc hb
  refine ⟨_, hset, ?_⟩
  have hsh := set_pixel_gray_scale_frame _ _ x y v hset
  rw [get_pixel_color_rgba K _ x y (same_shape_well_formed _ _ hsh hw) hc
    (by unfold in_bounds at hb ⊢; exact hb)]
  exact read_write_rgba_same _ _ _ (t.rgba_block x y hw hc hb).2.1

/-- Claim C4, amended. For every texture built by the constructor with the 4-channel
format `GL_RGBA`, every in-bounds `(x, y)` and every colour `c`,
`set_pixel_color(x, y, c)` followed by `get_pixel_color(x, y)` returns `c`; on a
texture built with the 1-channel format `GL_DEPTH_COMPONENT` it returns
`(c.r, c.r, c.r, 1)`.  The constructor does build a texture for all non-negative
dimensions whose buffer size is representable as an `int`. -/
theorem set_get_pixel_color [Zero F] [One F] (K : ColorConstants F) (w h ifmt : Int)
    (cpu : Bool) (gl : GLContext) :
    (∀ t gl', create K w h ifmt GL_RGBA cpu gl = some (t, gl') →
        ∀ x y c, t.in_bounds x y →
          ∃ t', t.set_pixel_color x y c = some t' ∧ t'.get_pixel_color K x y = some c)
      ∧ (∀ t gl', create K w h ifmt GL_DEPTH_COMPONENT cpu gl = some (t, gl') →
        ∀ x y c, t.in_bounds x y →
          ∃ t', t.set_pixel_color x y c = some t'
            ∧ t'.get_pixel_color K x y = some { r := c.r, g := c.r, b := c.r, a := 1 })
      ∧ (0 ≤ w → 0 ≤ h → w * h * 4 ≤ INT_MAX →
          (create K w h ifmt GL_RGBA cpu gl).isSome = true
            ∧ (create K w h ifmt GL_DEPTH_COMPONENT cpu gl).isSome = true) := by
  refine ⟨fun t gl' hc x y c hb => ?_, fun t gl' hc x y c hb => ?_, fun hw hh hfit =>
    ⟨create_total K w h ifmt _ cpu gl hw hh hfit, create_total K w h ifmt _ cpu gl hw hh hfit⟩⟩
  · have hs := create_spec K w h ifmt _ cpu gl t gl' hc
    have hn := in_bounds_nonneg t x y hb
    rw [hs.2.2.2.2.2.1, hs.2.2.2.2.2.2.1] at hn
    exact set_get_rgba K t x y c (create_well_formed K w h ifmt _ cpu gl t gl' hc hn.1 hn.2)
      (by rw [hs.2.2.2.2.2.2.2.2.2.2.1]; decide) hb
  · have hs := create_spec K w h ifmt _ cpu gl t gl' hc
    have hn := in_bounds_nonneg t x y hb
    rw [hs.2.2.2.2.2.1, hs.2.2.2.2.2.2.1] at hn
    exact set_get_depth K t x y c (create_well_formed K w h ifmt _ cpu gl t gl' hc hn.1 hn.2)
      (by rw [hs.2.2.2.2.2.2.2.2.2.2.1]; decide) hb

/-- Concrete instance of C4 (amended): the pixel `(1, 1)` of `Texture(2, 2, true)`. -/
theorem set_get_pixel_color_witness :
    create sample_colors 2 2 GL_RGBA8 GL_RGBA true fresh_context
        = some (sample_texture, fresh_context)
      ∧ sample_texture.in_bounds 1 1
      ∧ ∃ t', sample_texture.set_pixel_color 1 1 { r := 0, g := 1, b := 0, a := 1 } = some t'
          ∧ t'.get_pixel_color sample_colors 1 1 = some { r := 0, g := 1, b := 0, a := 1 } :=
  ⟨by decide, by decide,
    (set_get_pixel_color sample_colors 2 2 GL_RGBA8 true fresh_context).1
      sample_texture fresh_context (by decide) 1 1 { r := 0, g := 1, b := 0, a := 1 } (by decide)⟩

/-- Claim C4, counterexample to the claim as stated: on the 1 x 1 texture built with the supported format
`GL_DEPTH_COMPONENT`, writing the colour `(0, 1, 0, 1)` at the in-bounds pixel `(0, 0)`
and reading it back returns `(0, 0, 0, 1)`. -/
theorem set_get_pixel_color_counterexample :
    ((create sample_colors 1 1 GL_DEPTH_COMPONENT32F GL_DEPTH_COMPONENT true fresh_context).bind
        fun p => (p.1.set_pixel_color 0 0 { r := 0, g := 1, b := 0, a := 1 }).bind
          fun t' => t'.get_pixel_color sample_colors 0 0)
      = some { r := 0, g := 0, b := 0, a := 1 }
    ∧ ({ r := 0, g := 0, b := 0, a := 1 } : Color Int) ≠ { r := 0, g := 1, b := 0, a := 1 } := by
  decide

/-- Claim C5. For every texture and every coordinate outside `[0,width) x [0,height)`,
`set_pixel_color` leaves the whole texture state as it was: the pixel buffer, width,
height, format, channel count and GPU handle are the same as before the call. -/
theorem set_pixel_color_out_of_bounds (t : Texture F) (x y : Int) (c : Color F)
    (h : ¬ t.in_bounds x y) : t.set_pixel_color x y c = some t := by
  unfold set_pixel_color get_width get_height
  rw [if_pos]
  unfold in_bounds at h
  omega

/-- Concrete instance of C5: the coordinate `(2, 0)` of `Texture(2, 2, true)`. -/
theorem set_pixel_color_out_of_bounds_witness :
    ¬ sample_texture.in_bounds 2 0
      ∧ sample_texture.set_pixel_color 2 0 { r := 0, g := 1, b := 0, a := 1 }
          = some sample_texture :=
  ⟨by decide, set_pixel_color_out_of_bounds sample_texture 2 0 _ (by decide)⟩

/-- Claim C6, evaluation of the code at the failing input: on `Texture(2, 2, true)` the call `set_pixel_gray_scale(2, 0, 0)`
with the out-of-bounds coordinate `(2, 0)` overwrites the in-bounds pixel `(0, 1)`,
which is white before the call and `(0, 0, 0, 1)` after it. -/
theorem set_pixel_gray_scale_out_of_bounds_writes :
    ¬ sample_texture.in_bounds 2 0
      ∧ sample_texture.in_bounds 0 1
      ∧ sample_texture.get_pixel_color sample_colors 0 1 = some { r := 1, g := 1, b := 1, a := 1 }
      ∧ sample_texture.set_pixel_gray_scale 2 0 0
          = some { sample_texture with
              texture_data := [1, 1, 1, 1, 1, 1, 1, 1, 0, 0, 0, 1, 1, 1, 1, 1] }
      ∧ ((sample_texture.set_pixel_gray_scale 2 0 0).bind
          fun t' => t'.get_pixel_color sample_colors 0 1) = some { r := 0, g := 0, b := 0, a := 1 } := by
  decide

/-- Claim C7. For every texture and every coordinate outside `[0,width) x [0,height)`,
whatever the pixel buffer holds, `get_pixel_color` returns `Color::BLACK` and
`get_pixel_gray_scale` returns 0. -/
theorem get_pixel_out_of_bounds [Zero F] [One F] [Add F] [Div F] [OfNat F 3]
    (K : ColorConstants F) (t : Texture F) (x y : Int) (h : ¬ t.in_bounds x y) :
    t.get_pixel_color K x y = some K.BLACK ∧ t.get_pixel_gray_scale K x y = some 0 := by
  have hb : x < 0 ∨ x ≥ t.width ∨ y < 0 ∨ y ≥ t.height := by
    unfold in_bounds at h
    omega
  unfold get_pixel_gray_scale get_pixel_color get_width get_height
  rw [if_pos hb, if_pos hb]
  exact ⟨rfl, rfl⟩

/-- Concrete instance of C7: the coordinate `(0, -1)` of `Texture(2, 2, true)`. -/
theorem get_pixel_out_of_bounds_witness :
    ¬ sample_texture.in_bounds 0 (-1)
      ∧ sample_texture.get_pixel_color sample_colors 0 (-1) = some sample_colors.BLACK
      ∧ sample_texture.get_pixel_gray_scale sample_colors 0 (-1) = some 0 :=
  ⟨by decide, get_pixel_out_of_bounds sample_colors sample_texture 0 (-1) (by decide)⟩

/-- Claim C8. For every 4-channel texture (a well-formed texture with `nrChannels = 4`,
as the constructor builds for `GL_RGBA` and the pixel writes keep), every in-bounds
`(x, y)` and every intensity `v`, `set_pixel_gray_scale(x, y, v)` followed by
`get_pixel_color(x, y)` returns the colour with `r = g = b = v` and `a = 1`. -/
theorem set_gray_scale_get_pixel_color [Zero F] [One F] (K : ColorConstants F) :
    (∀ (t : Texture F) (x y : Int) (v : F),
        t.well_formed → t.nrChannels = 4 → t.in_bounds x y →
        ∃ t', t.set_pixel_gray_scale x y v = some t'
          ∧ t'.get_pixel_color K x y = some { r := v, g := v, b := v, a := 1 })
      ∧ (∀ (w h ifmt : Int) (cpu : Bool) (gl : GLContext) (t : Texture F) (gl' : GLContext),
          create K w h ifmt GL_RGBA cpu gl = some (t, gl') → 0 ≤ w → 0 ≤ h →
          t.well_formed ∧ t.nrChannels = 4 ∧ t.format = GL_RGBA)
      ∧ (∀ (t t' : Texture F) (x y : Int) (c : Color F) (v : F),
          t.well_formed → t.nrChannels = 4 →
          (t.set_pixel_color x y c = some t' ∨ t.set_pixel_gray_scale x y v = some t') →
          t'.well_formed ∧ t'.nrChannels = 4) := by
  refine ⟨fun t x y v hw hc hb => set_gray_get_rgba K t x y v hw hc hb, ?_, ?_⟩
  · intro w h ifmt cpu gl t gl' hc hw hh
    have hs := create_spec K w h ifmt _ cpu gl t gl' hc
    exact ⟨create_well_formed K w h ifmt _ cpu gl t gl' hc hw hh,
      by rw [hs.2.2.2.2.2.2.2.2.2.2.1]; decide, hs.2.2.2.2.2.2.2.2.1⟩
  · rintro t t' x y c v hw hc (h | h)
    · have hsh := set_pixel_color_frame t t' x y c h
      exact ⟨same_shape_well_formed _ _ hsh hw, hsh.2.2.2.2.2.2.2.1.trans hc⟩
    · have hsh := set_pixel_gray_scale_frame t t' x y v h
      exact ⟨same_shape_well_formed _ _ hsh hw, hsh.2.2.2.2.2.2.2.1.trans hc⟩

/-- Concrete instance of C8: the pixel `(1, 0)` of `Texture(2, 2, true)`. -/
theorem set_gray_scale_get_pixel_color_witness :
    sample_texture.well_formed ∧ sample_texture.nrChannels = 4 ∧ sample_texture.in_bounds 1 0
      ∧ ∃ t', sample_texture.set_pixel_gray_scale 1 0 0 = some t'
          ∧ t'.get_pixel_color sample_colors 1 0 = some { r := 0, g := 0, b := 0, a := 1 } :=
  ⟨by decide, by decide, by decide,
    (set_gray_scale_get_pixel_color sample_colors).1 sample_texture 1 0 0
      (by decide) (by decide) (by decide)⟩

/-- The constructor allocates `width * height * 4` floats whatever the format. -/
theorem create_buffer_length [Zero F] (K : ColorConstants F) (w h ifmt : Int) (fmt : Nat)
    (cpu : Bool) (gl : GLContext) (t : Texture F) (gl' : GLContext)
    (hc : create K w h ifmt fmt cpu gl = some (t, gl')) :
    (t.texture_data.length : Int) = w * h * 4 := by
  have hs := create_spec K w h ifmt fmt cpu gl t gl' hc
  rw [hs.2.2.1, Int.toNat_of_nonneg hs.1]

/-- Claim C9, evaluation of the code at the failing input: the constructor called with width 1, height 1 and the
1-channel format `GL_DEPTH_COMPONENT` yields a texture with `nrChannels = 1` whose
pixel buffer holds 4 floats, not `1 * 1 * 1`. -/
theorem create_depth_buffer_length :
    (create sample_colors 1 1 GL_DEPTH_COMPONENT32F GL_DEPTH_COMPONENT true fresh_context).map
        (fun p => (p.1.width, p.1.height, p.1.nrChannels, p.1.texture_data.length))
      = some (1, 1, 1, 4) := by
  decide

/-- Claim C10. For every texture built by the constructor with the colour format
`GL_RGBA`, `get_pixel_color(x, y)` returns `Color::WHITE` for every in-bounds
`(x, y)`; and the constructor does build a texture for all `width, height >= 0`
(whose buffer size is representable as an `int`). -/
theorem create_all_white [Zero F] [One F] (K : ColorConstants F) (w h ifmt : Int)
    (cpu : Bool) (gl : GLContext) :
    (∀ t gl', create K w h ifmt GL_RGBA cpu gl = some (t, gl') →
        ∀ x y, t.in_bounds x y → t.get_pixel_color K x y = some K.WHITE)
      ∧ (0 ≤ w → 0 ≤ h → w * h * 4 ≤ INT_MAX →
          (create K w h ifmt GL_RGBA cpu gl).isSome = true) := by
  refine ⟨fun t gl' hc x y hb => ?_, create_total K w h ifmt _ cpu gl⟩
  have hs := create_spec K w h ifmt _ cpu gl t gl' hc
  have hn := in_bounds_nonneg t x y hb
  have hw : t.width = w := hs.2.2.2.2.2.1
  have hh : t.height = h := hs.2.2.2.2.2.2.1
  rw [hw, hh] at hn
  rw [get_pixel_color_rgba K t x y (create_well_formed K w h ifmt _ cpu gl t gl' hc hn.1 hn.2)
    (by rw [hs.2.2.2.2.2.2.2.2.2.2.1]; decide) hb]
  obtain ⟨hx0, hx1, hy0, hy1⟩ := hb
  rw [hw] at hx1
  rw [hh] at hy1
  have := hs.2.2.2.2.2.2.2.2.2.2.2.2 x y hx0 hx1 hy0 hy1
  unfold pixel_number
  rw [hw]
  exact this

/-- Concrete instance of C10: the pixel `(0, 1)` of `Texture(2, 2, true)`. -/
theorem create_all_white_witness :
    (create sample_colors 2 2 GL_RGBA8 GL_RGBA true fresh_context).isSome = true
      ∧ sample_texture.in_bounds 0 1
      ∧ sample_texture.get_pixel_color sample_colors 0 1 = some sample_colors.WHITE :=
  ⟨(create_all_white sample_colors 2 2 GL_RGBA8 true fresh_context).2
      (by decide) (by decide) (by decide),
    by decide,
    (create_all_white sample_colors 2 2 GL_RGBA8 true fresh_context).1
      sample_texture fresh_context (by decide) 0 1 (by decide)⟩

end Texture

/-! ## Construction, copy and move of geometries -/

namespace Geometry_Base
variable {F : Type}

/-- The friend function `swap` exchanges every member: the two objects trade places. -/
theorem swap_eq (first second : Geometry_Base F) : swap first second = (second, first) := rfl

/-- The empty geometry `Geometry()` is the default-constructed `Geometry_Base()`. -/
theorem geometry_default_construct :
    (Geometry.default_construct : Option (Geometry_Base F)) = some default_construct := by
  have hs : stride_of 0 = 0 := by decide
  unfold Geometry.default_construct from_counts
  simp only [Option.bind_eq_bind, hs, mul_zero,
    checked_of_range 0 (by decide) (by decide), Option.some_bind]
  rfl

/-- What the counts constructor stores. -/
theorem from_counts_eq_some (mode : Nat) (epv vc ic pl nl tl tal bl : Int)
    (g : Geometry_Base F) (h : from_counts mode epv vc ic pl nl tl tal bl = some g) :
    g = { mode := mode, elements_per_vertex := epv, vertex_buffer_stride := stride_of epv,
          vertex_buffer_size := vc * stride_of epv,
          patch_vertices := (if mode = GL_PATCHES then 16 else 0),
          draw_elements_count := ic, draw_arrays_count := vc,
          position_loc := pl, normal_loc := nl, tex_coord_loc := tl, tangent_loc := tal,
          bitangent_loc := bl } := by
  unfold from_counts at h
  simp only [Option.bind_eq_bind, Option.bind_eq_some, Option.some.injEq] at h
  obtain ⟨size, hsize, hg⟩ := h
  obtain ⟨rfl, -, -⟩ := checked_eq_some _ _ hsize
  subst hg
  unfold init_patches_count
  split_ifs <;> rfl

/-- The counts constructor yields a geometry when the byte size fits an `int`. -/
theorem from_counts_isSome (mode : Nat) (epv vc ic pl nl tl tal bl : Int)
    (h0 : INT_MIN ≤ vc * stride_of epv) (h1 : vc * stride_of epv ≤ INT_MAX) :
    (from_counts mode epv vc ic pl nl tl tal bl : Option (Geometry_Base F)).isSome = true := by
  unfold from_counts
  simp only [Option.bind_eq_bind, checked_of_range _ h0 h1, Option.some_bind,
    Option.isSome_some]

/-- The mode and the patch count the separate-arrays constructor stores. -/
theorem from_arrays_patch_vertices (mode : Nat)
    (positions normals tex_coords tangents bitangents : List F) (indices : List Nat)
    (pl nl tl tal bl : Int) (g : Geometry_Base F)
    (h : from_arrays mode positions normals tex_coords tangents bitangents indices
      pl nl tl tal bl = some g) :
    g.mode = mode ∧ g.patch_vertices = (if mode = GL_PATCHES then 16 else 0) := by
  unfold from_arrays at h
  simp only [Option.bind_eq_bind, Option.bind_eq_some] at h
  obtain ⟨iv, -, size, -, hg⟩ := h
  simp only [Option.some.injEq] at hg
  subst hg
  unfold init_patches_count
  split_ifs <;> exact ⟨rfl, rfl⟩

/-- The commands of `draw`, in order. -/
theorem draw_calls (g : Geometry_Base F) (gl : GLContext) :
    (g.draw gl).calls = gl.calls ++ [GLCall.BindVertexArray g.vao]
      ++ (if g.mode = GL_PATCHES then
            [GLCall.PatchParameteri GL_PATCH_VERTICES g.patch_vertices] else [])
      ++ [if g.draw_elements_count > 0 then
            GLCall.DrawElements g.mode g.draw_elements_count GL_UNSIGNED_INT 0
          else GLCall.DrawArrays g.mode 0 g.draw_arrays_count] := by
  unfold draw bind_vao glBindVertexArray glPatchParameteri glDrawElements glDrawArrays
    GLContext.issue
  split_ifs <;> simp

/-- The commands of `draw_instanced`, in order. -/
theorem draw_instanced_calls (g : Geometry_Base F) (count : Int) (gl : GLContext) :
    (g.draw_instanced count gl).calls = gl.calls ++ [GLCall.BindVertexArray g.vao]
      ++ (if g.mode = GL_PATCHES then
            [GLCall.PatchParameteri GL_PATCH_VERTICES g.patch_vertices] else [])
      ++ [if g.draw_elements_count > 0 then
            GLCall.DrawElementsInstanced g.mode g.draw_elements_count GL_UNSIGNED_INT 0 count
          else GLCall.DrawArraysInstanced g.mode 0 g.draw_arrays_count count] := by
  unfold draw_instanced bind_vao glBindVertexArray glPatchParameteri
    glDrawElementsInstanced glDrawArraysInstanced GLContext.issue
  split_ifs <;> simp

/-- Claim C14. For every geometry `g`, move construction from `g`, by
`Geometry_Base(Geometry_Base&&)` and by `Geometry(Geometry&&)` alike, yields a
destination equal to `g` in every member (the handles `vao`, `vertex_buffer`,
`index_buffer`, and the mode, vertex data, `elements_per_vertex`, stride, buffer
size, draw counts, patch count and attribute locations) and leaves `g` as the empty
geometry: no vertex data, `draw_arrays_count = 0`, `draw_elements_count = 0` and all
three GPU handles 0. -/
theorem geometry_move_construct_transfers (g : Geometry_Base F) :
    (move_construct g).1 = g
      ∧ Geometry.move_construct g = some (move_construct g)
      ∧ (move_construct g).2.interleaved_vertices = []
      ∧ (move_construct g).2.draw_arrays_count = 0
      ∧ (move_construct g).2.draw_elements_count = 0
      ∧ (move_construct g).2.vao = 0
      ∧ (move_construct g).2.vertex_buffer = 0
      ∧ (move_construct g).2.index_buffer = 0
      ∧ (move_construct g).2 = default_construct :=
  ⟨rfl, by
    unfold Geometry.move_construct
    rw [geometry_default_construct]
    rfl, rfl, rfl, rfl, rfl, rfl, rfl, rfl⟩

/-- Claim C15. For every geometry `g`, the copy constructor of `Geometry_Base` yields
an object whose mode, interleaved vertex data, `elements_per_vertex`, stride, buffer
size, `draw_arrays_count`, `draw_elements_count`, `patch_vertices` and five attribute
locations equal those of `g`, and whose handles `vao`, `vertex_buffer` and
`index_buffer` are 0: whenever one of these handles of `g` is non-zero, the handle of
the copy differs from it. -/
theorem copy_construct_cpu_data (g : Geometry_Base F) :
    (copy_construct g).mode = g.mode
      ∧ (copy_construct g).interleaved_vertices = g.interleaved_vertices
      ∧ (copy_construct g).elements_per_vertex = g.elements_per_vertex
      ∧ (copy_construct g).vertex_buffer_stride = g.vertex_buffer_stride
      ∧ (copy_construct g).vertex_buffer_size = g.vertex_buffer_size
      ∧ (copy_construct g).draw_arrays_count = g.draw_arrays_count
      ∧ (copy_construct g).draw_elements_count = g.draw_elements_count
      ∧ (copy_construct g).patch_vertices = g.patch_vertices
      ∧ (copy_construct g).position_loc = g.position_loc
      ∧ (copy_construct g).normal_loc = g.normal_loc
      ∧ (copy_construct g).tex_coord_loc = g.tex_coord_loc
      ∧ (copy_construct g).tangent_loc = g.tangent_loc
      ∧ (copy_construct g).bitangent_loc = g.bitangent_loc
      ∧ (copy_construct g).vao = 0
      ∧ (copy_construct g).vertex_buffer = 0
      ∧ (copy_construct g).index_buffer = 0
      ∧ (g.vao ≠ 0 → (copy_construct g).vao ≠ g.vao)
      ∧ (g.vertex_buffer ≠ 0 → (copy_construct g).vertex_buffer ≠ g.vertex_buffer)
      ∧ (g.index_buffer ≠ 0 → (copy_construct g).index_buffer ≠ g.index_buffer) :=
  ⟨rfl, rfl, rfl, rfl, rfl, rfl, rfl, rfl, rfl, rfl, rfl, rfl, rfl, rfl, rfl, rfl,
    fun h => Ne.symm h, fun h => Ne.symm h, fun h => Ne.symm h⟩

/-- Concrete instance of C15: a triangle with live handles 3, 1 and 2. -/
theorem copy_construct_cpu_data_witness :
    sample_geometry.vao ≠ 0
      ∧ (copy_construct sample_geometry).vao ≠ sample_geometry.vao
      ∧ (copy_construct sample_geometry).interleaved_vertices
          = [0, 0, 0, 1, 0, 0, 0, 1, 0] :=
  ⟨by decide,
    (copy_construct_cpu_data sample_geometry).2.2.2.2.2.2.2.2.2.2.2.2.2.2.2.2.1 (by decide),
    (copy_construct_cpu_data sample_geometry).2.1⟩

/-- Claim C20. For every geometry whose mode is `GL_PATCHES`, `draw` and
`draw_instanced` issue `glPatchParameteri(GL_PATCH_VERTICES, patch_vertices)` as the
command immediately before the draw command; for every other mode they issue no
patch-size command.  Both constructors of `Geometry_Base` that take a mode leave
`patch_vertices = 16` when the mode is `GL_PATCHES` and `patch_vertices = 0` for
every other mode: every geometry they build has these values, the separate-arrays
constructor does build one when every non-empty attribute list holds at least
`positions.size()/3` records and the byte size of the buffer is representable as an
`int`, and the counts constructor does build one when the byte size is representable
as an `int`. -/
theorem patch_size_before_draw (g : Geometry_Base F) (count : Int) (gl : GLContext) :
    (g.mode = GL_PATCHES →
        (g.draw gl).calls = gl.calls ++
          [GLCall.BindVertexArray g.vao,
           GLCall.PatchParameteri GL_PATCH_VERTICES g.patch_vertices,
           if g.draw_elements_count > 0 then
             GLCall.DrawElements g.mode g.draw_elements_count GL_UNSIGNED_INT 0
           else GLCall.DrawArrays g.mode 0 g.draw_arrays_count]
        ∧ (g.draw_instanced count gl).calls = gl.calls ++
          [GLCall.BindVertexArray g.vao,
           GLCall.PatchParameteri GL_PATCH_VERTICES g.patch_vertices,
           if g.draw_elements_count > 0 then
             GLCall.DrawElementsInstanced g.mode g.draw_elements_count GL_UNSIGNED_INT 0 count
           else GLCall.DrawArraysInstanced g.mode 0 g.draw_arrays_count count])
      ∧ (g.mode ≠ GL_PATCHES →
        (g.draw gl).calls = gl.calls ++
          [GLCall.BindVertexArray g.vao,
           if g.draw_elements_count > 0 then
             GLCall.DrawElements g.mode g.draw_elements_count GL_UNSIGNED_INT 0
           else GLCall.DrawArrays g.mode 0 g.draw_arrays_count]
        ∧ (g.draw_instanced count gl).calls = gl.calls ++
          [GLCall.BindVertexArray g.vao,
           if g.draw_elements_count > 0 then
             GLCall.DrawElementsInstanced g.mode g.draw_elements_count GL_UNSIGNED_INT 0 count
           else GLCall.DrawArraysInstanced g.mode 0 g.draw_arrays_count count])
      ∧ (∀ (mode : Nat) (positions normals tex_coords tangents bitangents : List F)
          (indices : List Nat) (pl nl tl tal bl : Int),
          (∀ c : Geometry_Base F,
              from_arrays mode positions normals tex_coords tangents bitangents indices
                pl nl tl tal bl = some c →
              c.mode = mode ∧ c.patch_vertices = (if mode = GL_PATCHES then 16 else 0))
            ∧ (holds_records normals 3 (positions.length / 3) →
                holds_records tex_coords 2 (positions.length / 3) →
                holds_records tangents 3 (positions.length / 3) →
                holds_records bitangents 3 (positions.length / 3) →
                ((positions.length / 3 : Nat) : Int)
                  * (4 * (record_width normals tex_coords tangents bitangents : Nat))
                  ≤ INT_MAX →
                ∃ c : Geometry_Base F,
                  from_arrays mode positions normals tex_coords tangents bitangents indices
                    pl nl tl tal bl = some c
                  ∧ c.mode = mode
                  ∧ c.patch_vertices = (if mode = GL_PATCHES then 16 else 0)))
      ∧ (∀ (mode : Nat) (epv vc ic pl nl tl tal bl : Int),
          (∀ c : Geometry_Base F, from_counts mode epv vc ic pl nl tl tal bl = some c →
              c.mode = mode ∧ c.patch_vertices = (if mode = GL_PATCHES then 16 else 0))
            ∧ (INT_MIN ≤ vc * stride_of epv → vc * stride_of epv ≤ INT_MAX →
                ∃ c : Geometry_Base F, from_counts mode epv vc ic pl nl tl tal bl = some c
                  ∧ c.mode = mode
                  ∧ c.patch_vertices = (if mode = GL_PATCHES then 16 else 0))) := by
  have hcounts : ∀ (mode : Nat) (epv vc ic pl nl tl tal bl : Int) (c : Geometry_Base F),
      from_counts mode epv vc ic pl nl tl tal bl = some c →
      c.mode = mode ∧ c.patch_vertices = (if mode = GL_PATCHES then 16 else 0) := by
    intro mode epv vc ic pl nl tl tal bl c hc
    rw [from_counts_eq_some mode epv vc ic pl nl tl tal bl c hc]
    exact ⟨rfl, rfl⟩
  refine ⟨fun hm => ?_, fun hm => ?_, ?_, ?_⟩
  · rw [draw_calls, draw_instanced_calls, if_pos hm]
    simp
  · rw [draw_calls, draw_instanced_calls, if_neg hm]
    simp
  · intro mode positions normals tex_coords tangents bitangents indices pl nl tl tal bl
    refine ⟨fun c hc => from_arrays_patch_vertices mode positions normals tex_coords tangents
      bitangents indices pl nl tl tal bl c hc, fun hn ht hta hb hfit => ?_⟩
    obtain ⟨c, hc⟩ := Option.isSome_iff_exists.1
      (from_arrays_isSome mode positions normals tex_coords tangents bitangents indices
        pl nl tl tal bl hn ht hta hb hfit)
    exact ⟨c, hc, from_arrays_patch_vertices mode positions normals tex_coords tangents
      bitangents indices pl nl tl tal bl c hc⟩
  · intro mode epv vc ic pl nl tl tal bl
    refine ⟨hcounts mode epv vc ic pl nl tl tal bl, fun h0 h1 => ?_⟩
    obtain ⟨c, hc⟩ := Option.isSome_iff_exists.1
      (from_counts_isSome mode epv vc ic pl nl tl tal bl h0 h1 :
        (from_counts mode epv vc ic pl nl tl tal bl : Option (Geometry_Base F)).isSome = true)
    exact ⟨c, hc, hcounts mode epv vc ic pl nl tl tal bl c hc⟩

/-- Concrete instance of C20: the separate-arrays constructor with the mode
`GL_PATCHES` on two vertices with texture coordinates builds a geometry with
`patch_vertices = 16`, and with the mode 4 one with `patch_vertices = 0`; the counts
constructor builds the patch geometry of 16 vertices; and the draw commands of that
geometry once its `vao` is 5. -/
theorem patch_size_before_draw_witness :
    sample_patches.mode = GL_PATCHES
      ∧ (∃ c : Geometry_Base Int,
          from_arrays GL_PATCHES ([1, 2, 3, 4, 5, 6] : List Int) [] [7, 8, 9, 10] [] []
            [0, 1] 0 1 2 3 4 = some c
          ∧ c.mode = GL_PATCHES ∧ c.patch_vertices = 16)
      ∧ (∃ c : Geometry_Base Int,
          from_arrays 4 ([1, 2, 3, 4, 5, 6] : List Int) [] [7, 8, 9, 10] [] []
            [0, 1] 0 1 2 3 4 = some c
          ∧ c.mode = 4 ∧ c.patch_vertices = 0)
      ∧ from_counts GL_PATCHES 3 16 0 0 1 2 3 4 = some { sample_patches with vao := 0 }
      ∧ sample_patches.patch_vertices = 16
      ∧ (sample_patches.draw fresh_context).calls =
          [GLCall.BindVertexArray 5, GLCall.PatchParameteri GL_PATCH_VERTICES 16,
           GLCall.DrawArrays GL_PATCHES 0 16] :=
  ⟨by decide,
    (((patch_size_before_draw sample_patches 1 fresh_context).2.2.1 GL_PATCHES
      ([1, 2, 3, 4, 5, 6] : List Int) [] [7, 8, 9, 10] [] [] [0, 1] 0 1 2 3 4).2
      (by decide) (by decide) (by decide) (by decide) (by decide)).imp
      fun _ h => ⟨h.1, h.2.1, h.2.2.trans (if_pos rfl)⟩,
    (((patch_size_before_draw sample_patches 1 fresh_context).2.2.1 4
      ([1, 2, 3, 4, 5, 6] : List Int) [] [7, 8, 9, 10] [] [] [0, 1] 0 1 2 3 4).2
      (by decide) (by decide) (by decide) (by decide) (by decide)).imp
      fun _ h => ⟨h.1, h.2.1, h.2.2.trans (if_neg (by decide))⟩,
    by decide,
    (((patch_size_before_draw sample_patches 1 fresh_context).2.2.2 GL_PATCHES 3 16 0 0 1 2 3 4).1
      { sample_patches with vao := 0 } (by decide)).2,
    ((patch_size_before_draw sample_patches 1 fresh_context).1 (by decide)).1⟩

end Geometry_Base

/-! ## Copy and move of textures -/

namespace Texture
variable {F : Type}

/-- The texture `Texture(0, 0, internal_format, format, cpu_only)`: no pixel, no GPU
object, no command issued. -/
theorem create_empty [Zero F] (K : ColorConstants F) (ifmt : Int) (fmt : Nat) (cpu : Bool)
    (gl : GLContext) :
    create K 0 0 ifmt fmt cpu gl
      = some ({ opengl_object := 0, target := GL_TEXTURE_2D, width := 0, height := 0,
                internal_format := to_GLenum ifmt, format := fmt, type := GL_FLOAT,
                nrChannels := (if fmt = GL_DEPTH_COMPONENT then 1 else 4),
                cpu_only := cpu, texture_data := [] }, gl) := by
  unfold create create_cpu_representation
  simp only [mul_zero, zero_mul, checked_of_range 0 (by decide) (by decide),
    Option.bind_eq_bind, Option.some_bind, lt_self_iff_false, if_false, Int.toNat_zero,
    List.replicate_zero, for_int_nonpos 0 (le_refl 0)]
  unfold determine_channels create_gpu_representation
  split_ifs <;> simp_all

/-- The members of a copy-constructed texture. -/
theorem copy_construct_fields (t : Texture F) (gl : GLContext) :
    (copy_construct t gl).1.width = t.width
      ∧ (copy_construct t gl).1.height = t.height
      ∧ (copy_construct t gl).1.internal_format = t.internal_format
      ∧ (copy_construct t gl).1.format = t.format
      ∧ (copy_construct t gl).1.nrChannels = 4
      ∧ (copy_construct t gl).1.cpu_only = t.cpu_only
      ∧ (copy_construct t gl).1.texture_data = t.texture_data := by
  unfold copy_construct
  dsimp only
  split_ifs <;> exact ⟨rfl, rfl, rfl, rfl, rfl, rfl, rfl⟩

/-- The colour `get_pixel_color` returns depends on the width, the height, the channel
count and the pixel buffer only. -/
theorem get_pixel_color_congr [One F] (K : ColorConstants F) (t t' : Texture F) (x y : Int)
    (hw : t'.width = t.width) (hh : t'.height = t.height)
    (hc : t'.nrChannels = t.nrChannels) (hd : t'.texture_data = t.texture_data) :
    t'.get_pixel_color K x y = t.get_pixel_color K x y := by
  unfold get_pixel_color get_pixel_color_fast get_index get_width get_height
  rw [hw, hh, hc, hd]

/-- A copy of a 4-channel texture reads the same colours as the texture. -/
theorem copy_construct_get_pixel_color_rgba [One F] (K : ColorConstants F) (t : Texture F)
    (gl : GLContext) (hc : t.nrChannels = 4) (x y : Int) :
    (copy_construct t gl).1.get_pixel_color K x y = t.get_pixel_color K x y := by
  obtain ⟨h1, h2, -, -, h5, -, h7⟩ := copy_construct_fields t gl
  exact get_pixel_color_congr K t _ x y h1 h2 (h5.trans hc.symm) h7

/-- Claim C11, evaluation of the code at the failing input: the 2 x 1 texture built
with `GL_DEPTH_COMPONENT` has one channel (also after a pixel write), and both its
copy-constructed copy and the target of a copy assignment from it have the format
`GL_DEPTH_COMPONENT` with `nrChannels = 4`. -/
theorem copy_construct_depth_channels :
    ((create sample_colors 2 1 GL_DEPTH_COMPONENT32F GL_DEPTH_COMPONENT true
          fresh_context).bind
        fun p => p.1.set_pixel_color 1 0 { r := 0, g := 0, b := 0, a := 1 })
        = some sample_depth_texture
      ∧ sample_depth_texture.format = GL_DEPTH_COMPONENT
      ∧ sample_depth_texture.nrChannels = 1
      ∧ (copy_construct sample_depth_texture fresh_context).1.format = GL_DEPTH_COMPONENT
      ∧ (copy_construct sample_depth_texture fresh_context).1.nrChannels = 4
      ∧ (copy_assign sample_texture sample_depth_texture fresh_context).1.format
          = GL_DEPTH_COMPONENT
      ∧ (copy_assign sample_texture sample_depth_texture fresh_context).1.nrChannels = 4 := by
  decide

/-- Claim C12, evaluation of the code at the failing input: on the 2 x 1 texture
built with `GL_DEPTH_COMPONENT` and written once, the in-bounds pixel `(0, 0)` reads
`(1, 1, 1, 1)` on the texture and `(1, 0, 1, 1)` on its copy, and the pixel `(1, 0)`
reads `(0, 0, 0, 1)` on the texture and `(1, 1, 1, 1)` on its copy. -/
theorem copy_construct_depth_pixels :
    sample_depth_texture.in_bounds 0 0 ∧ sample_depth_texture.in_bounds 1 0
      ∧ (copy_construct sample_depth_texture fresh_context).1.width = 2
      ∧ (copy_construct sample_depth_texture fresh_context).1.height = 1
      ∧ (copy_construct sample_depth_texture fresh_context).1.texture_data
          = sample_depth_texture.texture_data
      ∧ sample_depth_texture.get_pixel_color sample_colors 0 0
          = some { r := 1, g := 1, b := 1, a := 1 }
      ∧ (copy_construct sample_depth_texture fresh_context).1.get_pixel_color sample_colors 0 0
          = some { r := 1, g := 0, b := 1, a := 1 }
      ∧ sample_depth_texture.get_pixel_color sample_colors 1 0
          = some { r := 0, g := 0, b := 0, a := 1 }
      ∧ (copy_construct sample_depth_texture fresh_context).1.get_pixel_color sample_colors 1 0
          = some { r := 1, g := 1, b := 1, a := 1 } := by
  decide

end Texture

/-! ## Uniform buffer objects -/

/-- The data store after one more command. -/
theorem buffer_store_append (calls : List GLCall) (c : GLCall) (name : Nat) :
    buffer_store (calls ++ [c]) name = buffer_store_step name (buffer_store calls name) c := by
  unfold buffer_store
  rw [List.foldl_append]
  rfl

namespace UBO
variable {T : Type}

/-- The bytes of the whole CPU record. -/
theorem data_bytes_of_ne_nil (L : TypeInfo T) (data : List T) (h : data ≠ []) :
    data_bytes L data = (data.map L.bytes).flatten := by
  unfold data_bytes
  cases data with
  | nil => exact absurd rfl h
  | cons a l => rfl

/-- The upload of a non-empty record by an object created with the dynamic-storage
flag: one `glNamedBufferSubData` of the whole record at offset 0. -/
theorem update_opengl_data_eq_some (L : TypeInfo T) (u : UBO T) (gl : GLContext)
    (hf : u.flags &&& GL_DYNAMIC_STORAGE_BIT = GL_DYNAMIC_STORAGE_BIT) (hd : u.data ≠ []) :
    u.update_opengl_data L gl
      = some (gl.issue (GLCall.NamedBufferSubData u.opengl_object 0 (byte_size L u.data)
          (data_bytes L u.data))) := by
  unfold update_opengl_data glNamedBufferSubData
  rw [if_pos hf, data_bytes_of_ne_nil L u.data hd]
  cases hdata : u.data with
  | nil => exact absurd hdata hd
  | cons a l => rfl

/-- The store of a buffer after a full overwrite at offset 0. -/
theorem buffer_store_full_overwrite (calls : List GLCall) (name : Nat) (st : BufferStore)
    (data : List Nat) (hs : buffer_store calls name = some st)
    (hf : st.flags &&& GL_DYNAMIC_STORAGE_BIT = GL_DYNAMIC_STORAGE_BIT)
    (hlen : st.contents.length = st.size) :
    buffer_store (calls ++ [GLCall.NamedBufferSubData name 0 st.size data]) name
      = some { st with contents := data } := by
  rw [buffer_store_append, hs]
  unfold buffer_store_step
  simp only
  rw [if_pos ⟨trivial, hf, le_refl 0, by simp⟩]
  simp [← hlen]

/-- What `update_opengl_data` does on every UBO: it fails its assertion exactly when
the member `flags` does not contain `GL_DYNAMIC_STORAGE_BIT`.  When the assertion
holds and `data` is non-empty it issues one `glNamedBufferSubData` that writes the
`sizeof(T) * data.size()` bytes of the CPU data at offset 0 (and no command when
`data` is empty); on a buffer whose store has that size and was created with
`GL_DYNAMIC_STORAGE_BIT`, the store afterwards holds the bytes of the CPU record in
full. -/
theorem update_opengl_data_full_record (L : TypeInfo T) (u : UBO T) (gl : GLContext) :
    (u.update_opengl_data L gl = none
        ↔ u.flags &&& GL_DYNAMIC_STORAGE_BIT ≠ GL_DYNAMIC_STORAGE_BIT)
      ∧ (u.flags &&& GL_DYNAMIC_STORAGE_BIT = GL_DYNAMIC_STORAGE_BIT → u.data ≠ [] →
          u.update_opengl_data L gl
            = some (gl.issue (GLCall.NamedBufferSubData u.opengl_object 0
                (byte_size L u.data) (data_bytes L u.data))))
      ∧ (u.flags &&& GL_DYNAMIC_STORAGE_BIT = GL_DYNAMIC_STORAGE_BIT → u.data = [] →
          u.update_opengl_data L gl = some gl)
      ∧ (∀ st : BufferStore,
          u.flags &&& GL_DYNAMIC_STORAGE_BIT = GL_DYNAMIC_STORAGE_BIT → u.data ≠ [] →
          buffer_store gl.calls u.opengl_object = some st →
          st.flags &&& GL_DYNAMIC_STORAGE_BIT = GL_DYNAMIC_STORAGE_BIT →
          st.size = byte_size L u.data → st.contents.length = st.size →
          ∃ gl', u.update_opengl_data L gl = some gl'
            ∧ buffer_store gl'.calls u.opengl_object
                = some { st with contents := data_bytes L u.data }) := by
  refine ⟨?_, update_opengl_data_eq_some L u gl, ?_, ?_⟩
  · unfold update_opengl_data
    split_ifs with h1 h2 <;> simp [h1]
  · intro hf hd
    unfold update_opengl_data
    rw [if_pos hf, hd]
    rfl
  · intro st hf hd hs hsf hsize hlen
    refine ⟨_, update_opengl_data_eq_some L u gl hf hd, ?_⟩
    rw [← hsize]
    exact buffer_store_full_overwrite gl.calls u.opengl_object st _ hs hsf hlen

/-- The store the constructor `UBO(flags)` creates, in a context in which the next
name has no store yet. -/
theorem create_store (L : TypeInfo T) (flags : Nat) (gl : GLContext)
    (hfresh : buffer_store gl.calls (gl.last_name + 1) = none)
    (hpos : 0 < byte_size L [L.value_initialized]) :
    (create L flags gl).1.opengl_object = gl.last_name + 1
      ∧ (create L flags gl).1.data = [L.value_initialized]
      ∧ (create L flags gl).1.flags = flags
      ∧ buffer_store (create L flags gl).2.calls (create L flags gl).1.opengl_object
          = some { size := byte_size L [L.value_initialized],
                   contents := data_bytes L [L.value_initialized], flags := flags } := by
  refine ⟨rfl, rfl, rfl, ?_⟩
  show buffer_store ((gl.calls ++ [GLCall.CreateBuffers 1 (gl.last_name + 1)]) ++
    [GLCall.NamedBufferStorage (gl.last_name + 1) (byte_size L [L.value_initialized])
      (data_bytes L [L.value_initialized]) flags]) (gl.last_name + 1) = _
  rw [buffer_store_append, buffer_store_append, hfresh]
  unfold buffer_store_step
  simp only
  rw [if_pos ⟨trivial, trivial, hpos⟩]

/-- Concrete instance of the full overwrite: the UBO `UBO(GL_DYNAMIC_STORAGE_BIT)` of
one-byte elements, created in a fresh context, after its element was set to 7. -/
theorem update_opengl_data_full_record_witness :
    (256 : Nat) &&& GL_DYNAMIC_STORAGE_BIT = GL_DYNAMIC_STORAGE_BIT
      ∧ ([7] : List Int) ≠ []
      ∧ buffer_store (create sample_type_info GL_DYNAMIC_STORAGE_BIT fresh_context).2.calls 1
          = some { size := 1, contents := [0], flags := 256 }
      ∧ ∃ gl', ({ opengl_object := 1, target := GL_UNIFORM_BUFFER, data := [7],
                  flags := 256 } : UBO Int).update_opengl_data sample_type_info
                (create sample_type_info GL_DYNAMIC_STORAGE_BIT fresh_context).2 = some gl'
          ∧ buffer_store gl'.calls 1 = some { size := 1, contents := [7], flags := 256 } :=
  ⟨by decide, by decide, by decide,
    (update_opengl_data_full_record sample_type_info
      ({ opengl_object := 1, target := GL_UNIFORM_BUFFER, data := [7], flags := 256 } : UBO Int)
      (create sample_type_info GL_DYNAMIC_STORAGE_BIT fresh_context).2).2.2.2
      { size := 1, contents := [0], flags := 256 }
      (by decide) (by decide) (by decide) (by decide) (by decide) (by decide)⟩

/-- Claim C18, evaluation of the code at the failing input: in a fresh context
`UBO<T> u(GL_DYNAMIC_STORAGE_BIT)` gets the buffer 1 and
`UBO<T> t(GL_DYNAMIC_STORAGE_BIT)` the buffer 2; after `t = u` the object `t` keeps its
flags `GL_DYNAMIC_STORAGE_BIT` but owns the buffer 3, whose store the copy constructor
created with the flags 0.  Once the element of `t` is set to 7,
`t.update_opengl_data()` passes its assertion and issues `glNamedBufferSubData`, which
that store rejects: the store still holds the byte 0, not the byte 7 of the CPU
record.  The source of a move construction is in the same state: it keeps its flags
and owns the buffer that `UBO()` created with the flags 0. -/
theorem update_opengl_data_after_assignment :
    (copy_assign sample_type_info
        (create sample_type_info GL_DYNAMIC_STORAGE_BIT
          (create sample_type_info GL_DYNAMIC_STORAGE_BIT fresh_context).2).1
        (create sample_type_info GL_DYNAMIC_STORAGE_BIT fresh_context).1
        (create sample_type_info GL_DYNAMIC_STORAGE_BIT
          (create sample_type_info GL_DYNAMIC_STORAGE_BIT fresh_context).2).2).1
      = { opengl_object := 3, target := GL_UNIFORM_BUFFER, data := [0],
          flags := GL_DYNAMIC_STORAGE_BIT }
    ∧ buffer_store (copy_assign sample_type_info
        (create sample_type_info GL_DYNAMIC_STORAGE_BIT
          (create sample_type_info GL_DYNAMIC_STORAGE_BIT fresh_context).2).1
        (create sample_type_info GL_DYNAMIC_STORAGE_BIT fresh_context).1
        (create sample_type_info GL_DYNAMIC_STORAGE_BIT
          (create sample_type_info GL_DYNAMIC_STORAGE_BIT fresh_context).2).2).2.calls 3
      = some { size := 1, contents := [0], flags := 0 }
    ∧ (({ opengl_object := 3, target := GL_UNIFORM_BUFFER, data := [7],
          flags := GL_DYNAMIC_STORAGE_BIT } : UBO Int).update_opengl_data sample_type_info
        (copy_assign sample_type_info
          (create sample_type_info GL_DYNAMIC_STORAGE_BIT
            (create sample_type_info GL_DYNAMIC_STORAGE_BIT fresh_context).2).1
          (create sample_type_info GL_DYNAMIC_STORAGE_BIT fresh_context).1
          (create sample_type_info GL_DYNAMIC_STORAGE_BIT
            (create sample_type_info GL_DYNAMIC_STORAGE_BIT fresh_context).2).2).2).map
        (fun gl => (gl.calls.getLast?, buffer_store gl.calls 3))
      = some (some (GLCall.NamedBufferSubData 3 0 1 [7]),
          some { size := 1, contents := [0], flags := 0 })
    ∧ data_bytes sample_type_info ([7] : List Int) = [7]
    ∧ (move_construct sample_type_info
        (create sample_type_info GL_DYNAMIC_STORAGE_BIT fresh_context).1
        (create sample_type_info GL_DYNAMIC_STORAGE_BIT fresh_context).2).1.2
      = { opengl_object := 2, target := GL_UNIFORM_BUFFER, data := [0],
          flags := GL_DYNAMIC_STORAGE_BIT }
    ∧ (({ opengl_object := 2, target := GL_UNIFORM_BUFFER, data := [7],
          flags := GL_DYNAMIC_STORAGE_BIT } : UBO Int).update_opengl_data sample_type_info
        (move_construct sample_type_info
          (create sample_type_info GL_DYNAMIC_STORAGE_BIT fresh_context).1
          (create sample_type_info GL_DYNAMIC_STORAGE_BIT fresh_context).2).2).map
        (fun gl => buffer_store gl.calls 2)
      = some (some { size := 1, contents := [0], flags := 0 }) := by
  decide

/-- The handles after move construction: the destination holds the handle of the
source, and the source holds the name of the buffer that `UBO()` created. -/
theorem move_construct_handles (L : TypeInfo T) (u : UBO T) (gl : GLContext) :
    (move_construct L u gl).1.1.opengl_object = u.opengl_object
      ∧ (move_construct L u gl).1.1.data = u.data
      ∧ (move_construct L u gl).1.1.flags = 0
      ∧ (move_construct L u gl).1.2.opengl_object = gl.last_name + 1
      ∧ (move_construct L u gl).1.2.data = [L.value_initialized]
      ∧ (move_construct L u gl).1.2.flags = u.flags :=
  ⟨rfl, rfl, rfl, rfl, rfl, rfl⟩

/-- Claim C19, evaluation of the code at the failing input: after move construction
from the UBO `u` with handle 1 (created by `UBO(GL_DYNAMIC_STORAGE_BIT)` in a fresh
context), the new object holds the handle 1 and the data of `u`, and `u` holds the
handle 2 of the buffer that `UBO()` created for the new object, not 0; the store of
the buffer 2 is live until the destructor of `u` deletes it. -/
theorem move_construct_source_handle :
    (move_construct sample_type_info
        (create sample_type_info GL_DYNAMIC_STORAGE_BIT fresh_context).1
        (create sample_type_info GL_DYNAMIC_STORAGE_BIT fresh_context).2).1
      = ({ opengl_object := 1, target := GL_UNIFORM_BUFFER, data := [0], flags := 0 },
         { opengl_object := 2, target := GL_UNIFORM_BUFFER, data := [0], flags := 256 })
    ∧ buffer_store (move_construct sample_type_info
        (create sample_type_info GL_DYNAMIC_STORAGE_BIT fresh_context).1
        (create sample_type_info GL_DYNAMIC_STORAGE_BIT fresh_context).2).2.calls 2
      = some { size := 1, contents := [0], flags := 0 }
    ∧ (({ opengl_object := 2, target := GL_UNIFORM_BUFFER, data := [0], flags := 256 } :
          UBO Int).destroy fresh_context).calls = [GLCall.DeleteBuffers 1 2] := by
  decide

end UBO

/-! ## Scene objects -/

namespace SceneObject
variable {F M : Type}

end SceneObject

namespace SceneObject
variable {F M : Type}

/-- Claim C17. For every scene object and every shader program for which
`is_valid()` is false, `draw` leaves the context as it is: no program use, no uniform
upload, no binding and no draw command.  When `is_valid()` is true, the commands of
`draw` after the program use and the upload of the colour to `mat_diffuse` are the
binding of the model uniform block at the binding point `DEFAULT_MODEL_BINDING = 1`,
the bindings of the vertex array, the patch size for `GL_PATCHES`, and last the draw
command of the geometry. -/
theorem draw_valid_program_only (so : SceneObject F M) (program : ShaderProgram F)
    (gl : GLContext) :
    (program.is_valid = false → so.draw program gl = gl)
      ∧ (program.is_valid = true →
          (so.draw program gl).calls
            = (program.uniform mat_diffuse so.color.r so.color.g so.color.b so.color.a
                (program.use gl)).calls
              ++ [GLCall.BindBufferBase so.model_ubo.target 1 so.model_ubo.opengl_object,
                  GLCall.BindVertexArray so.geometry.vao,
                  GLCall.BindVertexArray so.geometry.vao]
              ++ (if so.geometry.mode = GL_PATCHES then
                    [GLCall.PatchParameteri GL_PATCH_VERTICES so.geometry.patch_vertices]
                  else [])
              ++ [if so.geometry.draw_elements_count > 0 then
                    GLCall.DrawElements so.geometry.mode so.geometry.draw_elements_count
                      GL_UNSIGNED_INT 0
                  else GLCall.DrawArrays so.geometry.mode 0 so.geometry.draw_arrays_count]) := by
  constructor
  · intro h
    unfold draw
    rw [h]
    rfl
  · intro h
    unfold draw
    rw [h, if_pos rfl]
    simp only [Geometry_Base.draw_calls]
    simp [UBO.bind_buffer_base, glBindBufferBase, Geometry_Base.bind_vao, glBindVertexArray,
      GLContext.issue, UBO.DEFAULT_MODEL_BINDING]

/-- Concrete instance of C17: the sample scene object drawn with a program that is
not valid, and with a valid one. -/
theorem draw_valid_program_only_witness :
    (sample_program false).is_valid = false ∧ (sample_program true).is_valid = true
      ∧ (sample_scene_object 0).draw (sample_program false) fresh_context = fresh_context
      ∧ ((sample_scene_object 0).draw (sample_program true) fresh_context).calls
          = [GLCall.BindBufferBase GL_UNIFORM_BUFFER 1 9, GLCall.BindVertexArray 0,
             GLCall.BindVertexArray 0, GLCall.DrawArrays 4 0 3] :=
  ⟨rfl, rfl,
    (draw_valid_program_only (sample_scene_object 0) (sample_program false) fresh_context).1 rfl,
    (draw_valid_program_only (sample_scene_object 0) (sample_program true) fresh_context).2 rfl⟩

end SceneObject

/-! ## Viewports and resize events -/

/-- The quotient of a non-negative `int` by a positive one. -/
theorem int_div_of_pos (a b : Int) (ha : 0 ≤ a) (ha' : a ≤ INT_MAX) (hb : 1 ≤ b) :
    int_div a b = some (a / b) ∧ 0 ≤ a / b ∧ a / b ≤ a ∧ a / b * b ≤ a := by
  have h0 : 0 ≤ a / b := Int.ediv_nonneg ha (by omega)
  have h1 : a / b ≤ a := Int.ediv_le_self b ha
  have h2 : a / b * b ≤ a := Int.ediv_mul_le a (by omega)
  refine ⟨?_, h0, h1, h2⟩
  unfold int_div
  rw [if_neg (by omega), Int.tdiv_eq_ediv ha (by omega)]
  exact checked_of_range _ (by unfold INT_MIN; omega) (by omega)

namespace IApplication

/-- On a window of non-negative size, for a cell of a grid with positive sizes,
`activate_viewport_grid` passes the origin and the size of the cell to
`activate_viewport`. -/
theorem activate_viewport_grid_eq_some (a : IApplication) (x y gx gy : Int) (gl : GLContext)
    (hW0 : 0 ≤ a.width) (hW : a.width ≤ INT_MAX) (hH0 : 0 ≤ a.height)
    (hH : a.height ≤ INT_MAX) (hgx : 1 ≤ gx) (hgy : 1 ≤ gy)
    (hx0 : 0 ≤ x) (hx1 : x < gx) (hy0 : 0 ≤ y) (hy1 : y < gy) :
    a.activate_viewport_grid x y gx gy gl =
      some (a.activate_viewport (x * (a.width / gx)) (y * (a.height / gy))
        (a.width / gx) (a.height / gy) gl) := by
  obtain ⟨e1, q0, q1, q2⟩ := int_div_of_pos a.width gx hW0 hW hgx
  obtain ⟨e2, p0, p1, p2⟩ := int_div_of_pos a.height gy hH0 hH hgy
  have hx : x * (a.width / gx) ≤ a.width := by
    have := Int.mul_le_mul_of_nonneg_right (le_of_lt hx1) q0
    rw [Int.mul_comm gx] at this
    omega
  have hy : y * (a.height / gy) ≤ a.height := by
    have := Int.mul_le_mul_of_nonneg_right (le_of_lt hy1) p0
    rw [Int.mul_comm gy] at this
    omega
  have hx' : 0 ≤ x * (a.width / gx) := Int.mul_nonneg hx0 q0
  have hy' : 0 ≤ y * (a.height / gy) := Int.mul_nonneg hy0 p0
  unfold activate_viewport_grid
  simp only [Option.bind_eq_bind, e1, e2, Option.some_bind]
  rw [checked_of_range _ (by unfold INT_MIN; omega) (by omega),
    checked_of_range _ (by unfold INT_MIN; omega) (by omega)]
  simp only [Option.some_bind]

end IApplication

/-- The viewport in force after a `glViewport` command. -/
theorem current_viewport_append (calls : List GLCall) (x y w h : Int) :
    current_viewport (calls ++ [GLCall.Viewport x y w h])
      = some { x := x, y := y, width := w, height := h } := by
  unfold current_viewport
  rw [List.foldl_append]
  rfl

/-- The rectangles of two different cells of a grid share no pixel. -/
theorem grid_cell_disjoint (W H gx gy x y x' y' : Int) (hq : 0 ≤ W / gx) (hp : 0 ≤ H / gy)
    (hne : (x', y') ≠ (x, y)) :
    ¬ (grid_cell W H gx gy x y).overlaps (grid_cell W H gx gy x' y') := by
  rintro ⟨px, py, ⟨a1, a2, a3, a4⟩, ⟨b1, b2, b3, b4⟩⟩
  simp only [grid_cell] at a1 a2 a3 a4 b1 b2 b3 b4
  have hxy : x ≠ x' ∨ y ≠ y' := by
    by_contra hc
    push_neg at hc
    exact hne (by rw [hc.1, hc.2])
  rcases hxy with h | h
  · rcases lt_or_gt_of_ne h with h | h
    · have := Int.mul_le_mul_of_nonneg_right (show x + 1 ≤ x' by omega) hq
      rw [Int.add_mul, Int.one_mul] at this
      omega
    · have := Int.mul_le_mul_of_nonneg_right (show x' + 1 ≤ x by omega) hq
      rw [Int.add_mul, Int.one_mul] at this
      omega
  · rcases lt_or_gt_of_ne h with h | h
    · have := Int.mul_le_mul_of_nonneg_right (show y + 1 ≤ y' by omega) hp
      rw [Int.add_mul, Int.one_mul] at this
      omega
    · have := Int.mul_le_mul_of_nonneg_right (show y' + 1 ≤ y by omega) hp
      rw [Int.add_mul, Int.one_mul] at this
      omega

namespace IApplication

/-- Claim C21, amended. For every window size `W x H` (a `GLsizei`), every grid size
with `1 <= gx <= W` and `1 <= gy <= H` and every cell `0 <= x < gx`, `0 <= y < gy`,
`activate_viewport_grid(x, y, gx, gy)` issues `glViewport` with the origin
`(x * (W div gx), y * (H div gy))`, the width `W div gx` and the height `H div gy`,
and the viewports of two different cells share no pixel. -/
theorem activate_viewport_grid_cell (a : IApplication) (x y gx gy : Int) (gl : GLContext)
    (hW : a.width ≤ INT_MAX) (hH : a.height ≤ INT_MAX)
    (hgx : 1 ≤ gx) (hgxW : gx ≤ a.width) (hgy : 1 ≤ gy) (hgyH : gy ≤ a.height)
    (hx0 : 0 ≤ x) (hx1 : x < gx) (hy0 : 0 ≤ y) (hy1 : y < gy) :
    ∃ gl', a.activate_viewport_grid x y gx gy gl = some gl'
      ∧ gl'.calls = gl.calls ++ [GLCall.Viewport (x * (a.width / gx)) (y * (a.height / gy))
          (a.width / gx) (a.height / gy)]
      ∧ current_viewport gl'.calls = some (grid_cell a.width a.height gx gy x y)
      ∧ ∀ x' y', 0 ≤ x' → x' < gx → 0 ≤ y' → y' < gy → (x', y') ≠ (x, y) →
          ¬ (grid_cell a.width a.height gx gy x y).overlaps
              (grid_cell a.width a.height gx gy x' y') := by
  have hq : 1 ≤ a.width / gx := (Int.le_ediv_iff_mul_le (by omega)).mpr (by omega)
  have hp : 1 ≤ a.height / gy := (Int.le_ediv_iff_mul_le (by omega)).mpr (by omega)
  have hcalls : (a.activate_viewport (x * (a.width / gx)) (y * (a.height / gy))
      (a.width / gx) (a.height / gy) gl).calls
      = gl.calls ++ [GLCall.Viewport (x * (a.width / gx)) (y * (a.height / gy))
          (a.width / gx) (a.height / gy)] := by
    unfold activate_viewport glViewport GLContext.issue
    rw [if_pos (by omega), if_pos (by omega)]
  refine ⟨_, a.activate_viewport_grid_eq_some x y gx gy gl (by omega) hW (by omega) hH hgx hgy
    hx0 hx1 hy0 hy1, hcalls, ?_, ?_⟩
  · rw [hcalls, current_viewport_append]
    rfl
  · intro x' y' _ _ _ _ hne
    exact grid_cell_disjoint _ _ _ _ _ _ _ _ (by omega) (by omega) hne

/-- Concrete instance of C21 (amended): the cell `(1, 2)` of a 2 by 3 grid on a window
of 800 by 600 pixels. -/
theorem activate_viewport_grid_cell_witness :
    ∃ gl', activate_viewport_grid { width := 800, height := 600 } 1 2 2 3 fresh_context
        = some gl'
      ∧ gl'.calls = fresh_context.calls ++ [GLCall.Viewport (1 * (800 / 2)) (2 * (600 / 3))
          (800 / 2) (600 / 3)]
      ∧ current_viewport gl'.calls = some (grid_cell 800 600 2 3 1 2)
      ∧ ∀ x' y', 0 ≤ x' → x' < 2 → 0 ≤ y' → y' < 3 → (x', y') ≠ (1, 2) →
          ¬ (grid_cell 800 600 2 3 1 2).overlaps (grid_cell 800 600 2 3 x' y') :=
  activate_viewport_grid_cell { width := 800, height := 600 } 1 2 2 3 fresh_context
    (by decide) (by decide) (by decide) (by decide) (by decide) (by decide)
    (by decide) (by decide) (by decide) (by decide)

/-- Claim C21, counterexample to the claim as stated: on a window of 1 by 1 pixels
and a grid of 2 by 1 cells, the cell `(1, 0)` gets the viewport `(0, 0, 1, 1)`, the
whole window, where the claim states the width `1 div 2 = 0`; the cell `(0, 0)` gets
the same viewport, so the viewports of the two cells overlap. -/
theorem activate_viewport_grid_counterexample :
    ((1 : Int) ≤ 1 ∧ (1 : Int) ≤ 2 ∧ (0 : Int) ≤ 1 ∧ (1 : Int) < 2 ∧ (0 : Int) < 1)
      ∧ (activate_viewport_grid { width := 1, height := 1 } 1 0 2 1 fresh_context).map
          (fun gl => current_viewport gl.calls)
          = some (some { x := 0, y := 0, width := 1, height := 1 })
      ∧ ({ x := 0, y := 0, width := 1, height := 1 } : Rect) ≠ grid_cell 1 1 2 1 1 0
      ∧ (activate_viewport_grid { width := 1, height := 1 } 0 0 2 1 fresh_context).map
          (fun gl => current_viewport gl.calls)
          = some (some { x := 0, y := 0, width := 1, height := 1 })
      ∧ Rect.overlaps { x := 0, y := 0, width := 1, height := 1 }
          { x := 0, y := 0, width := 1, height := 1 } :=
  ⟨by decide, by decide, by decide, by decide, ⟨0, 0, by decide⟩⟩

end IApplication

namespace PV112Application

/-- Claim C27. For all integers `w` and `h`, after `PV112Application::on_resize(w, h)`
the stored width is `max(w, 1)` and the stored height is `max(h, 1)`; hence after
every resize event, and after every non-empty sequence of resize events, both stored
dimensions are at least 1, and the divisions of `activate_viewport_grid` by positive
grid sizes then have a window size of at least 1 as dividend, are defined and yield a
non-negative cell size. -/
theorem on_resize_clamps (a : IApplication) (w h : Int) (gl : GLContext) :
    (on_resize a w h gl).1.width = max w 1
      ∧ (on_resize a w h gl).1.height = max h 1
      ∧ 1 ≤ (on_resize a w h gl).1.width
      ∧ 1 ≤ (on_resize a w h gl).1.height
      ∧ (∀ events : List (Int × Int), events ≠ [] →
          1 ≤ (resize_events a events gl).1.width ∧ 1 ≤ (resize_events a events gl).1.height)
      ∧ (w ≤ INT_MAX → h ≤ INT_MAX → ∀ x y gx gy gl2, 1 ≤ gx → 1 ≤ gy →
          0 ≤ x → x < gx → 0 ≤ y → y < gy →
          (∃ vw vh, int_div (on_resize a w h gl).1.width gx = some vw ∧ 0 ≤ vw
            ∧ int_div (on_resize a w h gl).1.height gy = some vh ∧ 0 ≤ vh)
          ∧ ((on_resize a w h gl).1.activate_viewport_grid x y gx gy gl2).isSome = true) := by
  have hw : (1 : Int) ≤ max w 1 := le_max_right _ _
  have hh : (1 : Int) ≤ max h 1 := le_max_right _ _
  refine ⟨rfl, rfl, hw, hh, ?_, ?_⟩
  · intro events hne
    obtain ⟨l, e, rfl⟩ : ∃ l e, events = l ++ [e] :=
      ⟨events.dropLast, events.getLast hne, (List.dropLast_append_getLast hne).symm⟩
    unfold resize_events
    rw [List.foldl_append]
    exact ⟨le_max_right _ _, le_max_right _ _⟩
  · intro hwm hhm x y gx gy gl2 hgx hgy hx0 hx1 hy0 hy1
    have hwm' : max w 1 ≤ INT_MAX := max_le hwm (by decide)
    have hhm' : max h 1 ≤ INT_MAX := max_le hhm (by decide)
    obtain ⟨e1, q0, -, -⟩ := int_div_of_pos (max w 1) gx (by omega) hwm' hgx
    obtain ⟨e2, p0, -, -⟩ := int_div_of_pos (max h 1) gy (by omega) hhm' hgy
    refine ⟨⟨_, _, e1, q0, e2, p0⟩, ?_⟩
    rw [IApplication.activate_viewport_grid_eq_some _ x y gx gy gl2 (by show 0 ≤ max w 1; omega)
      hwm' (by show 0 ≤ max h 1; omega) hhm' hgx hgy hx0 hx1 hy0 hy1]
    rfl

/-- Concrete instance of C27: a window minimised to 0 by 0 pixels, then a 2 by 2 grid. -/
theorem on_resize_clamps_witness :
    (∃ vw vh, int_div (on_resize { width := 800, height := 600 } 0 0 fresh_context).1.width 2
          = some vw ∧ 0 ≤ vw
        ∧ int_div (on_resize { width := 800, height := 600 } 0 0 fresh_context).1.height 2
          = some vh ∧ 0 ≤ vh)
      ∧ ((on_resize { width := 800, height := 600 } 0 0 fresh_context).1.activate_viewport_grid
          1 1 2 2 fresh_context).isSome = true :=
  (on_resize_clamps { width := 800, height := 600 } 0 0 fresh_context).2.2.2.2.2
    (by decide) (by decide) 1 1 2 2 fresh_context (by decide) (by decide) (by decide)
    (by decide) (by decide) (by decide)

end PV112Application

namespace Geometry_Base
variable {F : Type}

end Geometry_Base

namespace Geometry_Base
end Geometry_Base

/-! ## Reachable textures and the frame of the pixel writes -/

namespace Texture
variable {F : Type}

theorem buffer_inv_well_formed (t : Texture F) (h : t.buffer_inv) : t.well_formed := by
  obtain ⟨h1, h2, h3, h4, h5⟩ := h
  have hwh : 0 ≤ t.width * t.height := Int.mul_nonneg h1 h2
  refine ⟨h1, h2, ?_, ?_, h5⟩
  · rcases h3 with h3 | h3 <;> omega
  · rcases h3 with h3 | h3
    · rw [h3]; omega
    · rw [h3]; exact h4

theorem same_shape_buffer_inv (t t' : Texture F) (h : t.same_shape t') (hi : t.buffer_inv) :
    t'.buffer_inv := by
  obtain ⟨-, -, e1, e2, -, -, -, e3, -, e4⟩ := h
  unfold buffer_inv at hi ⊢
  rw [e1, e2, e3, e4]
  exact hi

/-- The move constructor swaps the empty texture `Texture(0, 0)` with its argument. -/
theorem move_construct_eq [Zero F] (K : ColorConstants F) (t : Texture F) (gl : GLContext) :
    move_construct K t gl
      = some (swap { opengl_object := 0, target := GL_TEXTURE_2D, width := 0, height := 0,
                     internal_format := to_GLenum GL_RGBA8, format := GL_RGBA,
                     type := GL_FLOAT, nrChannels := 4, cpu_only := false,
                     texture_data := [] } t, gl) := by
  unfold move_construct create_sized
  rw [create_empty]
  simp only [Option.bind_eq_bind, Option.some_bind]
  rw [if_neg (by decide)]

/-- Every reachable texture satisfies the invariant of the pixel buffer. -/
theorem reachable_buffer_inv [Zero F] [One F] (K : ColorConstants F) (t : Texture F)
    (h : Reachable K t) : t.buffer_inv := by
  induction h with
  | create w h ifmt fmt cpu gl gl' t hw hh hc =>
    obtain ⟨a1, a2, a3, -, -, a6, a7, -, -, -, a11, -, -⟩ :=
      create_spec K w h ifmt fmt cpu gl t gl' hc
    unfold buffer_inv
    rw [a6, a7, a3, a11, Int.toNat_of_nonneg a1]
    refine ⟨hw, hh, ?_, le_refl _, a2⟩
    split_ifs
    · exact Or.inl rfl
    · exact Or.inr rfl
  | set_pixel_color t t' x y c _ _ hs ih =>
    exact same_shape_buffer_inv t t' (set_pixel_color_frame t t' x y c hs) ih
  | set_pixel_gray_scale t t' x y v _ _ hs ih =>
    exact same_shape_buffer_inv t t' (set_pixel_gray_scale_frame t t' x y v hs) ih
  | copy_construct other gl _ ih =>
    obtain ⟨h1, h2, -, -, h5, -, h7⟩ := copy_construct_fields other gl
    unfold buffer_inv at ih ⊢
    rw [h1, h2, h5, h7]
    exact ⟨ih.1, ih.2.1, Or.inr rfl, ih.2.2.2.1, ih.2.2.2.2⟩
  | copy_assign this other gl _ _ _ ih =>
    obtain ⟨h1, h2, -, -, h5, -, h7⟩ := copy_construct_fields other gl
    unfold buffer_inv at ih ⊢
    show 0 ≤ (copy_construct other gl).1.width ∧ 0 ≤ (copy_construct other gl).1.height
      ∧ ((copy_construct other gl).1.nrChannels = 1 ∨ (copy_construct other gl).1.nrChannels = 4)
      ∧ (copy_construct other gl).1.width * (copy_construct other gl).1.height * 4
          ≤ ((copy_construct other gl).1.texture_data.length : Int)
      ∧ ((copy_construct other gl).1.texture_data.length : Int) ≤ INT_MAX
    rw [h1, h2, h5, h7]
    exact ⟨ih.1, ih.2.1, Or.inr rfl, ih.2.2.2.1, ih.2.2.2.2⟩
  | move_construct_target other gl r _ hm ih =>
    rw [move_construct_eq, Option.some.injEq] at hm
    subst hm
    exact ih
  | move_construct_source other gl r _ hm _ =>
    rw [move_construct_eq, Option.some.injEq] at hm
    subst hm
    refine ⟨le_refl _, le_refl _, Or.inr rfl, ?_, ?_⟩
    · show (0 : Int) * 0 * 4 ≤ ((([] : List F).length : Nat) : Int)
      simp
    · show ((([] : List F).length : Nat) : Int) ≤ INT_MAX
      simp [INT_MAX]
  | swap_first first second _ _ _ ih2 => exact ih2
  | swap_second first second _ _ ih1 _ => exact ih1

end Texture

namespace Texture
variable {F : Type}

/-- On a well-formed 1-channel texture `set_pixel_gray_scale` stores the intensity as
the value of the pixel. -/
theorem set_pixel_gray_scale_depth [One F] (t : Texture F) (x y : Int) (v : F)
    (hw : t.well_formed) (hc : t.nrChannels = 1) (hb : t.in_bounds x y) :
    t.set_pixel_gray_scale x y v
      = some { t with texture_data := t.texture_data.set (t.pixel_number x y) v } := by
  obtain ⟨hi, hl, e0⟩ := t.depth_block x y hw hc hb
  unfold set_pixel_gray_scale
  rw [hi]
  simp only [Option.bind_eq_bind, Option.some_bind, e0]
  rw [if_pos (by omega), vec_write_of_lt _ _ _ hl]
  simp only [Option.some_bind]
  rw [if_neg (by omega)]
  simp only [Option.some_bind]
  rw [if_neg (by omega)]
  simp only [Option.some_bind]
  rw [if_neg (by omega)]
  simp only [Option.some_bind]

/-- Different in-bounds pixels have different numbers. -/
theorem pixel_number_injective (t : Texture F) (x y x' y' : Int) (hb : t.in_bounds x y)
    (hb' : t.in_bounds x' y') (hne : (x', y') ≠ (x, y)) :
    t.pixel_number x' y' ≠ t.pixel_number x y := by
  intro he
  have e1 := (t.pixel_number_lt x y hb).1
  have e2 := (t.pixel_number_lt x' y' hb').1
  rw [he] at e2
  obtain ⟨hx0, hx1, hy0, hy1⟩ := hb
  obtain ⟨hx0', hx1', hy0', hy1'⟩ := hb'
  have hw : 0 ≤ t.width := by omega
  have hy : y = y' := by
    rcases lt_trichotomy y y' with h | h | h
    · have := Int.mul_le_mul_of_nonneg_right (show y + 1 ≤ y' by omega) hw
      rw [Int.add_mul, Int.one_mul] at this
      omega
    · exact h
    · have := Int.mul_le_mul_of_nonneg_right (show y' + 1 ≤ y by omega) hw
      rw [Int.add_mul, Int.one_mul] at this
      omega
  subst hy
  have hx : x = x' := by omega
  subst hx
  exact hne rfl

/-- Storing four channels in the block of one pixel of a well-formed 4-channel
texture leaves the colour read at every other in-bounds pixel as it was. -/
theorem write_rgba_frame [One F] (K : ColorConstants F) (t : Texture F) (c : Color F)
    (x y x' y' : Int) (hw : t.well_formed) (hc : t.nrChannels = 4) (hb : t.in_bounds x y)
    (hb' : t.in_bounds x' y') (hne : (x', y') ≠ (x, y)) :
    ({ t with texture_data := write_rgba t.texture_data (4 * t.pixel_number x y) c } :
        Texture F).get_pixel_color K x' y' = t.get_pixel_color K x' y' := by
  have hw' : ({ t with texture_data := write_rgba t.texture_data (4 * t.pixel_number x y) c } :
      Texture F).well_formed := by
    unfold well_formed at hw ⊢
    simp only [length_write_rgba]
    exact hw
  rw [get_pixel_color_rgba K _ x' y' hw' hc hb', get_pixel_color_rgba K t x' y' hw hc hb']
  exact read_write_rgba_other _ _ _ _ (fun h => pixel_number_injective t x y x' y' hb hb' hne h.symm)

/-- Storing one value at one pixel of a well-formed 1-channel texture leaves the
colour read at every other in-bounds pixel as it was. -/
theorem write_depth_frame [One F] (K : ColorConstants F) (t : Texture F) (a : F)
    (x y x' y' : Int) (hw : t.well_formed) (hc : t.nrChannels = 1) (hb : t.in_bounds x y)
    (hb' : t.in_bounds x' y') (hne : (x', y') ≠ (x, y)) :
    ({ t with texture_data := t.texture_data.set (t.pixel_number x y) a } :
        Texture F).get_pixel_color K x' y' = t.get_pixel_color K x' y' := by
  have hw' : ({ t with texture_data := t.texture_data.set (t.pixel_number x y) a } :
      Texture F).well_formed := by
    unfold well_formed at hw ⊢
    simp only [List.length_set]
    exact hw
  rw [get_pixel_color_depth K _ x' y' hw' hc hb', get_pixel_color_depth K t x' y' hw hc hb']
  show ((t.texture_data.set (t.pixel_number x y) a)[t.pixel_number x' y']?).map _ = _
  rw [List.getElem?_set_ne (fun h => pixel_number_injective t x y x' y' hb hb' hne h.symm)]

/-- Both pixel writes succeed at an in-bounds pixel of a texture that satisfies the
invariant of the pixel buffer, keep every member but the contents of the buffer, and
leave the colour read at every other in-bounds pixel as it was. -/
theorem writes_frame [One F] (K : ColorConstants F) (t : Texture F) (x y : Int)
    (c : Color F) (v : F) (hi : t.buffer_inv) (hb : t.in_bounds x y) :
    ∃ t1 t2, t.set_pixel_color x y c = some t1 ∧ t.set_pixel_gray_scale x y v = some t2
      ∧ t.same_shape t1 ∧ t.same_shape t2
      ∧ ∀ x' y', t.in_bounds x' y' → (x', y') ≠ (x, y) →
          t1.get_pixel_color K x' y' = t.get_pixel_color K x' y'
            ∧ t2.get_pixel_color K x' y' = t.get_pixel_color K x' y' := by
  have hw := buffer_inv_well_formed t hi
  rcases hi.2.2.1 with hc | hc
  · have h1 := set_pixel_color_depth t x y c hw hc hb
    have h2 := set_pixel_gray_scale_depth t x y v hw hc hb
    refine ⟨_, _, h1, h2, set_pixel_color_frame _ _ _ _ _ h1,
      set_pixel_gray_scale_frame _ _ _ _ _ h2, fun x' y' hb' hne => ⟨?_, ?_⟩⟩
    · exact write_depth_frame K t _ x y x' y' hw hc hb hb' hne
    · exact write_depth_frame K t _ x y x' y' hw hc hb hb' hne
  · have h1 := set_pixel_color_rgba t x y c hw hc hb
    have h2 := set_pixel_gray_scale_rgba t x y v hw hc hb
    refine ⟨_, _, h1, h2, set_pixel_color_frame _ _ _ _ _ h1,
      set_pixel_gray_scale_frame _ _ _ _ _ h2, fun x' y' hb' hne => ⟨?_, ?_⟩⟩
    · exact write_rgba_frame K t _ x y x' y' hw hc hb hb' hne
    · exact write_rgba_frame K t _ x y x' y' hw hc hb hb' hne

/-- A read at an in-bounds pixel of a texture that satisfies the invariant of the
pixel buffer stays inside the buffer. -/
theorem get_pixel_color_isSome [One F] (K : ColorConstants F) (t : Texture F) (x y : Int)
    (hi : t.buffer_inv) (hb : t.in_bounds x y) : (t.get_pixel_color K x y).isSome = true := by
  have hw := buffer_inv_well_formed t hi
  rcases hi.2.2.1 with hc | hc
  · rw [get_pixel_color_depth K t x y hw hc hb,
      List.getElem?_eq_getElem (t.depth_block x y hw hc hb).2.1]
    rfl
  · obtain ⟨-, hl, -⟩ := t.rgba_block x y hw hc hb
    rw [get_pixel_color_rgba K t x y hw hc hb]
    unfold read_rgba
    rw [List.getElem?_eq_getElem (by omega), List.getElem?_eq_getElem (by omega),
      List.getElem?_eq_getElem (by omega), List.getElem?_eq_getElem (by omega)]
    rfl

/-- Claim C23. For every texture reachable from a constructor with non-negative width
and height by in-bounds pixel writes, copy construction, copy assignment, move
construction and `swap`, and for every in-bounds `(x, y)`: `get_index(x, y)` is a
non-negative `int` and the positions `get_index(x, y) .. get_index(x, y) +
nrChannels - 1` are valid indices of `texture_data`; and `set_pixel_color`,
`set_pixel_gray_scale` and `get_pixel_color` at `(x, y)` return without an access
outside the pixel buffer. -/
theorem reachable_indices_valid [Zero F] [One F] (K : ColorConstants F) (t : Texture F)
    (h : Reachable K t) (x y : Int) (hb : t.in_bounds x y) (c : Color F) (v : F) :
    (∃ i : Nat, t.get_index x y = some (i : Int)
        ∧ ∀ k : Nat, (k : Int) < t.nrChannels → i + k < t.texture_data.length)
      ∧ (t.set_pixel_color x y c).isSome = true
      ∧ (t.set_pixel_gray_scale x y v).isSome = true
      ∧ (t.get_pixel_color K x y).isSome = true := by
  have hi := reachable_buffer_inv K t h
  have hw := buffer_inv_well_formed t hi
  obtain ⟨t1, t2, h1, h2, -, -, -⟩ := writes_frame K t x y c v hi hb
  refine ⟨?_, by rw [h1]; rfl, by rw [h2]; rfl, get_pixel_color_isSome K t x y hi hb⟩
  rcases hi.2.2.1 with hc | hc
  · obtain ⟨e, hl, -⟩ := t.depth_block x y hw hc hb
    exact ⟨_, e, fun k hk => by omega⟩
  · obtain ⟨e, hl, -⟩ := t.rgba_block x y hw hc hb
    exact ⟨_, e, fun k hk => by omega⟩

/-- Concrete instance of C23: the pixel `(1, 1)` of `Texture(2, 2, true)`. -/
theorem reachable_indices_valid_witness :
    (∃ i : Nat, sample_texture.get_index 1 1 = some (i : Int)
        ∧ ∀ k : Nat, (k : Int) < sample_texture.nrChannels
            → i + k < sample_texture.texture_data.length)
      ∧ (sample_texture.set_pixel_color 1 1 { r := 0, g := 1, b := 0, a := 1 }).isSome = true
      ∧ (sample_texture.set_pixel_gray_scale 1 1 0).isSome = true
      ∧ (sample_texture.get_pixel_color sample_colors 1 1).isSome = true :=
  reachable_indices_valid sample_colors sample_texture
    (Reachable.create 2 2 GL_RGBA8 GL_RGBA true fresh_context fresh_context sample_texture
      (by decide) (by decide) (by decide))
    1 1 (by decide) { r := 0, g := 1, b := 0, a := 1 } 0

end Texture

namespace Texture
variable {F : Type}

/-- Claim C24. For every texture built by the constructor, every in-bounds `(x, y)`
and every colour `c`, `get_pixel_color(x, y)` after `set_pixel_color(x, y, c)` returns
the colour projected onto the channels of the texture: exactly `c` on a 4-channel
texture, which the format `GL_RGBA` gives, and `(c.r, c.r, c.r, 1)` on a 1-channel
texture, which the format `GL_DEPTH_COMPONENT` gives.  The constructor does build a
texture for all non-negative dimensions whose buffer size is representable as an
`int`. -/
theorem set_get_channel_projection [Zero F] [One F] (K : ColorConstants F) (w h ifmt : Int)
    (fmt : Nat) (cpu : Bool) (gl : GLContext) :
    (∀ t gl', create K w h ifmt fmt cpu gl = some (t, gl') →
        ∀ x y c, t.in_bounds x y →
          ∃ t', t.set_pixel_color x y c = some t'
            ∧ t'.get_pixel_color K x y = some (channel_projection t.nrChannels c)
            ∧ (fmt = GL_RGBA → t.nrChannels = 4 ∧ t'.get_pixel_color K x y = some c)
            ∧ (fmt = GL_DEPTH_COMPONENT → t.nrChannels = 1
                ∧ t'.get_pixel_color K x y = some { r := c.r, g := c.r, b := c.r, a := 1 }))
      ∧ (0 ≤ w → 0 ≤ h → w * h * 4 ≤ INT_MAX →
          (create K w h ifmt fmt cpu gl).isSome = true) := by
  refine ⟨fun t gl' hc x y c hb => ?_, create_total K w h ifmt fmt cpu gl⟩
  have hs := create_spec K w h ifmt fmt cpu gl t gl' hc
  have hn := in_bounds_nonneg t x y hb
  rw [hs.2.2.2.2.2.1, hs.2.2.2.2.2.2.1] at hn
  have hwf := create_well_formed K w h ifmt fmt cpu gl t gl' hc hn.1 hn.2
  have hch := hs.2.2.2.2.2.2.2.2.2.2.1
  by_cases hf : fmt = GL_DEPTH_COMPONENT
  · rw [if_pos hf] at hch
    obtain ⟨t', h1, h2⟩ := set_get_depth K t x y c hwf hch hb
    refine ⟨t', h1, ?_, fun hr => ?_, fun _ => ⟨hch, h2⟩⟩
    · rw [h2, hch]; rfl
    · rw [hf] at hr; exact absurd hr (by decide)
  · rw [if_neg hf] at hch
    obtain ⟨t', h1, h2⟩ := set_get_rgba K t x y c hwf hch hb
    refine ⟨t', h1, ?_, fun _ => ⟨hch, h2⟩, fun hd => absurd hd hf⟩
    rw [h2, hch]; rfl

/-- Concrete instance of C24: the pixel `(1, 0)` of the 2 x 1 depth texture. -/
theorem set_get_channel_projection_witness :
    sample_created_depth_texture.in_bounds 1 0
      ∧ ∃ t', sample_created_depth_texture.set_pixel_color 1 0
              { r := 0, g := 1, b := 0, a := 1 } = some t'
          ∧ t'.get_pixel_color sample_colors 1 0
            = some (channel_projection sample_created_depth_texture.nrChannels
                ({ r := 0, g := 1, b := 0, a := 1 } : Color Int))
          ∧ (GL_DEPTH_COMPONENT = GL_RGBA → sample_created_depth_texture.nrChannels = 4
              ∧ t'.get_pixel_color sample_colors 1 0 = some { r := 0, g := 1, b := 0, a := 1 })
          ∧ (GL_DEPTH_COMPONENT = GL_DEPTH_COMPONENT →
              sample_created_depth_texture.nrChannels = 1
              ∧ t'.get_pixel_color sample_colors 1 0
                = some { r := (0 : Int), g := 0, b := 0, a := 1 }) :=
  ⟨by decide,
    (set_get_channel_projection sample_colors 2 1 GL_DEPTH_COMPONENT32F GL_DEPTH_COMPONENT
      true fresh_context).1 sample_created_depth_texture fresh_context (by decide) 1 0
      { r := 0, g := 1, b := 0, a := 1 } (by decide)⟩

/-- Claim C25. For every texture built by the constructor and every in-bounds
`(x, y)`, `set_pixel_color(x, y, c)` and `set_pixel_gray_scale(x, y, v)` change only
that pixel: `get_pixel_color(x', y')` is unchanged for every in-bounds `(x', y')`
different from `(x, y)`, and the GPU handle, target, width, height, formats, type,
channel count, `cpu_only` flag and buffer length are unchanged.  The constructor does
build a texture for all non-negative dimensions whose buffer size is representable as
an `int`. -/
theorem pixel_writes_frame [Zero F] [One F] (K : ColorConstants F) (w h ifmt : Int)
    (fmt : Nat) (cpu : Bool) (gl : GLContext) :
    (∀ t gl', create K w h ifmt fmt cpu gl = some (t, gl') →
        ∀ x y c v, t.in_bounds x y →
          ∃ t1 t2, t.set_pixel_color x y c = some t1 ∧ t.set_pixel_gray_scale x y v = some t2
            ∧ t.same_shape t1 ∧ t.same_shape t2
            ∧ ∀ x' y', t.in_bounds x' y' → (x', y') ≠ (x, y) →
                t1.get_pixel_color K x' y' = t.get_pixel_color K x' y'
                  ∧ t2.get_pixel_color K x' y' = t.get_pixel_color K x' y')
      ∧ (0 ≤ w → 0 ≤ h → w * h * 4 ≤ INT_MAX →
          (create K w h ifmt fmt cpu gl).isSome = true) := by
  refine ⟨fun t gl' hc x y c v hb => ?_, create_total K w h ifmt fmt cpu gl⟩
  have hs := create_spec K w h ifmt fmt cpu gl t gl' hc
  have hn := in_bounds_nonneg t x y hb
  rw [hs.2.2.2.2.2.1, hs.2.2.2.2.2.2.1] at hn
  exact writes_frame K t x y c v
    (reachable_buffer_inv K t (Reachable.create w h ifmt fmt cpu gl gl' t hn.1 hn.2 hc)) hb

/-- Concrete instance of C25: writes at the pixel `(1, 1)` of `Texture(2, 2, true)`. -/
theorem pixel_writes_frame_witness :
    sample_texture.in_bounds 1 1
      ∧ ∃ t1 t2, sample_texture.set_pixel_color 1 1 { r := 0, g := 1, b := 0, a := 1 }
            = some t1
          ∧ sample_texture.set_pixel_gray_scale 1 1 0 = some t2
          ∧ sample_texture.same_shape t1 ∧ sample_texture.same_shape t2
          ∧ ∀ x' y', sample_texture.in_bounds x' y' → (x', y') ≠ (1, 1) →
              t1.get_pixel_color sample_colors x' y'
                  = sample_texture.get_pixel_color sample_colors x' y'
                ∧ t2.get_pixel_color sample_colors x' y'
                  = sample_texture.get_pixel_color sample_colors x' y' :=
  ⟨by decide,
    (pixel_writes_frame sample_colors 2 2 GL_RGBA8 GL_RGBA true fresh_context).1
      sample_texture fresh_context (by decide) 1 1 { r := 0, g := 1, b := 0, a := 1 } 0
      (by decide)⟩

end Texture

/-! ## Copies of uniform buffer objects -/

namespace UBO
variable {T : Type}

/-- The flags after copy construction and after copy assignment: a copy has the flags
0, and the target of an assignment keeps the flags it had. -/
theorem copy_flags (L : TypeInfo T) (this u : UBO T) (gl : GLContext) :
    (copy_construct L u gl).1.flags = 0 ∧ (copy_assign L this u gl).1.flags = this.flags :=
  ⟨rfl, rfl⟩

/-- The assertion of `update_opengl_data` fails on an object whose flags are 0. -/
theorem update_opengl_data_of_flags_zero (L : TypeInfo T) (u : UBO T) (gl : GLContext)
    (h : u.flags = 0) : u.update_opengl_data L gl = none := by
  unfold update_opengl_data
  rw [h, if_neg (by decide)]

/-- Claim C26, evaluation of the code at the failing input: the UBO `u` created by
`UBO(GL_DYNAMIC_STORAGE_BIT)` passes the assertion of `update_opengl_data`, but the
UBO copy-constructed from `u`, the UBO move-constructed from `u` and a UBO created by
`UBO()` after the assignment of `u` all have the flags 0 and fail it; for every UBO,
the copy and the object move-constructed from it have the flags 0 and fail the
assertion. -/
theorem copy_move_drop_dynamic_storage :
    ((create sample_type_info GL_DYNAMIC_STORAGE_BIT fresh_context).1.update_opengl_data
        sample_type_info fresh_context).isSome = true
      ∧ (copy_construct sample_type_info
          (create sample_type_info GL_DYNAMIC_STORAGE_BIT fresh_context).1 fresh_context).1.flags
          = 0
      ∧ (copy_construct sample_type_info
          (create sample_type_info GL_DYNAMIC_STORAGE_BIT fresh_context).1
          fresh_context).1.update_opengl_data sample_type_info fresh_context = none
      ∧ (move_construct sample_type_info
          (create sample_type_info GL_DYNAMIC_STORAGE_BIT fresh_context).1
          fresh_context).1.1.update_opengl_data sample_type_info fresh_context = none
      ∧ (copy_assign sample_type_info (create sample_type_info 0 fresh_context).1
          (create sample_type_info GL_DYNAMIC_STORAGE_BIT fresh_context).1
          fresh_context).1.update_opengl_data sample_type_info fresh_context = none
      ∧ ∀ (T : Type) (L : TypeInfo T) (u : UBO T) (gl gl' : GLContext),
          (copy_construct L u gl).1.update_opengl_data L gl' = none
            ∧ (move_construct L u gl).1.1.update_opengl_data L gl' = none :=
  ⟨by decide, by decide, by decide, by decide, by decide, fun _ L u gl gl' =>
    ⟨update_opengl_data_of_flags_zero L _ gl' rfl,
      update_opengl_data_of_flags_zero L _ gl' rfl⟩⟩

end UBO

/-! ## The application: key events -/

namespace Application
variable {F M R P : Type}

/-- A member that both branches of a conditional leave alone. -/
theorem ite_member {α β : Type} (f : α → β) (c : Prop) [Decidable c] (x y : α)
    (h : f x = f y) : f (if c then x else y) = f y := by
  split_ifs
  · exact h
  · rfl

/-- The call of `PV112Application::on_key_pressed` leaves the five flags as they
are. -/
theorem base_on_key_pressed_flags (D : ApplicationDeps F M R P) (a : Application F M P)
    (key action : Int) (gl : GLContext) :
    (if action = GLFW_PRESS then
        (if key = GLFW_KEY_R then compile_shaders D a gl else (a, gl)) else (a, gl)).1.flags
      = a.flags := by
  have h1 : (if key = GLFW_KEY_R then compile_shaders D a gl else (a, gl)).1.flags = a.flags :=
    ite_member (fun x : Application F M P × GLContext => x.1.flags) _ _ _ rfl
  exact ite_member (fun x : Application F M P × GLContext => x.1.flags) _ _ _ h1

/-- The flags after the five conditional statements of `Application::on_key_pressed`. -/
theorem toggles_flags (b : Application F M P) (cn cw ct ce cc : Prop) [Decidable cn]
    [Decidable cw] [Decidable ct] [Decidable ce] [Decidable cc] :
    let b1 := if cn then { b with night := !b.night } else b
    let b2 := if cw then { b1 with walls_off := !b1.walls_off } else b1
    let b3 := if ct then { b2 with toon_shading := !b2.toon_shading } else b2
    let b4 := if ce then { b3 with edge_detection := !b3.edge_detection } else b3
    let b5 := if cc then { b4 with camouflage := !b4.camouflage } else b4
    b5.flags = (if cn then !b.night else b.night, if cw then !b.walls_off else b.walls_off,
      if ct then !b.toon_shading else b.toon_shading,
      if ce then !b.edge_detection else b.edge_detection,
      if cc then !b.camouflage else b.camouflage) := by
  intro b1 b2 b3 b4 b5
  have e1 : b1.flags = (if cn then !b.night else b.night, b.walls_off, b.toon_shading,
      b.edge_detection, b.camouflage) := by
    show (if cn then _ else _ : Application F M P).flags = _
    split_ifs <;> rfl
  have e2 : b2.flags = (b1.night, if cw then !b1.walls_off else b1.walls_off, b1.toon_shading,
      b1.edge_detection, b1.camouflage) := by
    show (if cw then _ else _ : Application F M P).flags = _
    split_ifs <;> rfl
  have e3 : b3.flags = (b2.night, b2.walls_off, if ct then !b2.toon_shading else b2.toon_shading,
      b2.edge_detection, b2.camouflage) := by
    show (if ct then _ else _ : Application F M P).flags = _
    split_ifs <;> rfl
  have e4 : b4.flags = (b3.night, b3.walls_off, b3.toon_shading,
      if ce then !b3.edge_detection else b3.edge_detection, b3.camouflage) := by
    show (if ce then _ else _ : Application F M P).flags = _
    split_ifs <;> rfl
  have e5 : b5.flags = (b4.night, b4.walls_off, b4.toon_shading, b4.edge_detection,
      if cc then !b4.camouflage else b4.camouflage) := by
    show (if cc then _ else _ : Application F M P).flags = _
    split_ifs <;> rfl
  clear_value b1 b2 b3 b4 b5
  unfold flags at e1 e2 e3 e4 e5 ⊢
  simp only [Prod.mk.injEq] at e1 e2 e3 e4 e5 ⊢
  obtain ⟨a1, a2, a3, a4, a5⟩ := e1
  obtain ⟨b1', b2', b3', b4', b5'⟩ := e2
  obtain ⟨c1, c2, c3, c4, c5⟩ := e3
  obtain ⟨d1, d2, d3, d4, d5⟩ := e4
  obtain ⟨f1, f2, f3, f4, f5⟩ := e5
  refine ⟨?_, ?_, ?_, ?_, ?_⟩
  · rw [f1, d1, c1, b1', a1]
  · rw [f2, d2, c2, b2', a2]
  · rw [f3, d3, c3, b3', a3]
  · rw [f4, d4, c4, b4', a4]
  · rw [f5, d5, c5, b5', a5]

/-- A key event whose key indexes `KeysDown` leaves the five flags as the five
conditional statements of `Application::on_key_pressed` set them. -/
theorem on_key_pressed_eq_some (D : ApplicationDeps F M R P) (a : Application F M P)
    (io : ImGuiIO) (key scancode action mods : Int) (gl : GLContext)
    (hk0 : 0 ≤ key) (hk1 : key.toNat < io.KeysDown.length) :
    ∃ a' io' gl', on_key_pressed D a io key scancode action mods gl = some (a', io', gl')
      ∧ io'.KeysDown.length = io.KeysDown.length
      ∧ a'.flags = (if key = GLFW_KEY_N ∧ action = GLFW_PRESS then !a.night else a.night,
          if key = GLFW_KEY_W ∧ action = GLFW_PRESS then !a.walls_off else a.walls_off,
          if key = GLFW_KEY_T ∧ action = GLFW_PRESS then !a.toon_shading else a.toon_shading,
          if key = GLFW_KEY_E ∧ action = GLFW_PRESS then !a.edge_detection
            else a.edge_detection,
          if key = GLFW_KEY_C ∧ action = GLFW_PRESS then !a.camouflage else a.camouflage) := by
  have hio : IApplication.on_key_pressed io key scancode action mods
      = some { io with KeysDown := io.KeysDown.set key.toNat (action != 0) } := by
    unfold IApplication.on_key_pressed
    rw [if_neg (by omega), vec_write_of_lt _ _ _ hk1]
    rfl
  have hb := base_on_key_pressed_flags D a key action gl
  unfold flags at hb
  simp only [Prod.mk.injEq] at hb
  obtain ⟨h1, h2, h3, h4, h5⟩ := hb
  unfold on_key_pressed PV112Application.on_key_pressed
  simp only [Option.bind_eq_bind, hio, Option.some_bind]
  refine ⟨_, _, _, rfl, by simp only [List.length_set], ?_⟩
  refine (toggles_flags (if action = GLFW_PRESS then
      (if key = GLFW_KEY_R then compile_shaders D a gl else (a, gl)) else (a, gl)).1
    (key = GLFW_KEY_N ∧ action = GLFW_PRESS)
    (key = GLFW_KEY_W ∧ action = GLFW_PRESS) (key = GLFW_KEY_T ∧ action = GLFW_PRESS)
    (key = GLFW_KEY_E ∧ action = GLFW_PRESS) (key = GLFW_KEY_C ∧ action = GLFW_PRESS)).trans ?_
  rw [h1, h2, h3, h4, h5]

end Application

namespace Application
variable {F M R P : Type}

/-- Negating a flag twice under the same condition restores it. -/
theorem toggle_twice (c : Prop) [Decidable c] (b : Bool) :
    (if c then !(if c then !b else b) else (if c then !b else b)) = b := by
  split_ifs
  · exact Bool.not_not b
  · rfl

/-- Claim C28, amended. For every key that indexes the array `KeysDown` of ImGui,
`Application::on_key_pressed` returns, and with action `GLFW_PRESS` and key `N`, `W`,
`T`, `E` or `C` it negates exactly the corresponding flag (`night`, `walls_off`,
`toon_shading`, `edge_detection`, `camouflage` respectively) and leaves the other four
flags unchanged; for every other such key, and for every action other than
`GLFW_PRESS`, all five flags are unchanged; and two consecutive events with the same
key and action restore all five flags. -/
theorem on_key_pressed_toggles (D : ApplicationDeps F M R P) (a : Application F M P)
    (io : ImGuiIO) (key scancode action mods : Int) (gl : GLContext)
    (hk0 : 0 ≤ key) (hk1 : key.toNat < io.KeysDown.length) :
    ∃ a' io' gl', on_key_pressed D a io key scancode action mods gl = some (a', io', gl')
      ∧ (action = GLFW_PRESS → key = GLFW_KEY_N →
          a'.flags = (!a.night, a.walls_off, a.toon_shading, a.edge_detection, a.camouflage))
      ∧ (action = GLFW_PRESS → key = GLFW_KEY_W →
          a'.flags = (a.night, !a.walls_off, a.toon_shading, a.edge_detection, a.camouflage))
      ∧ (action = GLFW_PRESS → key = GLFW_KEY_T →
          a'.flags = (a.night, a.walls_off, !a.toon_shading, a.edge_detection, a.camouflage))
      ∧ (action = GLFW_PRESS → key = GLFW_KEY_E →
          a'.flags = (a.night, a.walls_off, a.toon_shading, !a.edge_detection, a.camouflage))
      ∧ (action = GLFW_PRESS → key = GLFW_KEY_C →
          a'.flags = (a.night, a.walls_off, a.toon_shading, a.edge_detection, !a.camouflage))
      ∧ (action ≠ GLFW_PRESS ∨ (key ≠ GLFW_KEY_N ∧ key ≠ GLFW_KEY_W ∧ key ≠ GLFW_KEY_T
            ∧ key ≠ GLFW_KEY_E ∧ key ≠ GLFW_KEY_C) → a'.flags = a.flags)
      ∧ ∃ a'' io'' gl'', on_key_pressed D a' io' key scancode action mods gl'
            = some (a'', io'', gl'')
          ∧ a''.flags = a.flags := by
  obtain ⟨a', io', gl', h1, hlen, hf⟩ :=
    on_key_pressed_eq_some D a io key scancode action mods gl hk0 hk1
  obtain ⟨a'', io'', gl'', h2, -, hf2⟩ :=
    on_key_pressed_eq_some D a' io' key scancode action mods gl' hk0 (by rw [hlen]; exact hk1)
  refine ⟨a', io', gl', h1, ?_, ?_, ?_, ?_, ?_, ?_, a'', io'', gl'', h2, ?_⟩
  · intro ha hk
    rw [hf, ha, hk]
    simp [GLFW_KEY_N, GLFW_KEY_W, GLFW_KEY_T, GLFW_KEY_E, GLFW_KEY_C]
  · intro ha hk
    rw [hf, ha, hk]
    simp [GLFW_KEY_N, GLFW_KEY_W, GLFW_KEY_T, GLFW_KEY_E, GLFW_KEY_C]
  · intro ha hk
    rw [hf, ha, hk]
    simp [GLFW_KEY_N, GLFW_KEY_W, GLFW_KEY_T, GLFW_KEY_E, GLFW_KEY_C]
  · intro ha hk
    rw [hf, ha, hk]
    simp [GLFW_KEY_N, GLFW_KEY_W, GLFW_KEY_T, GLFW_KEY_E, GLFW_KEY_C]
  · intro ha hk
    rw [hf, ha, hk]
    simp [GLFW_KEY_N, GLFW_KEY_W, GLFW_KEY_T, GLFW_KEY_E, GLFW_KEY_C]
  · intro h
    rw [hf]
    unfold flags
    rcases h with h | ⟨n1, n2, n3, n4, n5⟩
    · rw [if_neg (fun c => h c.2), if_neg (fun c => h c.2), if_neg (fun c => h c.2),
        if_neg (fun c => h c.2), if_neg (fun c => h c.2)]
    · rw [if_neg (fun c => n1 c.1), if_neg (fun c => n2 c.1), if_neg (fun c => n3 c.1),
        if_neg (fun c => n4 c.1), if_neg (fun c => n5 c.1)]
  · unfold flags at hf hf2 ⊢
    simp only [Prod.mk.injEq] at hf
    obtain ⟨e1, e2, e3, e4, e5⟩ := hf
    rw [hf2, e1, e2, e3, e4, e5, toggle_twice, toggle_twice, toggle_twice, toggle_twice,
      toggle_twice]

/-- Concrete instance of C28 (amended): the key `N`, which indexes the 512 entries of
`KeysDown`, is pressed while no flag is set. -/
theorem on_key_pressed_toggles_witness :
    ∃ a' io' gl', on_key_pressed sample_application_deps sample_application sample_io
          GLFW_KEY_N 0 GLFW_PRESS 0 fresh_context = some (a', io', gl')
      ∧ (GLFW_PRESS = GLFW_PRESS → GLFW_KEY_N = GLFW_KEY_N →
          a'.flags = (!sample_application.night, sample_application.walls_off,
            sample_application.toon_shading, sample_application.edge_detection,
            sample_application.camouflage))
      ∧ (GLFW_PRESS = GLFW_PRESS → GLFW_KEY_N = GLFW_KEY_W →
          a'.flags = (sample_application.night, !sample_application.walls_off,
            sample_application.toon_shading, sample_application.edge_detection,
            sample_application.camouflage))
      ∧ (GLFW_PRESS = GLFW_PRESS → GLFW_KEY_N = GLFW_KEY_T →
          a'.flags = (sample_application.night, sample_application.walls_off,
            !sample_application.toon_shading, sample_application.edge_detection,
            sample_application.camouflage))
      ∧ (GLFW_PRESS = GLFW_PRESS → GLFW_KEY_N = GLFW_KEY_E →
          a'.flags = (sample_application.night, sample_application.walls_off,
            sample_application.toon_shading, !sample_application.edge_detection,
            sample_application.camouflage))
      ∧ (GLFW_PRESS = GLFW_PRESS → GLFW_KEY_N = GLFW_KEY_C →
          a'.flags = (sample_application.night, sample_application.walls_off,
            sample_application.toon_shading, sample_application.edge_detection,
            !sample_application.camouflage))
      ∧ (GLFW_PRESS ≠ GLFW_PRESS ∨ (GLFW_KEY_N ≠ GLFW_KEY_N ∧ GLFW_KEY_N ≠ GLFW_KEY_W
            ∧ GLFW_KEY_N ≠ GLFW_KEY_T ∧ GLFW_KEY_N ≠ GLFW_KEY_E ∧ GLFW_KEY_N ≠ GLFW_KEY_C)
          → a'.flags = sample_application.flags)
      ∧ ∃ a'' io'' gl'', on_key_pressed sample_application_deps a' io' GLFW_KEY_N 0
            GLFW_PRESS 0 gl' = some (a'', io'', gl'')
          ∧ a''.flags = sample_application.flags :=
  on_key_pressed_toggles sample_application_deps sample_application sample_io GLFW_KEY_N 0
    GLFW_PRESS 0 fresh_context (by decide) 
    (by rw [show sample_io.KeysDown.length = 512 from List.length_replicate _ _]; decide)

/-- Claim C28, counterexample to the claim as stated: `GLFW_KEY_UNKNOWN`, the key that
GLFW reports for a key it does not know, is -1 and is none of the keys `N`, `W`, `T`,
`E`, `C`; the handler reaches `KeysDown[-1]`, an access outside the array, for a press
and for a release alike, so the call has no result and no state with unchanged flags
follows. -/
theorem on_key_pressed_unknown_key_counterexample :
    (GLFW_KEY_UNKNOWN ≠ GLFW_KEY_N ∧ GLFW_KEY_UNKNOWN ≠ GLFW_KEY_W
        ∧ GLFW_KEY_UNKNOWN ≠ GLFW_KEY_T ∧ GLFW_KEY_UNKNOWN ≠ GLFW_KEY_E
        ∧ GLFW_KEY_UNKNOWN ≠ GLFW_KEY_C)
      ∧ on_key_pressed sample_application_deps sample_application sample_io
          GLFW_KEY_UNKNOWN 0 GLFW_PRESS 0 fresh_context = none
      ∧ on_key_pressed sample_application_deps sample_application sample_io
          GLFW_KEY_UNKNOWN 0 0 0 fresh_context = none :=
  ⟨by decide, rfl, rfl⟩

end Application

/-! ## The application: the uniform records and their buffers -/

/-- A loop over `size_t` whose body always has a result applies the body `n` times. -/
theorem for_size_t_iterate {σ : Type} (n : Nat) (f : σ → σ) (s : σ) :
    for_size_t n (fun _ s => some (f s)) s = some (f^[n] s) := by
  unfold for_size_t
  induction n with
  | zero => rfl
  | succ n ih =>
    rw [List.range_succ, List.foldlM_append, ih]
    simp only [Option.bind_eq_bind, Option.some_bind, List.foldlM_cons, List.foldlM_nil,
      Function.iterate_succ_apply']
    rfl

/-- A loop over `int` whose body always has a result applies the body `n` times. -/
theorem for_int_iterate {σ : Type} (n : Int) (f : σ → σ) (s : σ) :
    for_int n (fun _ s => some (f s)) s = some (f^[n.toNat] s) := by
  unfold for_int
  generalize n.toNat = m
  induction m with
  | zero => rfl
  | succ m ih =>
    rw [List.range_succ, List.foldlM_append, ih]
    simp only [Option.bind_eq_bind, Option.some_bind, List.foldlM_cons, List.foldlM_nil,
      Function.iterate_succ_apply']
    rfl

theorem length_push_back {T : Type} (v : List T) (x : T) :
    (push_back v x).length = v.length + 1 := by
  unfold push_back
  simp

/-- Applying `n` times a step that pushes one element makes the vector `n` longer. -/
theorem length_iterate_push {T ρ : Type} (f : List T × ρ → List T × ρ)
    (hf : ∀ s, (f s).1.length = s.1.length + 1) (n : Nat) (s : List T × ρ) :
    (f^[n] s).1.length = s.1.length + n := by
  induction n with
  | zero => rfl
  | succ n ih => rw [Function.iterate_succ_apply', hf, ih]; omega

namespace Application
variable {F M R P : Type}

theorem length_push_star [OfScientific F] [Add F] [Sub F] [Mul F] [Div F]
    (D : ApplicationDeps F M R P) (s : List (LightUBO F) × R) :
    (push_star D s).1.length = s.1.length + 1 := by
  unfold push_star
  exact length_push_back _ _

theorem length_push_tree [OfScientific F] [Add F] [Sub F] [Mul F] [Div F]
    (D : ApplicationDeps F M R P) (s : List (ObjectUBO F M) × R) :
    (push_tree D s).1.length = s.1.length + 1 := by
  unfold push_tree
  exact length_push_back _ _

/-- The vectors of lights after the statements that fill them, when they start
empty: 200 night lights, the first 195 of which are the stars pushed by the loop, and
3 day lights. -/
theorem init_lights_eq_some [OfScientific F] [Neg F] [Add F] [Sub F] [Mul F] [Div F]
    (D : ApplicationDeps F M R P) (a : Application F M P) (rng : R)
    (hn : a.lights_night = []) (hd : a.lights_day = []) :
    ∃ a' rng', init_lights D a rng = some (a', rng')
      ∧ a'.lights_night.length = 200 ∧ a'.lights_day.length = 3
      ∧ for_size_t 195 (fun _ s => some (push_star D s)) ([], rng)
          = some (a'.lights_night.take 195, rng')
      ∧ a'.objects_ubos = a.objects_ubos ∧ a'.flags = a.flags := by
  have hl : ((push_star D)^[195] ([], rng)).1.length = 195 := by
    rw [length_iterate_push (push_star D) (length_push_star D) 195 ([], rng)]
    rfl
  unfold init_lights
  rw [hn, hd, for_size_t_iterate]
  simp only [Option.bind_eq_bind, Option.some_bind]
  refine ⟨_, _, rfl, ?_, ?_, ?_, rfl, by unfold flags; rfl⟩
  · simp only [length_push_back, hl]
  · simp only [length_push_back]
    rfl
  · simp only [push_back, List.append_assoc]
    rw [List.take_left' hl]

end Application

namespace Application
variable {F M R P : Type}

/-- The vector of object records after the statements that fill it, when it starts
empty: 38 records pushed one by one and 31 records pushed by the loop over the trees;
the vectors of lights are left as they are. -/
theorem init_objects_eq_some [OfScientific F] [Neg F] [Add F] [Sub F] [Mul F] [Div F]
    (D : ApplicationDeps F M R P) (a : Application F M P) (rng : R)
    (ho : a.objects_ubos = []) :
    ∃ a' rng', init_objects D a rng = some (a', rng')
      ∧ a'.objects_ubos.length = 69
      ∧ a'.lights_night = a.lights_night ∧ a'.lights_day = a.lights_day
      ∧ a'.flags = a.flags := by
  unfold init_objects
  rw [ho]
  simp only [for_int_iterate, Option.bind_eq_bind, Option.some_bind]
  refine ⟨_, _, rfl, ?_, rfl, rfl, by unfold flags; rfl⟩
  show ((push_tree D)^[31] _).1.length = 69
  rw [length_iterate_push (push_tree D) (length_push_tree D)]
  simp only [length_push_back, List.length_nil]

/-- Reading as many elements as a vector holds reads the bytes of all of them. -/
theorem read_elements_all {T : Type} (bytes : T → List Nat) (v : List T) (n : Nat)
    (h : v.length = n) : read_elements bytes v n = some (v.map bytes).flatten := by
  unfold read_elements
  rw [if_pos (by omega), ← h, List.take_length]

/-- The commands of the statements "Create Buffers" and the names they store, when
the vectors of lights hold 200 and 3 elements. -/
theorem create_buffers_eq_some (D : ApplicationDeps F M R P) (a : Application F M P)
    (gl : GLContext) (hn : a.lights_night.length = 200) (hd : a.lights_day.length = 3) :
    ∃ a' gl', create_buffers D a gl = some (a', gl')
      ∧ a'.objects_ubos = a.objects_ubos ∧ a'.lights_night = a.lights_night
      ∧ a'.lights_day = a.lights_day ∧ a'.flags = a.flags
      ∧ a'.objects_buffer = gl.last_name + 1 + 1 + 1
      ∧ a'.lights_night_buffer = gl.last_name + 1 + 1 + 1 + 1
      ∧ a'.lights_day_buffer = gl.last_name + 1 + 1 + 1 + 1 + 1
      ∧ gl'.calls = gl.calls ++
          [GLCall.CreateBuffers 1 (gl.last_name + 1),
           GLCall.NamedBufferStorage (gl.last_name + 1) sizeof_CameraUBO
             (D.camera_bytes a.camera_ubo) GL_DYNAMIC_STORAGE_BIT,
           GLCall.CreateBuffers 1 (gl.last_name + 1 + 1),
           GLCall.NamedBufferStorage (gl.last_name + 1 + 1) sizeof_LightUBO
             (D.light_bytes a.light_ubo) GL_DYNAMIC_STORAGE_BIT,
           GLCall.CreateBuffers 1 (gl.last_name + 1 + 1 + 1),
           GLCall.NamedBufferStorage (gl.last_name + 1 + 1 + 1)
             (size_t_mul sizeof_ObjectUBO a.objects_ubos.length)
             (a.objects_ubos.map D.object_bytes).flatten GL_DYNAMIC_STORAGE_BIT,
           GLCall.CreateBuffers 1 (gl.last_name + 1 + 1 + 1 + 1),
           GLCall.CreateBuffers 1 (gl.last_name + 1 + 1 + 1 + 1 + 1),
           GLCall.NamedBufferStorage (gl.last_name + 1 + 1 + 1 + 1) (200 * sizeof_LightUBO)
             (a.lights_night.map D.light_bytes).flatten GL_DYNAMIC_STORAGE_BIT,
           GLCall.NamedBufferStorage (gl.last_name + 1 + 1 + 1 + 1 + 1) (3 * sizeof_LightUBO)
             (a.lights_day.map D.light_bytes).flatten GL_DYNAMIC_STORAGE_BIT,
           GLCall.CreateBuffers 1 (gl.last_name + 1 + 1 + 1 + 1 + 1 + 1),
           GLCall.NamedBufferStorage (gl.last_name + 1 + 1 + 1 + 1 + 1 + 1) sizeof_ConeLightUBO
             (D.cone_light_bytes a.cone_light_ubo) GL_DYNAMIC_STORAGE_BIT] := by
  unfold create_buffers
  simp only [Option.bind_eq_bind, read_elements_all D.object_bytes a.objects_ubos _ rfl,
    read_elements_all D.light_bytes a.lights_night 200 hn,
    read_elements_all D.light_bytes a.lights_day 3 hd, Option.some_bind]
  refine ⟨_, _, rfl, rfl, rfl, rfl, by unfold flags; rfl, rfl, rfl, rfl, ?_⟩
  simp only [glCreateBuffers, glNamedBufferStorage, GLContext.issue, List.append_assoc,
    List.singleton_append, List.cons_append, List.nil_append]

end Application

namespace Application
variable {F M R P : Type}

/-- The size of an object record, of the buffer of the 69 records, and of a light. -/
theorem sizeof_values :
    sizeof_ObjectUBO = 256 ∧ size_t_mul sizeof_ObjectUBO 69 = 69 * 256
      ∧ sizeof_LightUBO = 64 := by
  decide

/-- What the constructor builds: the vectors, the names of their buffers, the flags
and the commands that create the buffers of the vectors. -/
theorem construct_eq_some [OfScientific F] [Neg F] [Add F] [Sub F] [Mul F] [Div F]
    (D : ApplicationDeps F M R P) (initial_width initial_height : Int)
    (geometries : Geometries F) (camera : Vec3 F) (camera_ubo : CameraUBO F M)
    (light_ubo : LightUBO F) (cone_light_ubo : ConeLightUBO F) (skyboxVAO : Nat)
    (time angle : F) (rng : R) (gl : GLContext) :
    ∃ a rng' gl', construct D initial_width initial_height geometries camera camera_ubo
          light_ubo cone_light_ubo skyboxVAO time angle rng gl = some (a, rng', gl')
      ∧ a.objects_ubos.length = 69 ∧ a.lights_night.length = 200 ∧ a.lights_day.length = 3
      ∧ (∃ rng1, for_size_t 195 (fun _ s => some (push_star D s)) ([], rng)
          = some (a.lights_night.take 195, rng1))
      ∧ a.flags = (false, false, false, false, false)
      ∧ ∃ pre post, gl'.calls = gl.calls ++ pre ++
          [GLCall.CreateBuffers 1 a.objects_buffer,
           GLCall.NamedBufferStorage a.objects_buffer (69 * 256)
             (a.objects_ubos.map D.object_bytes).flatten GL_DYNAMIC_STORAGE_BIT,
           GLCall.CreateBuffers 1 a.lights_night_buffer,
           GLCall.CreateBuffers 1 a.lights_day_buffer,
           GLCall.NamedBufferStorage a.lights_night_buffer (200 * 64)
             (a.lights_night.map D.light_bytes).flatten GL_DYNAMIC_STORAGE_BIT,
           GLCall.NamedBufferStorage a.lights_day_buffer (3 * 64)
             (a.lights_day.map D.light_bytes).flatten GL_DYNAMIC_STORAGE_BIT] ++ post := by
  unfold construct
  simp only [Option.bind_eq_bind]
  generalize hA : init_camera_and_cone_light D _ = a0
  have e1 : a0.lights_night = [] := by rw [← hA]; rfl
  have e2 : a0.lights_day = [] := by rw [← hA]; rfl
  have e3 : a0.objects_ubos = [] := by rw [← hA]; rfl
  have e4 : a0.flags = (false, false, false, false, false) := by rw [← hA]; rfl
  clear hA
  obtain ⟨a1, r1, h1, hn1, hd1, hs1, ho1, f1⟩ := init_lights_eq_some D a0 rng e1 e2
  obtain ⟨a2, r2, h2, ho2, hn2, hd2, f2⟩ := init_objects_eq_some D a1 r1 (ho1.trans e3)
  obtain ⟨a3, gl3, h3, ho3, hn3, hd3, f3, b1, b2, b3, hc⟩ :=
    create_buffers_eq_some D a2 gl (by rw [hn2]; exact hn1) (by rw [hd2]; exact hd1)
  have hfl : ∀ b : Application F M P, (compile_shaders D b gl3).1.flags = b.flags := fun _ => rfl
  simp only [h1, h2, h3, Option.some_bind]
  refine ⟨_, _, _, rfl, ?_, ?_, ?_, ?_, ?_, ?_⟩
  · show a3.objects_ubos.length = 69
    rw [ho3]; exact ho2
  · show a3.lights_night.length = 200
    rw [hn3, hn2]; exact hn1
  · show a3.lights_day.length = 3
    rw [hd3, hd2]; exact hd1
  · refine ⟨r1, ?_⟩
    show _ = some (a3.lights_night.take 195, r1)
    rw [hn3, hn2]; exact hs1
  · rw [hfl, f3, f2, f1, e4]
  · refine ⟨[GLCall.CreateBuffers 1 (gl.last_name + 1),
           GLCall.NamedBufferStorage (gl.last_name + 1) sizeof_CameraUBO
             (D.camera_bytes a2.camera_ubo) GL_DYNAMIC_STORAGE_BIT,
           GLCall.CreateBuffers 1 (gl.last_name + 1 + 1),
           GLCall.NamedBufferStorage (gl.last_name + 1 + 1) sizeof_LightUBO
             (D.light_bytes a2.light_ubo) GL_DYNAMIC_STORAGE_BIT],
        [GLCall.CreateBuffers 1 (gl.last_name + 1 + 1 + 1 + 1 + 1 + 1),
           GLCall.NamedBufferStorage (gl.last_name + 1 + 1 + 1 + 1 + 1 + 1) sizeof_ConeLightUBO
             (D.cone_light_bytes a2.cone_light_ubo) GL_DYNAMIC_STORAGE_BIT], ?_⟩
    show gl3.calls = gl.calls ++ _ ++ [GLCall.CreateBuffers 1 a3.objects_buffer,
           GLCall.NamedBufferStorage a3.objects_buffer (69 * 256)
             (a3.objects_ubos.map D.object_bytes).flatten GL_DYNAMIC_STORAGE_BIT,
           GLCall.CreateBuffers 1 a3.lights_night_buffer,
           GLCall.CreateBuffers 1 a3.lights_day_buffer,
           GLCall.NamedBufferStorage a3.lights_night_buffer (200 * 64)
             (a3.lights_night.map D.light_bytes).flatten GL_DYNAMIC_STORAGE_BIT,
           GLCall.NamedBufferStorage a3.lights_day_buffer (3 * 64)
             (a3.lights_day.map D.light_bytes).flatten GL_DYNAMIC_STORAGE_BIT] ++ _
    rw [hc, b1, b2, b3, ho3, hn3, hd3, ho2, sizeof_values.2.1, sizeof_values.2.2]
    simp only [List.append_assoc, List.cons_append, List.nil_append]

end Application

/-! ## The application: the commands of a frame -/

theorem continues_with_refl (P : GLCall → Prop) (gl : GLContext) : continues_with P gl gl :=
  ⟨[], (List.append_nil _).symm, fun _ h => absurd h (List.not_mem_nil _)⟩

theorem continues_with_append (P : GLCall → Prop) (gl0 gl gl' : GLContext) (l : List GLCall)
    (hl : ∀ c ∈ l, P c) (h' : gl'.calls = gl.calls ++ l) (h : continues_with P gl0 gl) :
    continues_with P gl0 gl' := by
  obtain ⟨new, e, hp⟩ := h
  refine ⟨new ++ l, by rw [h', e, List.append_assoc], fun c hc => ?_⟩
  rcases List.mem_append.mp hc with hc | hc
  · exact hp c hc
  · exact hl c hc

theorem continues_with_issue (P : GLCall → Prop) (gl0 gl : GLContext) (c : GLCall) (hc : P c)
    (h : continues_with P gl0 gl) : continues_with P gl0 (gl.issue c) :=
  continues_with_append P gl0 gl _ [c] (fun d hd => by rw [List.mem_singleton.mp hd]; exact hc)
    rfl h

theorem continues_with_mono (P Q : GLCall → Prop) (gl0 gl : GLContext) (hpq : ∀ c, P c → Q c)
    (h : continues_with P gl0 gl) : continues_with Q gl0 gl := by
  obtain ⟨new, e, hp⟩ := h
  exact ⟨new, e, fun c hc => hpq c (hp c hc)⟩

theorem scene_bind_base (b : Nat) (gl0 gl : GLContext) (target index buffer : Nat)
    (h : continues_with (scene_command b) gl0 gl) :
    continues_with (scene_command b) gl0 (glBindBufferBase target index buffer gl) :=
  continues_with_issue _ gl0 gl _ ⟨trivial, trivial⟩ h

theorem scene_bind_range (b : Nat) (gl0 gl : GLContext) (target index : Nat) (k : Int)
    (h0 : 0 ≤ k) (h1 : k < 69) (h : continues_with (scene_command b) gl0 gl) :
    continues_with (scene_command b) gl0
      (glBindBufferRange target index b (k * 256) sizeof_ObjectUBO gl) :=
  continues_with_issue _ gl0 gl _
    ⟨⟨rfl, k, h0, by exact_mod_cast h1, by push_cast; rfl, by decide⟩, trivial⟩ h

theorem scene_create_buffers (b : Nat) (gl0 gl : GLContext)
    (h : continues_with (scene_command b) gl0 gl) :
    continues_with (scene_command b) gl0 (glCreateBuffers gl).2 :=
  continues_with_append _ gl0 gl _ [GLCall.CreateBuffers 1 (gl.last_name + 1)]
    (fun d hd => by rw [List.mem_singleton.mp hd]; exact ⟨trivial, trivial⟩) rfl h

theorem scene_buffer_storage (b : Nat) (gl0 gl : GLContext) (buffer size : Nat)
    (data : List Nat) (flags : Nat) (h : continues_with (scene_command b) gl0 gl) :
    continues_with (scene_command b) gl0 (glNamedBufferStorage buffer size data flags gl) :=
  continues_with_issue _ gl0 gl _ ⟨trivial, trivial⟩ h

theorem scene_draw_arrays (b : Nat) (gl0 gl : GLContext) (mode : Nat) (first count : Int)
    (h : continues_with (scene_command b) gl0 gl) :
    continues_with (scene_command b) gl0 (glDrawArrays mode first count gl) :=
  continues_with_issue _ gl0 gl _ ⟨trivial, trivial⟩ h

theorem scene_draw {F : Type} (b : Nat) (gl0 gl : GLContext) (g : Geometry_Base F)
    (h : continues_with (scene_command b) gl0 gl) :
    continues_with (scene_command b) gl0 (g.draw gl) := by
  refine continues_with_append _ gl0 gl _ _ ?_ (by rw [Geometry_Base.draw_calls,
    List.append_assoc, List.append_assoc]) h
  intro c hc
  simp only [List.mem_append, List.mem_singleton] at hc
  rcases hc with rfl | hc | rfl
  · exact ⟨trivial, trivial⟩
  · split_ifs at hc
    · rw [List.mem_singleton.mp hc]; exact ⟨trivial, trivial⟩
    · exact absurd hc (List.not_mem_nil _)
  · split_ifs <;> exact ⟨trivial, trivial⟩

theorem scene_ite (b : Nat) (gl0 : GLContext) (c : Prop) [Decidable c] (x y : GLContext)
    (hx : continues_with (scene_command b) gl0 x) (hy : continues_with (scene_command b) gl0 y) :
    continues_with (scene_command b) gl0 (if c then x else y) := by
  split_ifs
  · exact hx
  · exact hy

namespace Application
variable {F M R P : Type}

theorem render_furniture_scene (a : Application F M P) (lights : Nat) (gl0 gl : GLContext)
    (h : continues_with (scene_command a.objects_buffer) gl0 gl) :
    continues_with (scene_command a.objects_buffer) gl0 (render_furniture a lights gl) := by
  unfold render_furniture
  dsimp only
  repeat first
    | exact h
    | apply scene_draw
    | apply scene_bind_base
    | apply scene_bind_range _ _ _ _ _ _ (by decide) (by decide)

theorem render_room_scene (a : Application F M P) (gl0 gl : GLContext)
    (h : continues_with (scene_command a.objects_buffer) gl0 gl) :
    continues_with (scene_command a.objects_buffer) gl0 (render_room a gl) := by
  unfold render_room
  dsimp only
  repeat first
    | exact h
    | apply scene_draw
    | apply scene_bind_base
    | apply scene_bind_range _ _ _ _ _ _ (by decide) (by decide)
    | apply scene_ite

theorem render_textured_scene (a : Application F M P) (lights : Nat) (gl0 gl : GLContext)
    (h : continues_with (scene_command a.objects_buffer) gl0 gl) :
    continues_with (scene_command a.objects_buffer) gl0 (render_textured a lights gl) := by
  unfold render_textured
  dsimp only
  repeat first
    | exact h
    | apply scene_draw
    | apply scene_bind_base
    | apply scene_bind_range _ _ _ _ _ _ (by decide) (by decide)

theorem render_glass_and_cone_scene (a : Application F M P) (lights : Nat)
    (gl0 gl : GLContext) (h : continues_with (scene_command a.objects_buffer) gl0 gl) :
    continues_with (scene_command a.objects_buffer) gl0
      (render_glass_and_cone a lights gl) := by
  unfold render_glass_and_cone
  dsimp only
  repeat first
    | exact h
    | apply scene_draw
    | apply scene_draw_arrays
    | apply scene_bind_base
    | apply scene_bind_range _ _ _ _ _ _ (by decide) (by decide)
    | apply scene_ite

/-- The sphere of the globe: the block changes the members `time` and `angle` only. -/
theorem render_globe_scene [OfScientific F] [Neg F] (D : ApplicationDeps F M R P)
    (a : Application F M P) (lights : Nat) (now : F) (gl0 gl : GLContext)
    (h : continues_with (scene_command a.objects_buffer) gl0 gl) :
    continues_with (scene_command a.objects_buffer) gl0 (render_globe D a lights now gl).2
      ∧ (render_globe D a lights now gl).1.objects_buffer = a.objects_buffer
      ∧ (render_globe D a lights now gl).1.flags = a.flags := by
  refine ⟨?_, rfl, by unfold flags; rfl⟩
  unfold render_globe
  dsimp only
  repeat first
    | exact h
    | apply scene_draw
    | apply scene_bind_base
    | apply scene_buffer_storage
    | apply scene_create_buffers

/-- The UFO and the cow: the block changes the members `time` and `angle` only. -/
theorem render_ufo_and_cow_scene [OfScientific F] [Add F] [Mul F] [Div F]
    (D : ApplicationDeps F M R P) (a : Application F M P) (lights : Nat) (now : F)
    (gl0 gl : GLContext) (h : continues_with (scene_command a.objects_buffer) gl0 gl) :
    continues_with (scene_command a.objects_buffer) gl0
        (render_ufo_and_cow D a lights now gl).2
      ∧ (render_ufo_and_cow D a lights now gl).1.objects_buffer = a.objects_buffer
      ∧ (render_ufo_and_cow D a lights now gl).1.flags = a.flags := by
  have hc : (a.night = true ∨ (!a.night) = true) := by cases a.night <;> simp
  unfold render_ufo_and_cow
  rw [if_pos hc]
  refine ⟨?_, rfl, by unfold flags; rfl⟩
  dsimp only
  repeat first
    | exact h
    | apply scene_draw
    | apply scene_bind_base
    | apply scene_bind_range _ _ _ _ _ _ (by decide) (by decide)
    | apply scene_buffer_storage
    | apply scene_create_buffers
    | apply scene_ite

/-- The loop over the trees: it returns, and binds the records 38 to 67. -/
theorem render_trees_scene (a : Application F M P) (gl0 gl : GLContext)
    (h : continues_with (scene_command a.objects_buffer) gl0 gl) :
    ∃ gl', for_int 30 (render_tree a) gl = some gl'
      ∧ continues_with (scene_command a.objects_buffer) gl0 gl' := by
  have hstep : ∀ s i, i ∈ List.range (30 : Int).toNat →
      continues_with (scene_command a.objects_buffer) gl0 s →
      ∃ s', render_tree a (i : Int) s = some s'
        ∧ continues_with (scene_command a.objects_buffer) gl0 s' := by
    intro s i hi hs
    have hi' : i < 30 := by simpa using hi
    unfold render_tree
    rw [checked_of_range (38 + (i : Int)) (by unfold INT_MIN; omega) (by unfold INT_MAX; omega)]
    simp only [Option.bind_eq_bind, Option.some_bind]
    rw [checked_of_range ((38 + (i : Int)) * 256) (by unfold INT_MIN; omega)
      (by unfold INT_MAX; omega)]
    simp only [Option.some_bind]
    exact ⟨_, rfl, scene_draw _ _ _ _
      (scene_bind_range _ _ _ _ _ _ (by omega) (by omega) hs)⟩
  obtain ⟨r, hr⟩ := foldlM_total (List.range (30 : Int).toNat)
    (fun (s : GLContext) (i : Nat) => render_tree a (i : Int) s)
    (continues_with (scene_command a.objects_buffer) gl0) hstep gl h
  refine ⟨r, hr, ?_⟩
  exact foldlM_invariant (List.range (30 : Int).toNat)
    (fun (s : GLContext) (i : Nat) => render_tree a (i : Int) s)
    (continues_with (scene_command a.objects_buffer) gl0)
    (fun s i s' hi hs hf => by
      obtain ⟨s2, h2, h3⟩ := hstep s i hi hs
      have hf' : render_tree a (i : Int) s = some s' := hf
      rw [hf', Option.some.injEq] at h2
      rw [h2]
      exact h3) gl r h hr

end Application

namespace Application
variable {F M R P : Type}

/-- The statements of `render` before the objects: the commands they issue, the value
of `*lights_buffer` afterwards, and the members they leave as they are. -/
theorem render_sky_spec [OfScientific F] (D : ApplicationDeps F M R P)
    (a : Application F M P) (gl : GLContext) :
    (render_sky D a gl).1.objects_buffer = a.objects_buffer
      ∧ (render_sky D a gl).1.flags = a.flags
      ∧ (render_sky D a gl).1.deref_lights_buffer
          = some (if a.night then a.lights_night_buffer else a.lights_day_buffer)
      ∧ ∃ camera_data, (render_sky D a gl).2.calls = gl.calls ++
          [GLCall.NamedBufferSubData a.camera_buffer 0 sizeof_CameraUBO camera_data,
           GLCall.Viewport 0 0 (to_int a.width) (to_int a.height),
           GLCall.BindVertexArray a.skyboxVAO,
           GLCall.DrawArrays GL_TRIANGLES 0 36,
           GLCall.BindVertexArray 0]
          ++ (if a.night then
                [GLCall.BindBufferBase GL_SHADER_STORAGE_BUFFER 1 a.lights_night_buffer,
                 GLCall.BindVertexArray D.sphere.vao,
                 GLCall.DrawElementsInstanced D.sphere.mode D.sphere.draw_elements_count
                   GL_UNSIGNED_INT 0 195]
              else []) := by
  unfold render_sky
  cases hn : a.night
  · refine ⟨rfl, ?_, rfl, (D.camera_bytes
      { projection := a.camera_ubo.projection,
        view := D.lookAt a.camera (Vec3.mk 0.0 0.0 0.0) (Vec3.mk 0.0 1.0 0.0),
        position := Vec4.of_vec3 a.camera 1.0 }), ?_⟩
    · unfold flags; rw [hn]; rfl
    · simp only [Bool.false_eq_true, if_false, glNamedBufferSubData, glViewport,
        glBindVertexArray, glDrawArrays, GLContext.issue, List.append_assoc,
        List.cons_append, List.nil_append, List.append_nil]
  · refine ⟨rfl, ?_, rfl, (D.camera_bytes
      { projection := a.camera_ubo.projection,
        view := D.lookAt a.camera (Vec3.mk 0.0 0.0 0.0) (Vec3.mk 0.0 1.0 0.0),
        position := Vec4.of_vec3 a.camera 1.0 }), ?_⟩
    · unfold flags; rw [hn]; rfl
    · simp only [if_true, glNamedBufferSubData, glViewport, glBindVertexArray, glDrawArrays,
        glBindBufferBase, glDrawElementsInstanced, Geometry_Base.bind_vao, GLContext.issue,
        List.append_assoc, List.cons_append, List.nil_append]

/-- The method `render` returns; after the commands of the sky box and of the stars,
every command that binds a range binds one whole record of the 69 records of
`objects_buffer`, and none is an instanced draw. -/
theorem render_eq_some [OfScientific F] [Neg F] [Add F] [Mul F] [Div F]
    (D : ApplicationDeps F M R P) (a : Application F M P) (now_globe now_cow : F)
    (gl : GLContext) :
    ∃ a' gl' camera_data rest, render D a now_globe now_cow gl = some (a', gl')
      ∧ a'.flags = a.flags ∧ a'.objects_buffer = a.objects_buffer
      ∧ gl'.calls = gl.calls ++
          [GLCall.NamedBufferSubData a.camera_buffer 0 sizeof_CameraUBO camera_data,
           GLCall.Viewport 0 0 (to_int a.width) (to_int a.height),
           GLCall.BindVertexArray a.skyboxVAO,
           GLCall.DrawArrays GL_TRIANGLES 0 36,
           GLCall.BindVertexArray 0]
          ++ (if a.night then
                [GLCall.BindBufferBase GL_SHADER_STORAGE_BUFFER 1 a.lights_night_buffer,
                 GLCall.BindVertexArray D.sphere.vao,
                 GLCall.DrawElementsInstanced D.sphere.mode D.sphere.draw_elements_count
                   GL_UNSIGNED_INT 0 195]
              else [])
          ++ rest
      ∧ ∀ c ∈ rest, scene_command a.objects_buffer c := by
  obtain ⟨s1, s2, s3, camera_data, s4⟩ := render_sky_spec D a gl
  unfold render
  simp only [Option.bind_eq_bind, s3, Option.some_bind]
  generalize render_sky D a gl = r0 at s1 s2 s3 s4 ⊢
  generalize (if a.night = true then a.lights_night_buffer else a.lights_day_buffer) = lights
  have h1 := render_furniture_scene r0.1 lights r0.2 r0.2 (continues_with_refl _ _)
  obtain ⟨h2, o2, f2⟩ := render_globe_scene D r0.1 lights now_globe r0.2 _ h1
  generalize render_globe D r0.1 lights now_globe (render_furniture r0.1 lights r0.2) = r1
    at h2 o2 f2 ⊢
  rw [← o2] at h2
  have h3 := render_room_scene r1.1 r0.2 r1.2 h2
  obtain ⟨gl4, e4, h4⟩ := render_trees_scene r1.1 r0.2 _ h3
  simp only [e4, Option.some_bind]
  have h5 := render_textured_scene r1.1 lights r0.2 gl4 h4
  obtain ⟨h6, o6, f6⟩ := render_ufo_and_cow_scene D r1.1 lights now_cow r0.2 _ h5
  generalize render_ufo_and_cow D r1.1 lights now_cow (render_textured r1.1 lights gl4) = r2
    at h6 o6 f6 ⊢
  rw [← o6] at h6
  have h7 := render_glass_and_cone_scene r2.1 lights r0.2 r2.2 h6
  rw [o6, o2, s1] at h7
  obtain ⟨rest, hrest, hp⟩ := h7
  refine ⟨_, _, camera_data, rest, rfl, by rw [f6, f2, s2], by rw [o6, o2, s1], ?_, hp⟩
  rw [hrest, s4]

end Application

namespace Application
variable {F M R P : Type}

/-- Claim C29. The constructor of `Application` returns; `sizeof(ObjectUBO)` is 256;
afterwards `objects_ubos` holds 69 records and `objects_buffer` was given a storage of
`69 * 256` bytes filled from them; and for every combination of the five flags, from
every context, `render` returns and every command of the frame that binds a range of
a buffer binds the bytes `[k * 256, k * 256 + 256)` of `objects_buffer` for a `k` with
`0 ≤ k < 69`. -/
theorem render_binds_whole_records [OfScientific F] [Neg F] [Add F] [Sub F] [Mul F] [Div F]
    (D : ApplicationDeps F M R P) (initial_width initial_height : Int)
    (geometries : Geometries F) (camera : Vec3 F) (camera_ubo : CameraUBO F M)
    (light_ubo : LightUBO F) (cone_light_ubo : ConeLightUBO F) (skyboxVAO : Nat)
    (time angle : F) (rng : R) (gl : GLContext) :
    sizeof_ObjectUBO = 256
      ∧ ∃ a rng' gl0, construct D initial_width initial_height geometries camera camera_ubo
            light_ubo cone_light_ubo skyboxVAO time angle rng gl = some (a, rng', gl0)
        ∧ a.objects_ubos.length = 69
        ∧ GLCall.NamedBufferStorage a.objects_buffer (a.objects_ubos.length * 256)
            (a.objects_ubos.map D.object_bytes).flatten GL_DYNAMIC_STORAGE_BIT ∈ gl0.calls
        ∧ ∀ (night walls_off toon_shading edge_detection camouflage : Bool)
            (now_globe now_cow : F) (gl1 : GLContext),
            ∃ a1 gl2 frame,
              render D (a.set_flags night walls_off toon_shading edge_detection camouflage)
                  now_globe now_cow gl1 = some (a1, gl2)
                ∧ gl2.calls = gl1.calls ++ frame
                ∧ ∀ c ∈ frame,
                    binds_whole_record a.objects_buffer a.objects_ubos.length 256 c := by
  refine ⟨sizeof_values.1, ?_⟩
  obtain ⟨a, rng1, gl0, hc, ho, -, -, -, -, pre, post, hcalls⟩ :=
    construct_eq_some D initial_width initial_height geometries camera camera_ubo
      light_ubo cone_light_ubo skyboxVAO time angle rng gl
  refine ⟨a, rng1, gl0, hc, ho, ?_, ?_⟩
  · rw [hcalls, ho]
    simp only [List.mem_append, List.mem_cons, true_or, or_true]
  · intro night walls_off toon_shading edge_detection camouflage now_globe now_cow gl1
    have hob : (a.set_flags night walls_off toon_shading edge_detection
        camouflage).objects_buffer = a.objects_buffer := rfl
    generalize a.set_flags night walls_off toon_shading edge_detection camouflage = b
      at hob ⊢
    obtain ⟨a1, gl2, camera_data, rest, hr, -, -, hcalls2, hp⟩ :=
      render_eq_some D b now_globe now_cow gl1
    refine ⟨a1, gl2,
      [GLCall.NamedBufferSubData b.camera_buffer 0 sizeof_CameraUBO camera_data,
       GLCall.Viewport 0 0 (to_int b.width) (to_int b.height),
       GLCall.BindVertexArray b.skyboxVAO,
       GLCall.DrawArrays GL_TRIANGLES 0 36,
       GLCall.BindVertexArray 0]
      ++ ((if b.night then
            [GLCall.BindBufferBase GL_SHADER_STORAGE_BUFFER 1 b.lights_night_buffer,
             GLCall.BindVertexArray D.sphere.vao,
             GLCall.DrawElementsInstanced D.sphere.mode D.sphere.draw_elements_count
               GL_UNSIGNED_INT 0 195]
          else [])
      ++ rest), hr, ?_, ?_⟩
    · rw [hcalls2, List.append_assoc, List.append_assoc]
    · rw [ho]
      intro c hmem
      rcases List.mem_append.1 hmem with h1 | h1
      · simp only [List.mem_cons, List.mem_singleton, List.not_mem_nil, or_false] at h1
        rcases h1 with rfl | rfl | rfl | rfl | rfl <;> exact trivial
      · rcases List.mem_append.1 h1 with h2 | h2
        · split_ifs at h2
          · simp only [List.mem_cons, List.mem_singleton, List.not_mem_nil, or_false] at h2
            rcases h2 with rfl | rfl | rfl <;> exact trivial
          · exact absurd h2 (List.not_mem_nil _)
        · rw [← hob]
          exact (hp c h2).1

/-- Claim C30. The constructor of `Application` returns, so its reads of 200 elements
of `lights_night` and of 3 elements of `lights_day` stay inside the vectors; afterwards
`lights_night` holds 200 lights and `lights_day` holds 3; the storages of
`lights_night_buffer` and `lights_day_buffer` were created with
`200 * sizeof(LightUBO)` and `3 * sizeof(LightUBO)` bytes, which is the size of each
vector times 64, filled with all the elements of the vector; the first 195 entries of
`lights_night` are what the loop of the stars pushed; and a frame drawn at night binds
`lights_night_buffer` and draws 195 instances of the sphere, and has no other instanced
draw. -/
theorem lights_counts_match [OfScientific F] [Neg F] [Add F] [Sub F] [Mul F] [Div F]
    (D : ApplicationDeps F M R P) (initial_width initial_height : Int)
    (geometries : Geometries F) (camera : Vec3 F) (camera_ubo : CameraUBO F M)
    (light_ubo : LightUBO F) (cone_light_ubo : ConeLightUBO F) (skyboxVAO : Nat)
    (time angle : F) (rng : R) (gl : GLContext) :
    sizeof_LightUBO = 64
      ∧ ∃ a rng' gl0, construct D initial_width initial_height geometries camera camera_ubo
            light_ubo cone_light_ubo skyboxVAO time angle rng gl = some (a, rng', gl0)
        ∧ a.lights_night.length = 200 ∧ a.lights_day.length = 3
        ∧ GLCall.NamedBufferStorage a.lights_night_buffer (a.lights_night.length * 64)
            (a.lights_night.map D.light_bytes).flatten GL_DYNAMIC_STORAGE_BIT ∈ gl0.calls
        ∧ GLCall.NamedBufferStorage a.lights_day_buffer (a.lights_day.length * 64)
            (a.lights_day.map D.light_bytes).flatten GL_DYNAMIC_STORAGE_BIT ∈ gl0.calls
        ∧ (∃ rng1, for_size_t 195 (fun _ s => some (push_star D s)) ([], rng)
            = some (a.lights_night.take 195, rng1))
        ∧ ∀ (walls_off toon_shading edge_detection camouflage : Bool)
            (now_globe now_cow : F) (gl1 : GLContext),
            ∃ a1 gl2 sky rest,
              render D (a.set_flags true walls_off toon_shading edge_detection camouflage)
                  now_globe now_cow gl1 = some (a1, gl2)
                ∧ gl2.calls = gl1.calls ++ sky ++
                    [GLCall.BindBufferBase GL_SHADER_STORAGE_BUFFER 1 a.lights_night_buffer,
                     GLCall.BindVertexArray D.sphere.vao,
                     GLCall.DrawElementsInstanced D.sphere.mode D.sphere.draw_elements_count
                       GL_UNSIGNED_INT 0 195] ++ rest
                ∧ (∀ c ∈ sky, not_instanced c) ∧ ∀ c ∈ rest, not_instanced c := by
  refine ⟨sizeof_values.2.2, ?_⟩
  obtain ⟨a, rng1, gl0, hc, -, hn, hd, hs, -, pre, post, hcalls⟩ :=
    construct_eq_some D initial_width initial_height geometries camera camera_ubo
      light_ubo cone_light_ubo skyboxVAO time angle rng gl
  refine ⟨a, rng1, gl0, hc, hn, hd, ?_, ?_, hs, ?_⟩
  · rw [hcalls, hn]
    simp only [List.mem_append, List.mem_cons, true_or, or_true]
  · rw [hcalls, hd]
    simp only [List.mem_append, List.mem_cons, true_or, or_true]
  · intro walls_off toon_shading edge_detection camouflage now_globe now_cow gl1
    have hnb : (a.set_flags true walls_off toon_shading edge_detection
        camouflage).lights_night_buffer = a.lights_night_buffer := rfl
    have hnight : (a.set_flags true walls_off toon_shading edge_detection
        camouflage).night = true := rfl
    generalize a.set_flags true walls_off toon_shading edge_detection camouflage = b
      at hnb hnight ⊢
    obtain ⟨a1, gl2, camera_data, rest, hr, -, -, hcalls2, hp⟩ :=
      render_eq_some D b now_globe now_cow gl1
    refine ⟨a1, gl2,
      [GLCall.NamedBufferSubData b.camera_buffer 0 sizeof_CameraUBO camera_data,
       GLCall.Viewport 0 0 (to_int b.width) (to_int b.height),
       GLCall.BindVertexArray b.skyboxVAO,
       GLCall.DrawArrays GL_TRIANGLES 0 36,
       GLCall.BindVertexArray 0], rest, hr, ?_, ?_, fun c hmem => (hp c hmem).2⟩
    · rw [hcalls2, hnight, if_pos rfl, hnb]
    · intro c h1
      simp only [List.mem_cons, List.mem_singleton, List.not_mem_nil, or_false] at h1
      rcases h1 with rfl | rfl | rfl | rfl | rfl <;> exact trivial

end Application

end PV112
